import Mathlib

/-! # CRIMETRYX-AI frontend: client-side state model

A shallow embedding of the state-handling code of the React pages
(`App.jsx`, `LoginPage.jsx`, `DashboardPage.jsx`, `CaseSetupPage.jsx`,
`SceneViewerPage.jsx`, `WorkflowCanvasPage.jsx`) and the properties stated about it.

Conventions of the embedding:

* a React component's `useState` cells become the fields of a state record, and an
  event handler becomes a function from the state at the time of the call to the
  state after the handler has run;
* `await fetch(...)` followed by `response.ok` / `await response.json()` is an
  explicit `FetchOutcome` argument of the handler: what the backend did is an input;
* `try { ... } catch { ... }` is an `Except` value for the `try` block followed by a
  match; a handler returns `Except JsError _`, where `.error` would be a rejection
  that leaves the handler;
* every network call a handler issues is appended to the `requests` log of the state;
  the workflow page logs its observable steps (status changes, requests, awaited
  pauses, resolution of `runAgent`) in the order in which they happen;
* a handler function follows one call from its start to its end; where a second
  call can start while the first one awaits its request, the handler is also given in
  its two halves, before and after the `await` (`handleSceneClickBegin` and
  `handleSceneClickSettle`, `runAgentStart` and the rest of `runAgent`);
* a session of the scene viewer is a list of steps (`SceneAction`), each handled to
  its end before the next one;
* `Date.now()`, `new Date().toISOString()` and `Math.random()` are arguments
  (`now`, `rnd`);
* the global `JSON` object is an argument (`JsonApi`): the statements hold for every
  `JSON.stringify` and `JSON.parse`, and `flatJson` is a fragment to run the model on.
-/

namespace Crimetryx

/-! ## JavaScript string primitives used by the pages -/

/-- `String.prototype.includes` on character lists: `pat` occurs in `hay` at some
position (checked position by position, from the left). -/
def includesChars : List Char → List Char → Bool
  | [], pat => pat.isPrefixOf []
  | c :: hay, pat => pat.isPrefixOf (c :: hay) || includesChars hay pat

/-- `s.includes(searchString)`. -/
def includes (s searchString : String) : Bool :=
  includesChars s.data searchString.data

/-- ASCII instance of `String.prototype.toLowerCase`, used to run the model on
concrete inputs. `filteredCases` takes the lower-casing function as an argument, so
the statements about it hold for the full Unicode mapping as well. -/
def asciiLowerCase (s : String) : String :=
  String.mk (s.data.map Char.toLower)

/-- The filler of `padStart`: `padString` repeated and cut to `fillLen` characters. -/
def padFiller (fillLen : Nat) (padString : List Char) : List Char :=
  ((List.replicate fillLen padString).flatten).take fillLen

/-- `s.padStart(targetLength, padString)`: `s` itself when it is already long enough
or the pad string is empty, otherwise `s` with the filler in front. -/
def padStart (s : String) (targetLength : Nat) (padString : String) : String :=
  if targetLength ≤ s.length then s
  else if padString.data = [] then s
  else String.mk (padFiller (targetLength - s.length) padString.data ++ s.data)

/-- `String(n)` for a non-negative integer: its decimal numeral. -/
def jsString (n : Nat) : String :=
  Nat.repr n

/-! ## Network model -/

/-- A rejection (thrown value) of an async function. -/
abbrev JsError := String

/-- What `await fetch(...)`, `response.ok` and `await response.json()` yield. -/
inductive FetchOutcome (α : Type) where
  /-- The `fetch` promise rejects (transport failure). -/
  | rejected : FetchOutcome α
  /-- The fetch resolves with `response.ok === false`. -/
  | notOk : FetchOutcome α
  /-- The response is ok but `response.json()` rejects. -/
  | badJson : FetchOutcome α
  /-- The response is ok and its body parses to `data`. -/
  | ok (data : α) : FetchOutcome α
  deriving DecidableEq, Repr

/-- The three fields of the case-creation form (`formData` of `CaseModal`). -/
structure CaseForm where
  location : String
  date : String
  investigator : String
  deriving DecidableEq, Repr

/-- The `updates` object of `handleUpdateEvidence`: the fields it carries. The panel
passes `{ notes }`; any field that is present overrides the marker's. -/
structure EvidencePatch where
  id : Option Nat
  evidence_id : Option String
  type : Option String
  x : Option Rat
  y : Option Rat
  z : Option Rat
  notes : Option String
  hash : Option String
  deriving DecidableEq, Repr

/-- Body of a request, as passed to `JSON.stringify`. -/
inductive Body where
  | none : Body
  | caseForm (formData : CaseForm) : Body
  | evidence (type : String) (x y z : Rat) : Body
  | evidencePatch (updates : EvidencePatch) : Body
  | credentials (investigator_id password : String) : Body
  deriving DecidableEq, Repr

/-- One call of `fetch`. -/
structure Request where
  method : String
  url : String
  body : Body
  deriving DecidableEq, Repr

/-! ## Dashboard (`DashboardPage.jsx`) -/

/-- A case record as held in the `cases` list. -/
structure Case where
  id : Nat
  case_id : String
  location : String
  date : String
  investigator : String
  status : String
  created_at : String
  deriving DecidableEq, Repr

/-- State cells of `DashboardPage`, with the log of the effects of its handlers. -/
structure DashboardState where
  cases : List Case
  loading : Bool
  searchTerm : String
  showModal : Bool
  requests : List Request
  navigations : List String
  console : List String
  deriving DecidableEq, Repr

/-- Initial state of `DashboardPage` (the `useState` initial values). -/
def DashboardState.init : DashboardState :=
  { cases := [], loading := true, searchTerm := "", showModal := false,
    requests := [], navigations := [], console := [] }

/-- The predicate of the `cases.filter(...)` call of `filteredCases`. -/
def caseMatches (toLowerCase : String → String) (searchTerm : String) (c : Case) : Bool :=
  includes (toLowerCase c.case_id) (toLowerCase searchTerm) ||
  includes (toLowerCase c.location) (toLowerCase searchTerm) ||
  includes (toLowerCase c.investigator) (toLowerCase searchTerm)

/-- `filteredCases` of `DashboardPage`. -/
def filteredCases (toLowerCase : String → String) (cases : List Case)
    (searchTerm : String) : List Case :=
  cases.filter (caseMatches toLowerCase searchTerm)

/-- The substring relation of the specification: `a` occurs contiguously in `b`. -/
def IsSubstring (a b : String) : Prop :=
  ∃ pre post : List Char, b.data = pre ++ a.data ++ post

/-- The demo data that the `catch` branch of `fetchCases` installs. -/
def demoCases (now : String) : List Case :=
  [ { id := 1
      case_id := "CRX-2024-0001"
      location := "Arkham City, 1st Floor Master Bedroom"
      date := "2024-12-08"
      investigator := "Demo Investigator"
      status := "analyzed"
      created_at := now },
    { id := 2
      case_id := "CRX-2024-0002"
      location := "Gotham Heights, Warehouse District"
      date := "2024-12-15"
      investigator := "Demo Investigator"
      status := "active"
      created_at := now } ]

/-- `fetchCases` of `DashboardPage`: `try` (fetch, and `setCases(data)` when the
response is ok), `catch` (log, install the demo data), `finally` (`setLoading(false)`). -/
def fetchCases (resp : FetchOutcome (List Case)) (now : String) (st : DashboardState) :
    Except JsError DashboardState :=
  let st1 := { st with requests := st.requests ++ [Request.mk "GET" "/api/cases" Body.none] }
  let tryBlock : Except JsError DashboardState :=
    match resp with
    | .rejected => .error "TypeError: Failed to fetch"
    | .notOk => .ok st1
    | .badJson => .error "SyntaxError: Unexpected token"
    | .ok data => .ok { st1 with cases := data }
  let afterCatch : DashboardState :=
    match tryBlock with
    | .ok s => s
    | .error err =>
      { st1 with
        console := st1.console ++ ["Failed to fetch cases: " ++ err]
        cases := demoCases now }
  .ok { afterCatch with loading := false }

/-- The case object that the `catch` branch of `handleCreateCase` builds from the
current list and the form: `{ id, case_id, ...formData, status, created_at }`. -/
def localCase (cases : List Case) (formData : CaseForm) (now : String) : Case :=
  { id := cases.length + 1
    case_id := "CRX-2024-" ++ padStart (jsString (cases.length + 1)) 4 "0"
    location := formData.location
    date := formData.date
    investigator := formData.investigator
    status := "active"
    created_at := now }

/-- The target of `navigate` after a case has been created. -/
def setupRoute (c : Case) : String :=
  "/case/" ++ jsString c.id ++ "/setup"

/-- `handleCreateCase` of `DashboardPage`: POST the form; when the response is ok,
prepend the returned case and navigate; when the `try` block throws, prepend the
locally built case and navigate. A response that is not ok takes neither branch. -/
def handleCreateCase (formData : CaseForm) (resp : FetchOutcome Case) (now : String)
    (st : DashboardState) : Except JsError DashboardState :=
  let st1 :=
    { st with requests := st.requests ++ [Request.mk "POST" "/api/cases" (Body.caseForm formData)] }
  let tryBlock : Except JsError DashboardState :=
    match resp with
    | .rejected => .error "TypeError: Failed to fetch"
    | .notOk => .ok st1
    | .badJson => .error "SyntaxError: Unexpected token"
    | .ok newCase =>
      .ok { st1 with
            cases := newCase :: st1.cases
            navigations := st1.navigations ++ [setupRoute newCase] }
  match tryBlock with
  | .ok s => .ok s
  | .error _ =>
    let newCase := localCase st1.cases formData now
    .ok { st1 with
          cases := newCase :: st1.cases
          navigations := st1.navigations ++ [setupRoute newCase] }

/-! ### The case-creation form (`CaseModal`) -/

/-- State cells of `CaseModal`. -/
structure CaseModalState where
  formData : CaseForm
  loading : Bool
  deriving DecidableEq, Repr

/-- The dashboard page together with its modal. -/
structure DashboardView where
  page : DashboardState
  modal : CaseModalState
  deriving DecidableEq, Repr

/-- `handleSubmit` of `CaseModal`, with `onSubmit = handleCreateCase` and
`onClose = () => setShowModal(false)` as wired by `DashboardPage`. The modal's
`loading` cell is set while `onSubmit` is awaited and cleared when it has returned;
the state after the handler is what is modelled. -/
def handleSubmit (resp : FetchOutcome Case) (now : String) (v : DashboardView) :
    Except JsError DashboardView :=
  match handleCreateCase v.modal.formData resp now v.page with
  | .error err => .error err
  | .ok page =>
    .ok { page := { page with showModal := false }
          modal := { v.modal with loading := false } }

/-- A form control as far as constraint validation is concerned. -/
structure FormInput where
  value : String
  required : Bool
  disabled : Bool
  deriving DecidableEq, Repr

/-- The four `<input>` elements of the form of `CaseModal`, in document order: the
disabled "Case ID" field and the three `required` fields bound to `formData`. -/
def caseModalInputs (formData : CaseForm) : List FormInput :=
  [ { value := "Auto-generated", required := false, disabled := true },
    { value := formData.location, required := true, disabled := false },
    { value := formData.date, required := true, disabled := false },
    { value := formData.investigator, required := true, disabled := false } ]

/-- Constraint validation of a form by the browser: a control is invalid when it is
`required`, enabled, and its value is the empty string. -/
def checkValidity (inputs : List FormInput) : Bool :=
  inputs.all fun i => !(i.required && !i.disabled && i.value = "")

/-- Pressing the submit button of the form: the browser validates the controls and
dispatches `submit` (running `onSubmit = handleSubmit`) only when they are valid;
otherwise nothing of the page runs. -/
def submitCaseForm (resp : FetchOutcome Case) (now : String) (v : DashboardView) :
    Except JsError DashboardView :=
  if checkValidity (caseModalInputs v.modal.formData) then handleSubmit resp now v
  else .ok v

/-! ## Scene viewer (`SceneViewerPage.jsx`) -/

/-- An evidence marker as held in the `evidence` list. Coordinates are only copied,
never computed with, and are kept as rationals. -/
structure EvidenceMarker where
  id : Nat
  evidence_id : String
  type : String
  x : Rat
  y : Rat
  z : Rat
  notes : String
  hash : String
  deriving DecidableEq, Repr

/-- The point of a click on the render surface (`e.point`). -/
structure Point where
  x : Rat
  y : Rat
  z : Rat
  deriving DecidableEq, Repr

/-- State cells of `SceneViewerPage` that the evidence handlers read or write, the
`caseId` route parameter, and the log of the effects of the handlers. -/
structure SceneState where
  caseId : String
  evidence : List EvidenceMarker
  selectedEvidence : Option Nat
  isAddingMode : Bool
  newEvidenceType : String
  requests : List Request
  console : List String
  deriving DecidableEq, Repr

/-- Initial state of `SceneViewerPage` for the case `caseId`. -/
def SceneState.init (caseId : String) : SceneState :=
  { caseId := caseId, evidence := [], selectedEvidence := none, isAddingMode := false,
    newEvidenceType := "bloodstain_spatter", requests := [], console := [] }

/-- The URL of the evidence collection of the case. -/
def evidenceUrl (caseId : String) : String :=
  "/api/cases/" ++ caseId ++ "/evidence"

/-- The demo evidence that the `catch` branch of `fetchEvidence` installs. -/
def demoEvidence : List EvidenceMarker :=
  [ { id := 1, evidence_id := "E-001", type := "bloodstain", x := 1, y := 0, z := -1,
      notes := "Directional spray pattern", hash := "abc123..." },
    { id := 2, evidence_id := "E-002", type := "weapon", x := -2, y := 0, z := 1 / 2,
      notes := "Kitchen knife, 15cm blade", hash := "def456..." },
    { id := 3, evidence_id := "E-003", type := "footprint", x := 0, y := 0, z := 2,
      notes := "Size 10 boot print", hash := "ghi789..." } ]

/-- `fetchEvidence` of `SceneViewerPage`. -/
def fetchEvidence (resp : FetchOutcome (List EvidenceMarker)) (st : SceneState) :
    Except JsError SceneState :=
  let st1 := { st with requests := st.requests ++ [Request.mk "GET" (evidenceUrl st.caseId) Body.none] }
  let tryBlock : Except JsError SceneState :=
    match resp with
    | .rejected => .error "TypeError: Failed to fetch"
    | .notOk => .ok st1
    | .badJson => .error "SyntaxError: Unexpected token"
    | .ok data => .ok { st1 with evidence := data }
  match tryBlock with
  | .ok s => .ok s
  | .error _ => .ok { st1 with evidence := demoEvidence }

/-- The `newEvidence` object that `handleSceneClick` builds before it tries to
persist the marker. -/
def newEvidence (evidence : List EvidenceMarker) (newEvidenceType : String)
    (point : Point) (now : Nat) : EvidenceMarker :=
  { id := now
    evidence_id := "E-" ++ padStart (jsString (evidence.length + 1)) 3 "0"
    type := newEvidenceType
    x := point.x
    y := point.y
    z := point.z
    notes := ""
    hash := "pending..." }

/-- `handleSceneClick` of `SceneViewerPage`: returns at once unless in adding mode;
otherwise POSTs the marker, appends the returned marker (response ok) or the local
one (response not ok, or the `try` block throws), and leaves adding mode. -/
def handleSceneClick (point : Point) (resp : FetchOutcome EvidenceMarker) (now : Nat)
    (st : SceneState) : Except JsError SceneState :=
  if !st.isAddingMode then .ok st
  else
    let local_ := newEvidence st.evidence st.newEvidenceType point now
    let st1 :=
      { st with
        requests := st.requests ++
          [Request.mk "POST" (evidenceUrl st.caseId)
            (Body.evidence st.newEvidenceType point.x point.y point.z)] }
    let tryBlock : Except JsError SceneState :=
      match resp with
      | .rejected => .error "TypeError: Failed to fetch"
      | .notOk => .ok { st1 with evidence := st1.evidence ++ [local_] }
      | .badJson => .error "SyntaxError: Unexpected token"
      | .ok data => .ok { st1 with evidence := st1.evidence ++ [data] }
    let afterCatch : SceneState :=
      match tryBlock with
      | .ok s => s
      | .error _ => { st1 with evidence := st1.evidence ++ [local_] }
    .ok { afterCatch with isAddingMode := false }

/-- `handleDeleteEvidence` of `SceneViewerPage`: a best-effort DELETE (a rejection is
logged; the response is not inspected), then the marker is filtered out of the local
list and the selection is cleared. -/
def handleDeleteEvidence (id : Nat) (resp : FetchOutcome Unit) (st : SceneState) :
    Except JsError SceneState :=
  let st1 :=
    { st with
      requests := st.requests ++
        [Request.mk "DELETE" (evidenceUrl st.caseId ++ "/" ++ jsString id) Body.none] }
  let afterCatch : SceneState :=
    match resp with
    | .rejected =>
      { st1 with
        console := st1.console ++ ["Failed to delete evidence: TypeError: Failed to fetch"] }
    | _ => st1
  .ok { afterCatch with
        evidence := afterCatch.evidence.filter (fun e => e.id != id)
        selectedEvidence := none }

/-- The Add / Cancel button of `EvidencePanel`: `setIsAddingMode(!isAddingMode)`. -/
def toggleAddingMode (st : SceneState) : SceneState :=
  { st with isAddingMode := !st.isAddingMode }

/-- A type button of `EvidencePanel`: `setNewEvidenceType(key)`. -/
def setNewEvidenceType (key : String) (st : SceneState) : SceneState :=
  { st with newEvidenceType := key }

/-- An entry of `EVIDENCE_TYPES` (the icon component is left out). -/
structure EvidenceTypeConfig where
  label : String
  color : String
  description : String
  category : String
  deriving DecidableEq, Repr

/-- The catalog `EVIDENCE_TYPES`, as its key-value pairs in source order. -/
def EVIDENCE_TYPES : List (String × EvidenceTypeConfig) :=
  [
    ("bloodstain_spatter", { label := "Blood Spatter", color := "#dc2626", description := "Impact spatter pattern", category := "biological" }),
    ("bloodstain_pool", { label := "Blood Pool", color := "#b91c1c", description := "Pooled blood accumulation", category := "biological" }),
    ("bloodstain_transfer", { label := "Blood Transfer", color := "#ef4444", description := "Contact transfer pattern", category := "biological" }),
    ("bloodstain_cast_off", { label := "Cast-Off Pattern", color := "#f87171", description := "Swing/motion pattern", category := "biological" }),
    ("weapon_knife", { label := "Knife/Blade", color := "#7c3aed", description := "Sharp instrument", category := "weapon" }),
    ("weapon_firearm", { label := "Firearm", color := "#6d28d9", description := "Gun/projectile weapon", category := "weapon" }),
    ("weapon_blunt", { label := "Blunt Object", color := "#8b5cf6", description := "Impact weapon", category := "weapon" }),
    ("shell_casing", { label := "Shell Casing", color := "#a78bfa", description := "Ammunition casing", category := "weapon" }),
    ("fingerprint", { label := "Fingerprint", color := "#0891b2", description := "Latent/patent print", category := "trace" }),
    ("footprint", { label := "Footprint", color := "#f59e0b", description := "Shoe/foot impression", category := "trace" }),
    ("fiber", { label := "Fiber/Hair", color := "#84cc16", description := "Textile or hair sample", category := "trace" }),
    ("document", { label := "Document", color := "#64748b", description := "Paper evidence", category := "other" }),
    ("drug_paraphernalia", { label := "Drug Evidence", color := "#ec4899", description := "Narcotics related", category := "other" }),
    ("cigarette", { label := "Cigarette/Ash", color := "#78716c", description := "Smoking material", category := "other" }),
    ("photo_marker", { label := "Photo Marker", color := "#fbbf24", description := "Reference point", category := "other" }),
    ("other", { label := "Other", color := "#6b7280", description := "Miscellaneous evidence", category := "other" }) ]

/-- The keys of `EVIDENCE_TYPES` (`Object.keys`). -/
def evidenceTypeKeys : List String :=
  EVIDENCE_TYPES.map Prod.fst

/-- The patch `{ notes: s }` that the Save button of `EvidencePanel` passes. -/
def notesPatch (s : String) : EvidencePatch :=
  { id := none, evidence_id := none, type := none, x := none, y := none, z := none,
    notes := some s, hash := none }

/-- The object spread `{ ...e, ...updates }`. -/
def applyPatch (e : EvidenceMarker) (updates : EvidencePatch) : EvidenceMarker :=
  { id := updates.id.getD e.id
    evidence_id := updates.evidence_id.getD e.evidence_id
    type := updates.type.getD e.type
    x := updates.x.getD e.x
    y := updates.y.getD e.y
    z := updates.z.getD e.z
    notes := updates.notes.getD e.notes
    hash := updates.hash.getD e.hash }

/-- `handleUpdateEvidence` of `SceneViewerPage`: a best-effort PUT (a rejection is
logged; the response is not inspected), then the patch is applied to every marker of
the local list whose `id` is the given one. -/
def handleUpdateEvidence (id : Nat) (updates : EvidencePatch) (resp : FetchOutcome Unit)
    (st : SceneState) : Except JsError SceneState :=
  let st1 :=
    { st with
      requests := st.requests ++
        [Request.mk "PUT" (evidenceUrl st.caseId ++ "/" ++ jsString id)
          (Body.evidencePatch updates)] }
  let afterCatch : SceneState :=
    match resp with
    | .rejected =>
      { st1 with
        console := st1.console ++ ["Failed to update evidence: TypeError: Failed to fetch"] }
    | _ => st1
  .ok { afterCatch with
        evidence := afterCatch.evidence.map (fun e => if e.id = id then applyPatch e updates else e) }

/-! ### A call of `handleSceneClick` on either side of its `await` -/

/-- What a call of `handleSceneClick` holds on to while its POST is awaited: the
`evidence` list of the render in which the click happened, and the `newEvidence`
object built from it. -/
structure PendingClick where
  evidence : List EvidenceMarker
  marker : EvidenceMarker
  deriving DecidableEq, Repr

/-- `handleSceneClick` up to its `await`: the guard on `isAddingMode`, the
`newEvidence` object, and the POST. No state cell is written before the `await`; an
idle click leaves nothing pending. -/
def handleSceneClickBegin (point : Point) (now : Nat) (st : SceneState) :
    SceneState × Option PendingClick :=
  if !st.isAddingMode then (st, none)
  else
    ({ st with
       requests := st.requests ++
         [Request.mk "POST" (evidenceUrl st.caseId)
           (Body.evidence st.newEvidenceType point.x point.y point.z)] },
     some { evidence := st.evidence
            marker := newEvidence st.evidence st.newEvidenceType point now })

/-- `handleSceneClick` from the moment its POST settles: `setEvidence([...evidence, x])`
on the `evidence` list the call was started with, where `x` is the returned marker
(response ok) or the local one, and then `setIsAddingMode(false)`. -/
def handleSceneClickSettle (pending : PendingClick) (resp : FetchOutcome EvidenceMarker)
    (st : SceneState) : SceneState :=
  let tryBlock : Except JsError SceneState :=
    match resp with
    | .rejected => .error "TypeError: Failed to fetch"
    | .notOk => .ok { st with evidence := pending.evidence ++ [pending.marker] }
    | .badJson => .error "SyntaxError: Unexpected token"
    | .ok data => .ok { st with evidence := pending.evidence ++ [data] }
  let afterCatch : SceneState :=
    match tryBlock with
    | .ok s => s
    | .error _ => { st with evidence := pending.evidence ++ [pending.marker] }
  { afterCatch with isAddingMode := false }

/-! ### Sessions of the scene viewer -/

/-- A marker of the list or of the scene is clicked: `setSelectedEvidence(item.id)`. -/
def setSelectedEvidence (id : Nat) (st : SceneState) : SceneState :=
  { st with selectedEvidence := some id }

/-- One step of a session on the scene viewer: the load of the evidence list, or one
action of the user together with what the backend answers to it. -/
inductive SceneAction where
  /-- The effect that calls `fetchEvidence`. -/
  | load (resp : FetchOutcome (List EvidenceMarker)) : SceneAction
  /-- The Add / Cancel button. -/
  | toggle : SceneAction
  /-- A type button of the catalog. -/
  | selectType (key : String) : SceneAction
  /-- A click on a marker. -/
  | selectMarker (id : Nat) : SceneAction
  /-- A click on the render surface. -/
  | click (point : Point) (resp : FetchOutcome EvidenceMarker) (now : Nat) : SceneAction
  /-- The Save button of the panel, or any other call of `handleUpdateEvidence`. -/
  | update (id : Nat) (updates : EvidencePatch) (resp : FetchOutcome Unit) : SceneAction
  /-- The Delete button of the panel. -/
  | delete (id : Nat) (resp : FetchOutcome Unit) : SceneAction
  deriving DecidableEq, Repr

/-- Whether the step selects an evidence type. -/
def SceneAction.selectsType : SceneAction → Bool
  | .selectType _ => true
  | _ => false

/-- The handler that a step of a session calls. -/
def SceneAction.run (a : SceneAction) (st : SceneState) : Except JsError SceneState :=
  match a with
  | .load resp => fetchEvidence resp st
  | .toggle => .ok (toggleAddingMode st)
  | .selectType key => .ok (setNewEvidenceType key st)
  | .selectMarker id => .ok (setSelectedEvidence id st)
  | .click point resp now => handleSceneClick point resp now st
  | .update id updates resp => handleUpdateEvidence id updates resp st
  | .delete id resp => handleDeleteEvidence id resp st

/-- A session: the steps are handled one after the other, each to its end. -/
def runSceneActions : List SceneAction → SceneState → Except JsError SceneState
  | [], st => .ok st
  | a :: rest, st =>
    match a.run st with
    | .ok st1 => runSceneActions rest st1
    | .error err => .error err

/-! ## Agent workflow (`WorkflowCanvasPage.jsx`) -/

/-- A JavaScript value as the workflow page handles it: the JSON values that
`response.json()` and the object literals of the page produce, and `native` for a
built-in function or object of the runtime reached through an inherited property. -/
inductive JsValue where
  | null : JsValue
  | bool (b : Bool) : JsValue
  | num (n : Rat) : JsValue
  | str (s : String) : JsValue
  | arr (items : List JsValue) : JsValue
  | obj (fields : List (String × JsValue)) : JsValue
  | native (name : String) : JsValue

/-- Property access `v.key` for the keys the page reads (`output`, `scenarios`): the
field of an object literal, `none` (that is `undefined`) when the object has no such
field or the value is not an object. -/
def JsValue.get? : JsValue → String → Option JsValue
  | .obj fields, key => fields.lookup key
  | _, _ => none

/-- Truthiness of a value, as tested by `&&`, `||` and `if`. -/
def JsValue.truthy : JsValue → Bool
  | .null => false
  | .bool b => b
  | .num n => n != 0
  | .str s => s != ""
  | .arr _ => true
  | .obj _ => true
  | .native _ => true

/-- A plain object used as a map from string keys, as its own properties in
insertion order. -/
structure JsObject (α : Type) where
  entries : List (String × α)

/-- The own property `o[key]`, `none` when there is none. -/
def JsObject.get? {α : Type} (o : JsObject α) (key : String) : Option α :=
  o.entries.lookup key

/-- `{ ...o, [key]: v }`: an existing key keeps its place and takes the new value,
a new key is added at the end. -/
def JsObject.set {α : Type} (o : JsObject α) (key : String) (v : α) : JsObject α :=
  if o.entries.any (fun kv => kv.1 == key) then
    ⟨o.entries.map (fun kv => if kv.1 = key then (key, v) else kv)⟩
  else ⟨o.entries ++ [(key, v)]⟩

/-- `Object.keys(o)`. -/
def JsObject.keys {α : Type} (o : JsObject α) : List String :=
  o.entries.map Prod.fst

/-- An observable step of the workflow page: a `setAgentStatuses` call (with the
status map it produces), a `fetch`, a `setTimeout` pause that is awaited, and the
resolution of the promise of `runAgent`. -/
inductive Event where
  | status (agentId value : String) (statuses : JsObject String) : Event
  | request (r : Request) : Event
  | delay (ms : Nat) : Event
  | resolved (agentId : String) : Event

/-- State cells of `WorkflowCanvasPage` that `runAgent` and `runFullAnalysis` read or
write, the `caseId` route parameter, and the log of their observable steps. -/
structure WorkflowState where
  caseId : String
  agentStatuses : JsObject String
  agentResults : JsObject JsValue
  hypotheses : JsValue
  isRunningAll : Bool
  log : List Event

/-- Initial state of `WorkflowCanvasPage` for the case `caseId`. -/
def WorkflowState.init (caseId : String) : WorkflowState :=
  { caseId := caseId
    agentStatuses :=
      ⟨[("scene_interpreter", "idle"), ("evidence_reasoner", "idle"),
        ("timeline_builder", "idle"), ("hypothesis_challenger", "idle")]⟩
    agentResults := ⟨[]⟩
    hypotheses := .arr []
    isRunningAll := false
    log := [] }

/-- `setAgentStatuses(prev => ({ ...prev, [agentId]: value }))`. -/
def WorkflowState.setAgentStatus (st : WorkflowState) (agentId value : String) :
    WorkflowState :=
  { st with
    agentStatuses := st.agentStatuses.set agentId value
    log := st.log ++ [Event.status agentId value (st.agentStatuses.set agentId value)] }

/-- Append an observable step to the log. -/
def WorkflowState.logEvent (st : WorkflowState) (e : Event) : WorkflowState :=
  { st with log := st.log ++ [e] }

/-- `setAgentResults(prev => ({ ...prev, [agentId]: result }))`. -/
def WorkflowState.setAgentResult (st : WorkflowState) (agentId : String) (result : JsValue) :
    WorkflowState :=
  { st with agentResults := st.agentResults.set agentId result }

/-- The URL that `runAgent` posts to. -/
def agentRunUrl (caseId agentId : String) : String :=
  "/api/cases/" ++ caseId ++ "/agents/" ++ agentId ++ "/run"

/-- The `outputs` object literal of `getDemoOutput`. -/
def demoOutputs : List (String × JsValue) :=
  [ ("scene_interpreter", .obj
      [ ("entry_exit_points", .arr
          [ .obj [("location", .str "Main entrance"), ("type", .str "entry")],
            .obj [("location", .str "Back window"), ("type", .str "exit")] ]),
        ("visibility_analysis", .arr
          [ .obj [("from", .str "Doorway"), ("to", .str "Living room"), ("visible", .bool true)] ]),
        ("reasoning", .str "The scene shows a single-story residence with limited entry points. The main entrance shows signs of forced entry, while the back window was found unlocked.") ]),
    ("evidence_reasoner", .obj
      [ ("evidence_analysis", .arr
          [ .obj [("evidence_id", .str "E-001"), ("type", .str "bloodstain"),
              ("findings", .arr [.str "Directional spray indicating movement",
                .str "Height suggests standing victim"])],
            .obj [("evidence_id", .str "E-002"), ("type", .str "weapon"),
              ("findings", .arr [.str "Fingerprints recovered",
                .str "Consistent with wound patterns"])] ]),
        ("reasoning", .str "Blood spatter patterns indicate the victim was struck while standing and moving toward the exit. The weapon location suggests it was dropped during the struggle.") ]),
    ("timeline_builder", .obj
      [ ("scenarios", .arr
          [ .obj
              [ ("scenario_id", .str "A"),
                ("title", .str "Confrontation at Entry"),
                ("confidence", .num (72 / 100)),
                ("timeline", .arr
                  [ .obj [("sequence", .num 1), ("event", .str "Perpetrator enters through main door"), ("estimated_time", .str "T+0")],
                    .obj [("sequence", .num 2), ("event", .str "Confrontation in living room"), ("estimated_time", .str "T+2min")],
                    .obj [("sequence", .num 3), ("event", .str "Physical altercation occurs"), ("estimated_time", .str "T+5min")],
                    .obj [("sequence", .num 4), ("event", .str "Perpetrator exits via back window"), ("estimated_time", .str "T+8min")] ]),
                ("supporting_evidence", .arr [.str "E-001", .str "E-002"]) ],
            .obj
              [ ("scenario_id", .str "B"),
                ("title", .str "Staged Scene"),
                ("confidence", .num (28 / 100)),
                ("timeline", .arr
                  [ .obj [("sequence", .num 1), ("event", .str "Victim was incapacitated elsewhere"), ("estimated_time", .str "Unknown")],
                    .obj [("sequence", .num 2), ("event", .str "Scene was arranged post-incident"), ("estimated_time", .str "Unknown")],
                    .obj [("sequence", .num 3), ("event", .str "Evidence was planted"), ("estimated_time", .str "Unknown")] ]),
                ("supporting_evidence", .arr [.str "E-003"]) ] ]),
        ("reasoning", .str "Based on evidence patterns, Scenario A has higher probability due to consistent blood spatter and witness timeline.") ]),
    ("hypothesis_challenger", .obj
      [ ("challenges", .arr
          [ .obj
              [ ("scenario_id", .str "A"),
                ("contradictions", .arr
                  [ .obj [("type", .str "timeline_conflict"), ("description", .str "Blood drying pattern suggests longer timeline than witness accounts")] ]),
                ("revised_confidence", .num (65 / 100)) ],
            .obj
              [ ("scenario_id", .str "B"),
                ("contradictions", .arr
                  [ .obj [("type", .str "physical_impossibility"), ("description", .str "No evidence of victim being moved post-mortem")] ]),
                ("revised_confidence", .num (25 / 100)) ] ]),
        ("overall_assessment", .str "Scenario A remains most likely but requires timeline verification with forensic lab results.") ]) ]

/-- The property names that every object literal inherits from `Object.prototype`
in a browser; `o[name]` for such a name is a built-in function (or, for `__proto__`,
the prototype object) unless `o` has an own property of that name. -/
def objectPrototypeKeys : List String :=
  [ "constructor", "__defineGetter__", "__defineSetter__", "hasOwnProperty",
    "__lookupGetter__", "__lookupSetter__", "isPrototypeOf", "propertyIsEnumerable",
    "toString", "valueOf", "__proto__", "toLocaleString" ]

/-- `getDemoOutput` of `WorkflowCanvasPage`: `outputs[agentId] || {}`. -/
def getDemoOutput (agentId : String) : JsValue :=
  match demoOutputs.lookup agentId with
  | some v => if v.truthy then v else .obj []
  | none => if agentId ∈ objectPrototypeKeys then .native agentId else .obj []

/-- The `demoResult` object of the `catch` block of `runAgent`; `rnd` is the value of
`Math.random()`. -/
def demoResult (agentId : String) (rnd : Rat) : JsValue :=
  .obj [ ("status", .str "completed"),
         ("execution_time", .num (5 / 2 + rnd * 2)),
         ("output", getDemoOutput agentId) ]

/-- `result.output?.scenarios` for a `result` that is not `null`. -/
def scenariosOf (result : JsValue) : Option JsValue :=
  match result.get? "output" with
  | none => none
  | some .null => none
  | some output => output.get? "scenarios"

/-- The `try` block of `runAgent` after the request has been issued: the state it
reaches and the exception it is left by, if any. A response that is not ok throws
`Agent execution failed`; reading `result.output` of a `null` result throws after
the result and the status have been stored. -/
def runAgentTry (agentId : String) (resp : FetchOutcome JsValue) (st : WorkflowState) :
    WorkflowState × Option JsError :=
  match resp with
  | .rejected => (st, some "TypeError: Failed to fetch")
  | .notOk => (st, some "Error: Agent execution failed")
  | .badJson => (st, some "SyntaxError: Unexpected token")
  | .ok result =>
    let st1 := (st.setAgentResult agentId result).setAgentStatus agentId "completed"
    if agentId = "timeline_builder" then
      match result with
      | .null => (st1, some "TypeError: Cannot read properties of null")
      | _ =>
        match scenariosOf result with
        | some scenarios =>
          if scenarios.truthy then ({ st1 with hypotheses := scenarios }, none) else (st1, none)
        | none => (st1, none)
    else (st1, none)

/-- The `catch` block of `runAgent`: pause two seconds, store the demo result, mark
the stage completed, and for the timeline builder install its scenarios
(`demoResult.output.scenarios || []`). -/
def runAgentCatch (agentId : String) (rnd : Rat) (st : WorkflowState) : WorkflowState :=
  let st1 := st.logEvent (Event.delay 2000)
  let st2 := (st1.setAgentResult agentId (demoResult agentId rnd)).setAgentStatus agentId "completed"
  if agentId = "timeline_builder" then
    { st2 with
      hypotheses :=
        match (getDemoOutput agentId).get? "scenarios" with
        | some scenarios => if scenarios.truthy then scenarios else .arr []
        | none => .arr [] }
  else st2

/-- The start of `runAgent`: the stage is marked running and the request is issued. -/
def runAgentStart (agentId : String) (st : WorkflowState) : WorkflowState :=
  (st.setAgentStatus agentId "running").logEvent
    (Event.request (Request.mk "POST" (agentRunUrl st.caseId agentId) Body.none))

/-- `runAgent` of `WorkflowCanvasPage`: the start, the `try` block, the `catch`
block when the `try` block threw, and the resolution of the returned promise. -/
def runAgent (agentId : String) (resp : FetchOutcome JsValue) (rnd : Rat)
    (st : WorkflowState) : Except JsError WorkflowState :=
  let tried := runAgentTry agentId resp (runAgentStart agentId st)
  let st3 :=
    match tried.2 with
    | none => tried.1
    | some _ => runAgentCatch agentId rnd tried.1
  .ok (st3.logEvent (Event.resolved agentId))

/-- The `agentOrder` array of `runFullAnalysis`. -/
def agentOrder : List String :=
  ["scene_interpreter", "evidence_reasoner", "timeline_builder", "hypothesis_challenger"]

/-- One turn of the loop of `runFullAnalysis`: `await runAgent(agentId)` and the
awaited pause of 500 ms. -/
def runStage (resps : String → FetchOutcome JsValue) (rnds : String → Rat)
    (st : WorkflowState) (agentId : String) : Except JsError WorkflowState :=
  match runAgent agentId (resps agentId) (rnds agentId) st with
  | .error err => .error err
  | .ok st1 => .ok (st1.logEvent (Event.delay 500))

/-- `runFullAnalysis` of `WorkflowCanvasPage`; `resps` and `rnds` give, for each
agent id, what the backend answers to its request and the value of `Math.random()`. -/
def runFullAnalysis (resps : String → FetchOutcome JsValue) (rnds : String → Rat)
    (st : WorkflowState) : Except JsError WorkflowState :=
  match agentOrder.foldlM (runStage resps rnds) { st with isRunningAll := true } with
  | .error err => .error err
  | .ok stN => .ok { stN with isRunningAll := false }

/-- Remove the own property `key` (`delete o[key]`, `removeItem`). -/
def JsObject.remove {α : Type} (o : JsObject α) (key : String) : JsObject α :=
  ⟨o.entries.filter (fun kv => kv.1 != key)⟩

/-- Truthiness of a value that may be `undefined` (`none`). -/
def truthy? : Option JsValue → Bool
  | none => false
  | some v => v.truthy

/-- The global `JSON` object of the runtime, an input of the model: `stringify`
yields `none` for a value it maps to `undefined`, `parse` yields `none` when it
throws a `SyntaxError`. -/
structure JsonApi where
  stringify : JsValue → Option String
  parse : String → Option JsValue

/-- What `await fetch(...)` followed by `await response.json()` yields when the body
is read before `response.ok` is looked at. -/
inductive JsonResponse where
  /-- The `fetch` promise rejects (transport failure). -/
  | rejected : JsonResponse
  /-- The fetch resolves and `response.json()` rejects. -/
  | unreadable (ok : Bool) : JsonResponse
  /-- The fetch resolves with `response.ok = ok` and the body parses to `data`. -/
  | body (ok : Bool) (data : JsValue) : JsonResponse

/-! ## Session (`App.jsx`) -/

/-- The key under which the session identity is persisted. -/
def userKey : String :=
  "crimetryx_user"

/-- The `user` state cell of `App` (`none` is `undefined`) and `localStorage`. -/
structure Session where
  user : Option JsValue
  localStorage : JsObject String

/-- The initialiser of the `user` state cell:
`saved ? JSON.parse(saved) : null` for `saved = localStorage.getItem(userKey)`.
It throws when the saved text does not parse. -/
def initUser (json : JsonApi) (localStorage : JsObject String) :
    Except JsError (Option JsValue) :=
  match localStorage.get? userKey with
  | none => .ok (some .null)
  | some saved =>
    if saved = "" then .ok (some .null)
    else
      match json.parse saved with
      | some v => .ok (some v)
      | none => .error "SyntaxError: Unexpected token"

/-- Mounting `App` over a given `localStorage` (a process start). -/
def initSession (json : JsonApi) (localStorage : JsObject String) : Except JsError Session :=
  match initUser json localStorage with
  | .error err => .error err
  | .ok user => .ok { user := user, localStorage := localStorage }

/-- `login` of `App`: `setUser(userData)` and
`localStorage.setItem(userKey, JSON.stringify(userData))`; `setItem` stores the
string conversion of its argument, which is `undefined` for `undefined`. -/
def login (json : JsonApi) (userData : Option JsValue) (s : Session) : Session :=
  { user := userData
    localStorage :=
      s.localStorage.set userKey ((userData.bind json.stringify).getD "undefined") }

/-- `logout` of `App`: `setUser(null)` and `localStorage.removeItem(userKey)`. -/
def logout (s : Session) : Session :=
  { user := some .null
    localStorage := s.localStorage.remove userKey }

/-- What a route element renders: a page component, or `<Navigate to=... replace />`. -/
inductive Rendered where
  | page (component : String) : Rendered
  | navigate (target : String) : Rendered
  deriving DecidableEq, Repr

/-- `ProtectedRoute` of `App.jsx`. -/
def ProtectedRoute (user : Option JsValue) (children : Rendered) : Rendered :=
  if !truthy? user then .navigate "/login" else children

/-- A `<Route path=... element=... />`, its element as a function of the current user. -/
structure Route where
  path : String
  element : Option JsValue → Rendered

/-- The `<Routes>` table of `App`, in source order. -/
def routes : List Route :=
  [ ⟨"/login", fun _ => .page "LoginPage"⟩,
    ⟨"/", fun user => ProtectedRoute user (.page "DashboardPage")⟩,
    ⟨"/dashboard", fun user => ProtectedRoute user (.page "DashboardPage")⟩,
    ⟨"/predictions", fun user => ProtectedRoute user (.page "PredictionsPage")⟩,
    ⟨"/network", fun user => ProtectedRoute user (.page "NetworkPage")⟩,
    ⟨"/case/:caseId/setup", fun user => ProtectedRoute user (.page "CaseSetupPage")⟩,
    ⟨"/case/:caseId/scene", fun user => ProtectedRoute user (.page "SceneViewerPage")⟩,
    ⟨"/case/:caseId/workflow", fun user => ProtectedRoute user (.page "WorkflowCanvasPage")⟩,
    ⟨"/case/:caseId/report", fun user => ProtectedRoute user (.page "ReportPage")⟩,
    ⟨"*", fun _ => .navigate "/"⟩ ]

/-! ## Login (`LoginPage.jsx`) -/

/-- State cells of `LoginPage`, the session of `App` that `login` writes, and the
log of the effects of `handleSubmit`. -/
structure LoginView where
  investigatorId : String
  password : String
  showPassword : Bool
  error : JsValue
  loading : Bool
  session : Session
  requests : List Request
  navigations : List String

/-- The identity that the `catch` branch of `handleSubmit` logs in with. -/
def demoIdentity : JsValue :=
  .obj [ ("investigator_id", .str "demo"),
         ("name", .str "Demo Investigator"),
         ("role", .str "investigator") ]

/-- The `try` block of `LoginPage.handleSubmit` after the request has been issued:
the view it reaches, or the exception it is left by. Reading `data.success` or
`data.error` of a `null` body throws. -/
def LoginPage.handleSubmitTry (json : JsonApi) (resp : JsonResponse) (v : LoginView) :
    Except JsError LoginView :=
  match resp with
  | .rejected => .error "TypeError: Failed to fetch"
  | .unreadable _ => .error "SyntaxError: Unexpected token"
  | .body ok data =>
    match data with
    | .null => .error "TypeError: Cannot read properties of null"
    | _ =>
      if ok && truthy? (data.get? "success") then
        .ok { v with
              session := login json (data.get? "user") v.session
              navigations := v.navigations ++ ["/"] }
      else
        .ok { v with
              error :=
                if truthy? (data.get? "error") then (data.get? "error").getD .null
                else .str "Invalid credentials" }

/-- The `catch` block of `LoginPage.handleSubmit`. -/
def LoginPage.handleSubmitCatch (json : JsonApi) (v : LoginView) : LoginView :=
  if v.investigatorId = "demo" ∧ v.password = "demo123" then
    { v with
      session := login json (some demoIdentity) v.session
      navigations := v.navigations ++ ["/"] }
  else
    { v with error := .str "Connection error. Try demo/demo123" }

/-- `handleSubmit` of `LoginPage`: clear the error, set loading, POST the
credentials, run the `try` block and, when it throws, the `catch` block; `finally`
clears loading. -/
def LoginPage.handleSubmit (json : JsonApi) (resp : JsonResponse) (v : LoginView) :
    Except JsError LoginView :=
  let v1 :=
    { v with
      error := .str ""
      loading := true
      requests := v.requests ++
        [Request.mk "POST" "/api/auth/login" (Body.credentials v.investigatorId v.password)] }
  let afterCatch : LoginView :=
    match LoginPage.handleSubmitTry json resp v1 with
    | .ok v2 => v2
    | .error _ => LoginPage.handleSubmitCatch json v1
  .ok { afterCatch with loading := false }

/-! ## Scene upload (`CaseSetupPage.jsx`) -/

/-- State cells of `CaseSetupPage` that the status polling reads or writes, the
`caseId` route parameter, the requests issued, and the number of pending
`setTimeout(checkStatus, 2000)` timers. -/
structure SetupState where
  caseId : String
  status : String
  error : String
  requests : List Request
  pendingPolls : Nat
  deriving DecidableEq, Repr

/-- The URL that `checkStatus` fetches. -/
def sceneStatusUrl (caseId : String) : String :=
  "/api/cases/" ++ caseId ++ "/scene-status"

/-- The `try` block of `checkStatus` after the request has been issued. Reading
`data.status` of a `null` body throws. -/
def checkStatusTry (resp : JsonResponse) (st : SetupState) : Except JsError SetupState :=
  match resp with
  | .rejected => .error "TypeError: Failed to fetch"
  | .unreadable _ => .error "SyntaxError: Unexpected token"
  | .body _ data =>
    match data with
    | .null => .error "TypeError: Cannot read properties of null"
    | _ =>
      match data.get? "status" with
      | some (.str "completed") => .ok { st with status := "ready" }
      | some (.str "failed") =>
        .ok { st with status := "error", error := "Processing failed. Please try again." }
      | _ => .ok { st with pendingPolls := st.pendingPolls + 1 }

/-- One run of `checkStatus` (inner function of `pollProcessingStatus`). -/
def checkStatus (resp : JsonResponse) (st : SetupState) : Except JsError SetupState :=
  let st1 :=
    { st with
      requests := st.requests ++ [Request.mk "GET" (sceneStatusUrl st.caseId) Body.none] }
  match checkStatusTry resp st1 with
  | .ok st2 => .ok st2
  | .error _ => .ok { st1 with status := "ready" }

/-- The polls that follow the first one: as long as a timer is pending and the
backend has a further answer, the timer fires and `checkStatus` runs again. -/
def runPendingPolls : List JsonResponse → SetupState → Except JsError SetupState
  | [], st => .ok st
  | resp :: rest, st =>
    if st.pendingPolls = 0 then .ok st
    else
      match checkStatus resp { st with pendingPolls := st.pendingPolls - 1 } with
      | .error err => .error err
      | .ok st1 => runPendingPolls rest st1

/-- `pollProcessingStatus` of `CaseSetupPage` against the successive answers of the
backend: the first `checkStatus` call and the polls its timers trigger. -/
def pollProcessingStatus (resps : List JsonResponse) (st : SetupState) :
    Except JsError SetupState :=
  match resps with
  | [] => .ok st
  | resp :: rest =>
    match checkStatus resp st with
    | .error err => .error err
    | .ok st1 => runPendingPolls rest st1

/-! ## Agent detail modal (`WorkflowCanvasPage.jsx`) -/

/-- `s.replace(re, '')` for a global regular expression that matches `fence`
followed by an optional line feed: every match, found from left to right, is
removed. `fuel` bounds the number of steps; the length of the text is enough. -/
def removeFences (fence : List Char) : Nat → List Char → List Char
  | 0, s => s
  | _ + 1, [] => []
  | fuel + 1, c :: cs =>
    if fence ≠ [] ∧ fence.isPrefixOf (c :: cs) = true then
      match (c :: cs).drop fence.length with
      | '\n' :: rest => removeFences fence fuel rest
      | rest => removeFences fence fuel rest
    else c :: removeFences fence fuel cs

/-- The two `replace` calls of `parseOutput`: remove the fence openers of JSON code
blocks, then the remaining fence markers. -/
def stripCodeFences (reasoning : String) : String :=
  let step1 := removeFences "```json".data reasoning.length reasoning.data
  String.mk (removeFences "```".data step1.length step1)

/-- `parseOutput` of `AgentDetailModal`; `output` is `result.output`, `none` when
the result has no such field. -/
def parseOutput (json : JsonApi) (output : Option JsValue) : JsValue :=
  match output with
  | none => .null
  | some out =>
    if !out.truthy then .null
    else
      match out.get? "reasoning" with
      | some (.str reasoning) =>
        if reasoning = "" then out
        else
          match json.parse (stripCodeFences reasoning) with
          | some parsed => parsed
          | none => .obj [("text", .str (stripCodeFences reasoning))]
      | _ => out

/-! ## Definitions that follow the wording of the specification -/

instance (a b : String) : Decidable (IsSubstring a b) :=
  decidable_of_iff (a.data <:+: b.data)
    ⟨fun ⟨pre, post, h⟩ => ⟨pre, post, h.symm⟩, fun ⟨pre, post, h⟩ => ⟨pre, post, h.symm⟩⟩

/-- The filter criterion in the words of the specification: the lower-cased query is
a substring of the lower-cased display code, location, or investigator. -/
def SpecMatch (toLowerCase : String → String) (q : String) (c : Case) : Prop :=
  IsSubstring (toLowerCase q) (toLowerCase c.case_id) ∨
  IsSubstring (toLowerCase q) (toLowerCase c.location) ∨
  IsSubstring (toLowerCase q) (toLowerCase c.investigator)

instance (toLowerCase : String → String) (q : String) (c : Case) :
    Decidable (SpecMatch toLowerCase q c) := by
  unfold SpecMatch
  exact inferInstance

/-- The decimal numeral of `n`, left-padded with zeros to `width` characters
(`{n:0<width>d}` of the specification). -/
def zeroPadded (width n : Nat) : String :=
  String.mk (List.replicate (width - (Nat.toDigits 10 n).length) '0' ++ Nat.toDigits 10 n)

/-- The pattern `CRX-2024-\d{4}`: the prefix followed by exactly four decimal digits. -/
def IsDisplayCode (s : String) : Prop :=
  ∃ d : List Char, d.length = 4 ∧ (∀ c ∈ d, c.isDigit = true) ∧ s = "CRX-2024-" ++ String.mk d

/-- The `try` block of a handler is left by an exception: the fetch rejects, or the
body of an ok response does not parse. -/
def FetchOutcome.throws {α : Type} : FetchOutcome α → Bool
  | .rejected => true
  | .badJson => true
  | _ => false

/-- The request failed: it was rejected, answered with a non-success response, or
its body could not be read. -/
def FetchOutcome.failed {α : Type} : FetchOutcome α → Bool
  | .ok _ => false
  | _ => true

/-- No stage of the status map is running. -/
def NoneRunning (m : JsObject String) : Prop :=
  ∀ x, m.get? x ≠ some "running"

/-- At most one stage of the status map is running. -/
def AtMostOneRunning (m : JsObject String) : Prop :=
  ∀ x y, m.get? x = some "running" → m.get? y = some "running" → x = y

/-- The two marks of a stage in a trace: it is set to running, and its run resolves. -/
inductive StageMark where
  | started (agentId : String) : StageMark
  | resolved (agentId : String) : StageMark
  deriving DecidableEq, Repr

/-- The mark that an event of the log stands for, if any. -/
def Event.mark? : Event → Option StageMark
  | .status agentId value _ => if value = "running" then some (.started agentId) else none
  | .resolved agentId => some (.resolved agentId)
  | _ => none

/-- The request that an event of the log stands for, if any. -/
def Event.request? : Event → Option Request
  | .request r => some r
  | _ => none

/-- The states of the workflow page between two handler calls: the initial state and
every state in which a call of `runAgent` or `runFullAnalysis` has ended. -/
inductive WorkflowReachable (caseId : String) : WorkflowState → Prop where
  | init : WorkflowReachable caseId (WorkflowState.init caseId)
  | runAgent {st st' : WorkflowState} (a : String) (resp : FetchOutcome JsValue) (rnd : Rat) :
      WorkflowReachable caseId st → runAgent a resp rnd st = .ok st' →
      WorkflowReachable caseId st'
  | runFullAnalysis {st st' : WorkflowState} (resps : String → FetchOutcome JsValue)
      (rnds : String → Rat) :
      WorkflowReachable caseId st → runFullAnalysis resps rnds st = .ok st' →
      WorkflowReachable caseId st'

/-- What one turn of the loop of `runFullAnalysis` does for stage `a`: it takes `st`
to `st'`, appends the events `evs` to the log and stores `result` for the stage. -/
structure StageRan (st : WorkflowState) (a : String) (st' : WorkflowState)
    (evs : List Event) (result : JsValue) : Prop where
  caseId_eq : st'.caseId = st.caseId
  isRunningAll_eq : st'.isRunningAll = st.isRunningAll
  statuses_eq : st'.agentStatuses = (st.agentStatuses.set a "running").set a "completed"
  results_eq : st'.agentResults = st.agentResults.set a result
  log_eq : st'.log = st.log ++ evs
  marks_eq : evs.filterMap Event.mark? = [StageMark.started a, StageMark.resolved a]
  requests_eq :
    evs.filterMap Event.request? = [Request.mk "POST" (agentRunUrl st.caseId a) Body.none]
  status_events : ∀ e ∈ evs, ∀ b v m, e = Event.status b v m →
    m = st.agentStatuses.set a "running" ∨
      m = (st.agentStatuses.set a "running").set a "completed"
  hypotheses_eq : a ≠ "timeline_builder" → st'.hypotheses = st.hypotheses

/-- The JSON codec maps `u` to a text that it parses back to `u`: the round-trip
law of `JSON.stringify` and `JSON.parse` at the value `u`. The text of a JSON value
is never empty. -/
def JsonApi.RoundTrips (json : JsonApi) (u : JsValue) : Prop :=
  ∃ text, json.stringify u = some text ∧ text ≠ "" ∧ json.parse text = some u

/-- A character that a JSON string literal holds as it is: not a quote, not a
backslash, not a control character. -/
def isPlainChar (c : Char) : Bool :=
  c != '"' && c != '\\' && decide (32 ≤ c.toNat)

/-- The text of a string of plain characters: the string between quotes. -/
def flatQuote (str : String) : Option (List Char) :=
  if str.data.all isPlainChar then some ('"' :: str.data ++ ['"']) else none

/-- The members `"key":"value"` of a flat object, separated by commas. -/
def flatMembers : List (String × JsValue) → Option (List Char)
  | [] => some []
  | [(k, .str v)] =>
    match flatQuote k, flatQuote v with
    | some qk, some qv => some (qk ++ ':' :: qv)
    | _, _ => none
  | (k, .str v) :: rest =>
    match flatQuote k, flatQuote v, flatMembers rest with
    | some qk, some qv, some more => some (qk ++ ':' :: qv ++ ',' :: more)
    | _, _, _ => none
  | _ => none

/-- Read a string literal of plain characters up to its closing quote. -/
def readPlain : List Char → Option (List Char × List Char)
  | [] => none
  | c :: cs =>
    if c = '"' then some ([], cs)
    else if isPlainChar c then
      match readPlain cs with
      | some (str, rest) => some (c :: str, rest)
      | none => none
    else none

/-- Read the members of a flat object up to its closing brace. -/
def readMembers : Nat → List Char → Option (List (String × JsValue))
  | 0, _ => none
  | fuel + 1, input =>
    match input with
    | '"' :: afterQuote =>
      match readPlain afterQuote with
      | some (k, ':' :: '"' :: afterColon) =>
        match readPlain afterColon with
        | some (v, [c]) =>
          if c = Char.ofNat 125 then some [(String.mk k, .str (String.mk v))] else none
        | some (v, ',' :: more) =>
          match readMembers fuel more with
          | some fields => some ((String.mk k, .str (String.mk v)) :: fields)
          | none => none
        | _ => none
      | _ => none
    | _ => none

/-- The fragment of `JSON` for flat objects whose keys and values are strings of
plain characters, written without white space. It is used to run the model on
concrete identities; the statements about the session hold for every `JsonApi`. -/
def flatJson : JsonApi :=
  { stringify := fun v =>
      match v with
      | .obj fields =>
        match flatMembers fields with
        | some members => some (String.mk (Char.ofNat 123 :: members ++ [Char.ofNat 125]))
        | none => none
      | _ => none
    parse := fun text =>
      match text.data with
      | [] => none
      | c :: rest =>
        if c = Char.ofNat 123 then
          if rest = [Char.ofNat 125] then some (.obj [])
          else
            match readMembers rest.length rest with
            | some fields => some (.obj fields)
            | none => none
        else none }

/-- The answer of a poll makes `checkStatus` schedule a further poll: it has a body
other than `null` whose `status` is neither `completed` nor `failed`. -/
def JsonResponse.reschedules : JsonResponse → Bool
  | .body _ .null => false
  | .body _ data =>
    match data.get? "status" with
    | some (.str status) => status != "completed" && status != "failed"
    | _ => true
  | _ => false

/-- The answer of a poll makes `checkStatus` throw: the fetch rejects, the body
cannot be read, or the body is `null`. -/
def JsonResponse.throws : JsonResponse → Bool
  | .rejected => true
  | .unreadable _ => true
  | .body _ .null => true
  | _ => false

/-- Every one of the four stages is idle, running or completed. -/
def StatusesValid (m : JsObject String) : Prop :=
  ∀ a ∈ agentOrder,
    m.get? a = some "idle" ∨ m.get? a = some "running" ∨ m.get? a = some "completed"

/-- No entry of the status map is `error`. -/
def NoErrorStatus (m : JsObject String) : Prop :=
  ∀ x, m.get? x ≠ some "error"

/-- The scene states reached from an evidence list `start` by fallback placements
(clicks whose request fails) and by the controls of the panel that do not remove
markers: the Add / Cancel button and the type buttons. -/
inductive FallbackPlaced (start : List EvidenceMarker) : SceneState → Prop where
  | start (st : SceneState) : st.evidence = start → FallbackPlaced start st
  | toggle {st : SceneState} : FallbackPlaced start st → FallbackPlaced start (toggleAddingMode st)
  | selectType {st : SceneState} (key : String) :
      FallbackPlaced start st → FallbackPlaced start (setNewEvidenceType key st)
  | place {st st' : SceneState} (point : Point) (resp : FetchOutcome EvidenceMarker) (now : Nat) :
      FallbackPlaced start st → resp.failed = true →
      handleSceneClick point resp now st = .ok st' → FallbackPlaced start st'

/-- The number that a list of decimal digit characters denotes, read from the left
with `acc` as the value read so far. -/
def digitsValue (acc : Nat) (digits : List Char) : Nat :=
  digits.foldl (fun value c => value * 10 + (c.toNat - 48)) acc

/-- The evidence ids `E-{i+1:03d}` for `i` from `first` to `first + count - 1`. -/
def sequentialIds (first count : Nat) : List String :=
  (List.range count).map (fun i => "E-" ++ zeroPadded 3 (first + i + 1))

/-! ## Lemmas on the string primitives -/

theorem includesChars_iff (hay pat : List Char) :
    includesChars hay pat = true ↔ pat <:+: hay := by
  induction hay with
  | nil =>
    cases pat <;> simp [includesChars, List.isPrefixOf]
  | cons c hay ih =>
    rw [includesChars, Bool.or_eq_true, ih, List.isPrefixOf_iff_prefix, List.infix_cons_iff]

theorem includes_iff (s t : String) : includes s t = true ↔ IsSubstring t s := by
  unfold includes IsSubstring
  rw [includesChars_iff]
  exact ⟨fun ⟨pre, post, h⟩ => ⟨pre, post, h.symm⟩, fun ⟨pre, post, h⟩ => ⟨pre, post, h.symm⟩⟩

theorem caseMatches_iff (toLowerCase : String → String) (q : String) (c : Case) :
    caseMatches toLowerCase q c = true ↔ SpecMatch toLowerCase q c := by
  simp only [caseMatches, SpecMatch, Bool.or_eq_true, includes_iff, or_assoc]

theorem padFiller_singleton (k : Nat) (c : Char) : padFiller k [c] = List.replicate k c := by
  unfold padFiller
  have h : (List.replicate k [c]).flatten = List.replicate k c := by
    induction k with
    | zero => rfl
    | succ k ih => simp [List.replicate_succ, ih]
  rw [h]
  simp

theorem padStart_zero (width n : Nat) : padStart (jsString n) width "0" = zeroPadded width n := by
  have hlen : (jsString n).length = (Nat.toDigits 10 n).length := rfl
  have hdata : (jsString n).data = Nat.toDigits 10 n := rfl
  unfold padStart zeroPadded
  rw [hlen]
  split
  · next h =>
    rw [Nat.sub_eq_zero_of_le h]
    exact String.ext (by simp [hdata])
  · next h =>
    have hne : ¬ ("0" : String).data = [] := by decide
    rw [if_neg hne]
    have h0 : ("0" : String).data = ['0'] := rfl
    rw [h0, padFiller_singleton, hdata]

theorem digitChar_isDigit : ∀ k, k < 10 → (Nat.digitChar k).isDigit = true := by
  decide

theorem toDigitsCore_isDigit (fuel : Nat) :
    ∀ (n : Nat) (ds : List Char), (∀ c ∈ ds, c.isDigit = true) →
      ∀ c ∈ Nat.toDigitsCore 10 fuel n ds, c.isDigit = true := by
  induction fuel with
  | zero => intro n ds hds; simpa [Nat.toDigitsCore] using hds
  | succ fuel ih =>
    intro n ds hds
    have hd : (Nat.digitChar (n % 10)).isDigit = true :=
      digitChar_isDigit _ (Nat.mod_lt _ (by decide))
    have hcons : ∀ c ∈ Nat.digitChar (n % 10) :: ds, c.isDigit = true := by
      intro c hc
      rcases List.mem_cons.mp hc with rfl | hc
      · exact hd
      · exact hds c hc
    simp only [Nat.toDigitsCore]
    split
    · exact hcons
    · exact ih _ _ hcons

theorem toDigits_isDigit (n : Nat) : ∀ c ∈ Nat.toDigits 10 n, c.isDigit = true :=
  toDigitsCore_isDigit _ _ _ (by simp)

theorem toDigits_length_le (n e : Nat) (he : 0 < e) (h : n < 10 ^ e) :
    (Nat.toDigits 10 n).length ≤ e :=
  Nat.repr_length n e he h

theorem zeroPadded_length (width n : Nat) (h : (Nat.toDigits 10 n).length ≤ width) :
    (zeroPadded width n).data.length = width := by
  simp [zeroPadded]
  omega

theorem zeroPadded_isDigit (width n : Nat) : ∀ c ∈ (zeroPadded width n).data, c.isDigit = true := by
  intro c hc
  simp only [zeroPadded, List.mem_append, List.mem_replicate] at hc
  rcases hc with ⟨_, rfl⟩ | hc
  · decide
  · exact toDigits_isDigit n c hc

/-! ## Case registry: filter -/

/-- C1: for every case list and search string, `filteredCases` is exactly the
sub-sequence (in the original order) of the cases whose lower-cased display code,
location or investigator contains the lower-cased query; a case of the list that is
matched through any one field is returned, and when no case matches, the result is
the empty list. -/
theorem filteredCases_eq_spec_filter (toLowerCase : String → String) (cases : List Case)
    (q : String) :
    filteredCases toLowerCase cases q
        = cases.filter (fun c => decide (SpecMatch toLowerCase q c)) ∧
      List.Sublist (filteredCases toLowerCase cases q) cases ∧
      (∀ c ∈ cases,
        (IsSubstring (toLowerCase q) (toLowerCase c.case_id) →
          c ∈ filteredCases toLowerCase cases q) ∧
        (IsSubstring (toLowerCase q) (toLowerCase c.location) →
          c ∈ filteredCases toLowerCase cases q) ∧
        (IsSubstring (toLowerCase q) (toLowerCase c.investigator) →
          c ∈ filteredCases toLowerCase cases q)) ∧
      ((∀ c ∈ cases, ¬ SpecMatch toLowerCase q c) → filteredCases toLowerCase cases q = []) := by
  have hmem : ∀ c ∈ cases, SpecMatch toLowerCase q c → c ∈ filteredCases toLowerCase cases q := by
    intro c hc hm
    exact List.mem_filter.mpr ⟨hc, (caseMatches_iff toLowerCase q c).mpr hm⟩
  refine ⟨?_, List.filter_sublist _, ?_, ?_⟩
  · unfold filteredCases
    apply List.filter_congr
    intro c _
    by_cases hm : SpecMatch toLowerCase q c
    · simp [hm, (caseMatches_iff toLowerCase q c).mpr hm]
    · have hf : caseMatches toLowerCase q c = false := by
        cases hb : caseMatches toLowerCase q c
        · rfl
        · exact absurd ((caseMatches_iff toLowerCase q c).mp hb) hm
      simp [hm, hf]
  · intro c hc
    exact ⟨fun h => hmem c hc (Or.inl h), fun h => hmem c hc (Or.inr (Or.inl h)),
      fun h => hmem c hc (Or.inr (Or.inr h))⟩
  · intro hnone
    unfold filteredCases
    rw [List.filter_eq_nil_iff]
    intro c hc hb
    exact hnone c hc ((caseMatches_iff toLowerCase q c).mp hb)

/-! ## Case registry: create -/

/-- What `handleCreateCase` does when its `try` block throws. -/
theorem handleCreateCase_throws (formData : CaseForm) (resp : FetchOutcome Case) (now : String)
    (st : DashboardState) (h : resp.throws = true) :
    handleCreateCase formData resp now st =
      .ok { st with
            requests := st.requests ++ [Request.mk "POST" "/api/cases" (Body.caseForm formData)]
            cases := localCase st.cases formData now :: st.cases
            navigations := st.navigations ++ [setupRoute (localCase st.cases formData now)] } := by
  cases resp <;> simp_all [FetchOutcome.throws, handleCreateCase]

/-- The case that the `catch` branch of `handleCreateCase` synthesizes: for every
case list of length `n` and every submitted form, when the `try` block throws (the
request is rejected, or the body of the answer cannot be read), `handleCreateCase`
returns normally and puts at the head of the list a case whose display code is
`CRX-2024-` followed by the decimal numeral of `n + 1` zero-padded to width 4, whose
status is `active`, and whose location, date and investigator are the submitted
ones. -/
theorem handleCreateCase_failure_synthesizes (formData : CaseForm) (resp : FetchOutcome Case)
    (now : String) (st : DashboardState) (h : resp.throws = true) :
    ∃ c st', handleCreateCase formData resp now st = .ok st' ∧
      st'.cases.head? = some c ∧
      c.case_id = "CRX-2024-" ++ zeroPadded 4 (st.cases.length + 1) ∧
      c.status = "active" ∧
      c.location = formData.location ∧ c.date = formData.date ∧
      c.investigator = formData.investigator := by
  refine ⟨localCase st.cases formData now, _, handleCreateCase_throws formData resp now st h,
    rfl, ?_, rfl, rfl, rfl, rfl⟩
  simp only [localCase, padStart_zero]

/-- An instance: the third case of a dashboard that holds the two demo cases. -/
theorem handleCreateCase_failure_synthesizes_witness :
    (FetchOutcome.rejected : FetchOutcome Case).throws = true ∧
    ∃ c st', handleCreateCase ⟨"221B Baker St", "2024-01-01", "J. Watson"⟩ .rejected "t"
        { DashboardState.init with cases := demoCases "t" } = .ok st' ∧
      st'.cases.head? = some c ∧
      c.case_id = "CRX-2024-" ++
        zeroPadded 4 (({ DashboardState.init with cases := demoCases "t" }).cases.length + 1) ∧
      c.status = "active" ∧
      c.location = (⟨"221B Baker St", "2024-01-01", "J. Watson"⟩ : CaseForm).location ∧
      c.date = (⟨"221B Baker St", "2024-01-01", "J. Watson"⟩ : CaseForm).date ∧
      c.investigator = (⟨"221B Baker St", "2024-01-01", "J. Watson"⟩ : CaseForm).investigator :=
  ⟨rfl, handleCreateCase_failure_synthesizes _ _ _ _ rfl⟩

/-- C2, the code at the failing input: with the two demo cases in the list, the
backend answers the POST with a non-success response. `handleCreateCase` returns
normally and the list still holds the two demo cases only: no case with the display
code `CRX-2024-0003` has been synthesized. The same request rejected at transport
level does put such a case at the head of the list. -/
theorem handleCreateCase_notOk_synthesizes_nothing :
    (FetchOutcome.notOk : FetchOutcome Case).failed = true ∧
    "CRX-2024-" ++ zeroPadded 4 ((demoCases "t").length + 1) = "CRX-2024-0003" ∧
    (∃ st', handleCreateCase ⟨"221B Baker St", "2024-01-01", "J. Watson"⟩ .notOk "t"
        { DashboardState.init with cases := demoCases "t" } = .ok st' ∧
      st'.cases.map (fun c => c.case_id) = ["CRX-2024-0001", "CRX-2024-0002"] ∧
      "CRX-2024-0003" ∉ st'.cases.map (fun c => c.case_id)) ∧
    (∃ st', handleCreateCase ⟨"221B Baker St", "2024-01-01", "J. Watson"⟩ .rejected "t"
        { DashboardState.init with cases := demoCases "t" } = .ok st' ∧
      st'.cases.map (fun c => c.case_id)
        = ["CRX-2024-0003", "CRX-2024-0001", "CRX-2024-0002"]) := by
  refine ⟨rfl, by decide, ⟨_, rfl, rfl, by decide⟩, ⟨_, rfl, ?_⟩⟩
  decide

/-- One more than the length of a list of 9999 copies of a case. -/
theorem length_replicate_demo (c : Case) : (List.replicate 9999 c).length + 1 = 10000 := by
  rw [List.length_replicate]

/-- C3, counterexample: with 9999 cases in the list, the case synthesized on a
transport failure has the display code `CRX-2024-10000`, which is not the prefix
followed by exactly four digits. -/
theorem handleCreateCase_code_five_digits :
    ∃ c st', handleCreateCase ⟨"221B Baker St", "2024-01-01", "J. Watson"⟩ .rejected "t"
        { DashboardState.init with
          cases := List.replicate 9999 ⟨1, "CRX-2024-0001", "Arkham", "2024-12-08", "D", "active", "t"⟩ }
          = .ok st' ∧
      st'.cases.head? = some c ∧ c.case_id = "CRX-2024-10000" ∧ ¬ IsDisplayCode c.case_id := by
  refine ⟨_, _, handleCreateCase_throws _ _ _ _ rfl, rfl, ?_, ?_⟩
  · simp only [localCase, length_replicate_demo]
    decide
  · simp only [localCase, length_replicate_demo]
    rintro ⟨d, hlen, -, heq⟩
    have h := congrArg String.length heq
    rw [String.length_append, String.length_append] at h
    have h1 : (String.mk d).length = 4 := hlen
    rw [h1] at h
    revert h
    decide

/-- C3, amended: for every case list of length at most 9998, the case synthesized
when the POST fails has a display code of the form `CRX-2024-` followed by exactly
four decimal digits, and status `active`. -/
theorem handleCreateCase_code_pattern (formData : CaseForm) (resp : FetchOutcome Case)
    (now : String) (st : DashboardState) (h : resp.throws = true)
    (hlen : st.cases.length ≤ 9998) :
    ∃ c st', handleCreateCase formData resp now st = .ok st' ∧
      st'.cases.head? = some c ∧ IsDisplayCode c.case_id ∧ c.status = "active" := by
  refine ⟨localCase st.cases formData now, _, handleCreateCase_throws formData resp now st h,
    rfl, ?_, rfl⟩
  refine ⟨(zeroPadded 4 (st.cases.length + 1)).data, ?_, zeroPadded_isDigit _ _, ?_⟩
  · apply zeroPadded_length
    apply toDigits_length_le _ _ (by decide)
    omega
  · simp only [localCase, padStart_zero]

/-- Witness of C3 (amended): the dashboard that holds the two demo cases. -/
theorem handleCreateCase_code_pattern_witness :
    ∃ c st', handleCreateCase ⟨"221B Baker St", "2024-01-01", "J. Watson"⟩ .badJson "t"
        { DashboardState.init with cases := demoCases "t" } = .ok st' ∧
      st'.cases.head? = some c ∧ IsDisplayCode c.case_id ∧ c.status = "active" :=
  handleCreateCase_code_pattern _ _ _ _ rfl (by decide)

/-- C4: for every case list `L`, the list after `handleCreateCase` is the new case
followed by `L`, both for a case returned by the server and for the case synthesized
when the request fails at transport level (or its answer cannot be read). -/
theorem handleCreateCase_prepends (formData : CaseForm) (now : String) (st : DashboardState) :
    (∀ c : Case, ∃ st', handleCreateCase formData (.ok c) now st = .ok st' ∧
      st'.cases = c :: st.cases) ∧
    (∃ st', handleCreateCase formData .rejected now st = .ok st' ∧
      st'.cases = localCase st.cases formData now :: st.cases) ∧
    (∃ st', handleCreateCase formData .badJson now st = .ok st' ∧
      st'.cases = localCase st.cases formData now :: st.cases) := by
  refine ⟨fun c => ⟨_, rfl, rfl⟩, ⟨_, rfl, rfl⟩, ⟨_, rfl, rfl⟩⟩

/-! ## Case registry: list -/

/-- C5, counterexample: when the backend answers the first load with a non-success
response, `fetchCases` returns normally with loading off, but the case list is still
empty: it is not the two-item demo set. -/
theorem fetchCases_notOk_keeps_list :
    ∃ st', fetchCases .notOk "2024-12-20T10:00:00.000Z" DashboardState.init = .ok st' ∧
      st'.loading = false ∧ st'.cases = [] ∧
      st'.cases ≠ demoCases "2024-12-20T10:00:00.000Z" := by
  refine ⟨_, rfl, rfl, rfl, ?_⟩
  decide

/-- C5, amended: `fetchCases` always returns normally with loading off. When the
fetch throws (the request is rejected or the body cannot be read) the case list
becomes the two-item demo set, `CRX-2024-0001` with status `analyzed` followed by
`CRX-2024-0002` with status `active`; when the backend answers with a non-success
response the case list is left as it was. -/
theorem fetchCases_failure (resp : FetchOutcome (List Case)) (now : String)
    (st : DashboardState) :
    ∃ st', fetchCases resp now st = .ok st' ∧ st'.loading = false ∧
      (resp.throws = true → st'.cases = demoCases now) ∧
      (resp = .notOk → st'.cases = st.cases) ∧
      (demoCases now).map (fun c => (c.case_id, c.status))
        = [("CRX-2024-0001", "analyzed"), ("CRX-2024-0002", "active")] := by
  refine ⟨_, rfl, ?_, ?_, ?_, rfl⟩
  · cases resp <;> rfl
  · intro h
    cases resp <;> simp_all [FetchOutcome.throws]
  · intro h
    subst h
    rfl

/-! ## Case registry: failure policy -/

/-- C6, the code at the failing input: when the backend answers the POST with a
non-success response, `handleCreateCase` returns normally but adds no case and does
not navigate; only the request has been issued. -/
theorem handleCreateCase_notOk_adds_nothing (formData : CaseForm) (now : String)
    (st : DashboardState) :
    handleCreateCase formData .notOk now st =
      .ok { st with
            requests := st.requests ++
              [Request.mk "POST" "/api/cases" (Body.caseForm formData)] } ∧
    ∃ st', handleCreateCase formData .notOk now st = .ok st' ∧
      st'.cases = st.cases ∧ st'.cases.length ≠ st.cases.length + 1 ∧
      st'.navigations = st.navigations := by
  refine ⟨rfl, _, rfl, rfl, ?_, rfl⟩
  show st.cases.length ≠ st.cases.length + 1
  omega

/-! ## Case registry: form validation -/

/-- C7: a submission of the case form in which location, date or investigator is
empty is stopped by the validation of the `required` fields: `handleSubmit` does not
run, so no request is issued and the page (case list included) and the modal are
unchanged. -/
theorem submitCaseForm_rejects_missing (resp : FetchOutcome Case) (now : String)
    (v : DashboardView)
    (h : v.modal.formData.location = "" ∨ v.modal.formData.date = "" ∨
      v.modal.formData.investigator = "") :
    submitCaseForm resp now v = .ok v ∧
      ∀ v', submitCaseForm resp now v = .ok v' →
        v'.page.requests = v.page.requests ∧ v'.page.cases = v.page.cases := by
  have hinv : checkValidity (caseModalInputs v.modal.formData) = false := by
    rcases h with h | h | h <;> simp [checkValidity, caseModalInputs, h]
  have hsub : submitCaseForm resp now v = .ok v := by
    simp [submitCaseForm, hinv]
  refine ⟨hsub, ?_⟩
  intro v' hv'
  rw [hsub] at hv'
  cases hv'
  exact ⟨rfl, rfl⟩

/-- Witness of C7: a form without investigator on the initial dashboard. -/
theorem submitCaseForm_rejects_missing_witness :
    submitCaseForm (.ok ⟨7, "CRX-2024-0007", "Arkham", "2024-12-08", "", "active", "t"⟩) "t"
        ⟨DashboardState.init, ⟨⟨"Arkham", "2024-12-08", ""⟩, false⟩⟩
      = .ok ⟨DashboardState.init, ⟨⟨"Arkham", "2024-12-08", ""⟩, false⟩⟩ ∧
      ∀ v', submitCaseForm (.ok ⟨7, "CRX-2024-0007", "Arkham", "2024-12-08", "", "active", "t"⟩) "t"
          ⟨DashboardState.init, ⟨⟨"Arkham", "2024-12-08", ""⟩, false⟩⟩ = .ok v' →
        v'.page.requests = DashboardState.init.requests ∧
          v'.page.cases = DashboardState.init.cases :=
  submitCaseForm_rejects_missing _ _ _ (Or.inr (Or.inr rfl))

/-- A form whose three fields are filled in is submitted: `handleSubmit` runs. -/
theorem submitCaseForm_valid (resp : FetchOutcome Case) (now : String) (v : DashboardView)
    (h1 : v.modal.formData.location ≠ "") (h2 : v.modal.formData.date ≠ "")
    (h3 : v.modal.formData.investigator ≠ "") :
    submitCaseForm resp now v = handleSubmit resp now v := by
  simp [submitCaseForm, checkValidity, caseModalInputs, h1, h2, h3]

/-! ## Evidence collection: place -/

/-- What `handleSceneClick` does in adding mode when persistence fails. -/
theorem handleSceneClick_failed (point : Point) (resp : FetchOutcome EvidenceMarker) (now : Nat)
    (st : SceneState) (hmode : st.isAddingMode = true) (h : resp.failed = true) :
    handleSceneClick point resp now st =
      .ok { st with
            requests := st.requests ++
              [Request.mk "POST" (evidenceUrl st.caseId)
                (Body.evidence st.newEvidenceType point.x point.y point.z)]
            evidence := st.evidence ++ [newEvidence st.evidence st.newEvidenceType point now]
            isAddingMode := false } := by
  cases resp <;> simp_all [FetchOutcome.failed, handleSceneClick]

/-- What `handleSceneClick` does in adding mode when the marker is persisted. -/
theorem handleSceneClick_ok (point : Point) (data : EvidenceMarker) (now : Nat)
    (st : SceneState) (hmode : st.isAddingMode = true) :
    handleSceneClick point (.ok data) now st =
      .ok { st with
            requests := st.requests ++
              [Request.mk "POST" (evidenceUrl st.caseId)
                (Body.evidence st.newEvidenceType point.x point.y point.z)]
            evidence := st.evidence ++ [data]
            isAddingMode := false } := by
  simp [handleSceneClick, hmode]

/-- What `handleSceneClick` does outside adding mode: nothing. -/
theorem handleSceneClick_idle (point : Point) (resp : FetchOutcome EvidenceMarker) (now : Nat)
    (st : SceneState) (hmode : st.isAddingMode = false) :
    handleSceneClick point resp now st = .ok st := by
  simp [handleSceneClick, hmode]

/-- C8: for every evidence list of length `n`, selected type and click point, a click
in adding mode returns normally and appends exactly one marker at the end of the
list, leaving the markers before it as they were. When persistence fails (the POST
is rejected, answered with a non-success response, or its body cannot be read) the
appended marker has evidence id `E-` followed by the decimal numeral of `n + 1`
zero-padded to width 3, the selected type, the coordinates of the click, empty notes
and hash `pending...`; when the POST succeeds it is the marker the server returned. -/
theorem handleSceneClick_appends (point : Point) (resp : FetchOutcome EvidenceMarker)
    (now : Nat) (st : SceneState) (hmode : st.isAddingMode = true) :
    ∃ m st', handleSceneClick point resp now st = .ok st' ∧
      st'.evidence = st.evidence ++ [m] ∧
      st'.evidence.length = st.evidence.length + 1 ∧
      (resp.failed = true →
        m = { id := now
              evidence_id := "E-" ++ zeroPadded 3 (st.evidence.length + 1)
              type := st.newEvidenceType
              x := point.x, y := point.y, z := point.z
              notes := ""
              hash := "pending..." }) ∧
      (∀ data, resp = .ok data → m = data) := by
  by_cases hf : resp.failed = true
  · refine ⟨newEvidence st.evidence st.newEvidenceType point now, _,
      handleSceneClick_failed point resp now st hmode hf, rfl, by simp, ?_, ?_⟩
    · intro _
      simp only [newEvidence, padStart_zero]
    · intro data hd
      subst hd
      simp [FetchOutcome.failed] at hf
  · cases resp with
    | ok data =>
      refine ⟨data, _, handleSceneClick_ok point data now st hmode, rfl, by simp, ?_, ?_⟩
      · intro h
        exact absurd h hf
      · intro d hd
        cases hd
        rfl
    | rejected => exact absurd rfl hf
    | notOk => exact absurd rfl hf
    | badJson => exact absurd rfl hf

/-- Witness of C8: a click in adding mode on the demo evidence list, with the
backend answering with a non-success response. -/
theorem handleSceneClick_appends_witness :
    ∃ m st', handleSceneClick ⟨1, 0, 1 / 2⟩ .notOk 1733650000000
        { SceneState.init "1" with evidence := demoEvidence, isAddingMode := true } = .ok st' ∧
      st'.evidence = demoEvidence ++ [m] ∧
      st'.evidence.length = demoEvidence.length + 1 ∧
      ((FetchOutcome.notOk : FetchOutcome EvidenceMarker).failed = true →
        m = { id := 1733650000000
              evidence_id := "E-" ++ zeroPadded 3 (demoEvidence.length + 1)
              type := "bloodstain_spatter"
              x := 1, y := 0, z := 1 / 2
              notes := ""
              hash := "pending..." }) ∧
      (∀ data, FetchOutcome.notOk = .ok data → m = data) :=
  handleSceneClick_appends ⟨1, 0, 1 / 2⟩ .notOk 1733650000000
    { SceneState.init "1" with evidence := demoEvidence, isAddingMode := true } rfl

/-- C9, the code at the failing input: starting from the empty list, place two
markers, remove the first, and place a third (every request failing). The third
placement is made on a list that holds only `E-002` and yields `E-002` again, so the
list ends with two markers that carry the same evidence id. -/
theorem place_after_remove_repeats_id :
    ∃ s1 s2 s3 s4,
      handleSceneClick ⟨1, 0, -1⟩ .rejected 100 (toggleAddingMode (SceneState.init "1")) = .ok s1 ∧
      handleSceneClick ⟨-2, 0, 1 / 2⟩ .rejected 200 (toggleAddingMode s1) = .ok s2 ∧
      handleDeleteEvidence 100 .rejected s2 = .ok s3 ∧
      handleSceneClick ⟨0, 0, 2⟩ .rejected 300 (toggleAddingMode s3) = .ok s4 ∧
      s2.evidence.map (fun e => e.evidence_id) = ["E-001", "E-002"] ∧
      s3.evidence.map (fun e => e.evidence_id) = ["E-002"] ∧
      s4.evidence.map (fun e => e.evidence_id) = ["E-002", "E-002"] ∧
      ¬ (s4.evidence.map (fun e => e.evidence_id)).Nodup := by
  refine ⟨_, _, _, _, rfl, rfl, rfl, rfl, ?_, ?_, ?_, ?_⟩ <;> decide

/-! ## Evidence collection: placement mode -/

/-- Placement mode gates the clicks that are handled one after the other. A click
while the mode is idle returns the state as it was (evidence list, selection, mode
and request log included); and every click that has been handled to its end leaves a
state in which the mode is idle, in which any further click changes nothing. -/
theorem handleSceneClick_gated (point : Point) (resp : FetchOutcome EvidenceMarker) (now : Nat)
    (st : SceneState) :
    (st.isAddingMode = false →
      handleSceneClick point resp now st = .ok st) ∧
    ∃ st', handleSceneClick point resp now st = .ok st' ∧ st'.isAddingMode = false ∧
      ∀ (point2 : Point) (resp2 : FetchOutcome EvidenceMarker) (now2 : Nat),
        handleSceneClick point2 resp2 now2 st' = .ok st' := by
  refine ⟨handleSceneClick_idle point resp now st, ?_⟩
  cases hmode : st.isAddingMode
  · exact ⟨st, handleSceneClick_idle point resp now st hmode, hmode,
      fun p2 r2 n2 => handleSceneClick_idle p2 r2 n2 st hmode⟩
  · by_cases hf : resp.failed = true
    · exact ⟨_, handleSceneClick_failed point resp now st hmode hf, rfl,
        fun p2 r2 n2 => handleSceneClick_idle p2 r2 n2 _ rfl⟩
    · cases resp with
      | ok data =>
        exact ⟨_, handleSceneClick_ok point data now st hmode, rfl,
          fun p2 r2 n2 => handleSceneClick_idle p2 r2 n2 _ rfl⟩
      | rejected => exact absurd rfl hf
      | notOk => exact absurd rfl hf
      | badJson => exact absurd rfl hf

/-- The two halves of `handleSceneClick` make up the whole call when nothing happens
in between. -/
theorem handleSceneClick_begin_settle (point : Point) (resp : FetchOutcome EvidenceMarker)
    (now : Nat) (st : SceneState) :
    handleSceneClick point resp now st =
      .ok (match handleSceneClickBegin point now st with
           | (st1, none) => st1
           | (st1, some pending) => handleSceneClickSettle pending resp st1) := by
  cases hmode : st.isAddingMode <;> cases resp <;>
    simp [handleSceneClick, handleSceneClickBegin, handleSceneClickSettle, hmode]

/-- While the POST of a click is awaited nothing has been written: the mode and the
evidence list are as they were when the click happened. -/
theorem handleSceneClickBegin_mode (point : Point) (now : Nat) (st : SceneState) :
    (handleSceneClickBegin point now st).1.isAddingMode = st.isAddingMode ∧
    (handleSceneClickBegin point now st).1.evidence = st.evidence := by
  cases hmode : st.isAddingMode <;> simp [handleSceneClickBegin, hmode]

/-- C10, the code at the failing input: the user enters placing mode and clicks
twice before the POST of the first click has settled. After the first click has been
handled up to its `await` the mode is still placing, because it is set to idle only
after the awaited POST; so the second click passes the guard and issues a POST of its
own, without placing mode having been entered again. When both requests have settled
(here with a non-success response), the first call has appended its marker and set
the mode to idle, and the second call has then written, over that list, the list it
was started with followed by its own marker: the second click did add something. -/
theorem second_click_before_settle_is_handled :
    ∃ s1 p1 s2 p2,
      handleSceneClickBegin ⟨1, 0, -1⟩ 100 (toggleAddingMode (SceneState.init "1"))
        = (s1, some p1) ∧
      s1.isAddingMode = true ∧ s1.evidence = [] ∧
      handleSceneClickBegin ⟨-2, 0, 1 / 2⟩ 200 s1 = (s2, some p2) ∧
      s2.requests =
        [Request.mk "POST" "/api/cases/1/evidence" (Body.evidence "bloodstain_spatter" 1 0 (-1)),
         Request.mk "POST" "/api/cases/1/evidence"
           (Body.evidence "bloodstain_spatter" (-2) 0 (1 / 2))] ∧
      (handleSceneClickSettle p1 .notOk s2).evidence.map (fun e => (e.id, e.evidence_id))
        = [(100, "E-001")] ∧
      (handleSceneClickSettle p1 .notOk s2).isAddingMode = false ∧
      (handleSceneClickSettle p2 .notOk (handleSceneClickSettle p1 .notOk s2)).evidence.map
          (fun e => (e.id, e.evidence_id)) = [(200, "E-001")] := by
  exact ⟨_, _, _, _, rfl, rfl, rfl, rfl, rfl, rfl, rfl, rfl⟩

/-! ## Evidence collection: type selection and the catalog -/

/-- C11, counterexample: in a fresh session the user enters placing mode and clicks
without having selected any type; the click places a marker (of the default type). -/
theorem click_without_selection_places_marker :
    ∃ st', handleSceneClick ⟨1, 0, -1⟩ .rejected 100 (toggleAddingMode (SceneState.init "1"))
        = .ok st' ∧
      st'.evidence.length = 1 ∧
      st'.evidence.map (fun e => e.type) = ["bloodstain_spatter"] := by
  exact ⟨_, rfl, rfl, rfl⟩

/-- No handler of the scene viewer other than a type button writes `newEvidenceType`. -/
theorem SceneAction.run_newEvidenceType (a : SceneAction) (st st' : SceneState)
    (h : a.run st = .ok st') :
    st'.newEvidenceType = st.newEvidenceType ∨
      ∃ key, a = .selectType key ∧ st'.newEvidenceType = key := by
  cases a with
  | load resp =>
    left
    cases resp <;> (cases h; rfl)
  | toggle =>
    left
    cases h
    rfl
  | selectType key =>
    right
    cases h
    exact ⟨key, rfl, rfl⟩
  | selectMarker id =>
    left
    cases h
    rfl
  | click point resp now =>
    left
    have h' : handleSceneClick point resp now st = .ok st' := h
    cases hmode : st.isAddingMode
    · rw [handleSceneClick_idle point resp now st hmode] at h'
      cases h'
      rfl
    · cases resp with
      | ok data =>
        rw [handleSceneClick_ok point data now st hmode] at h'
        cases h'
        rfl
      | rejected =>
        rw [handleSceneClick_failed point .rejected now st hmode rfl] at h'
        cases h'
        rfl
      | notOk =>
        rw [handleSceneClick_failed point .notOk now st hmode rfl] at h'
        cases h'
        rfl
      | badJson =>
        rw [handleSceneClick_failed point .badJson now st hmode rfl] at h'
        cases h'
        rfl
  | update id updates resp =>
    left
    cases resp <;> (cases h; rfl)
  | delete id resp =>
    left
    cases resp <;> (cases h; rfl)

/-- Every step of a session returns normally. -/
theorem SceneAction.run_total (a : SceneAction) (st : SceneState) :
    ∃ st', a.run st = .ok st' := by
  cases a with
  | load resp => cases resp <;> exact ⟨_, rfl⟩
  | toggle => exact ⟨_, rfl⟩
  | selectType key => exact ⟨_, rfl⟩
  | selectMarker id => exact ⟨_, rfl⟩
  | click point resp now =>
    cases hmode : st.isAddingMode
    · exact ⟨_, handleSceneClick_idle point resp now st hmode⟩
    · cases resp with
      | ok data => exact ⟨_, handleSceneClick_ok point data now st hmode⟩
      | rejected => exact ⟨_, handleSceneClick_failed point .rejected now st hmode rfl⟩
      | notOk => exact ⟨_, handleSceneClick_failed point .notOk now st hmode rfl⟩
      | badJson => exact ⟨_, handleSceneClick_failed point .badJson now st hmode rfl⟩
  | update id updates resp => cases resp <;> exact ⟨_, rfl⟩
  | delete id resp => cases resp <;> exact ⟨_, rfl⟩

/-- Every session runs to its end. -/
theorem runSceneActions_total (actions : List SceneAction) (st : SceneState) :
    ∃ st', runSceneActions actions st = .ok st' := by
  induction actions generalizing st with
  | nil => exact ⟨st, rfl⟩
  | cons a rest ih =>
    obtain ⟨st1, h1⟩ := a.run_total st
    obtain ⟨st', h'⟩ := ih st1
    exact ⟨st', by simp only [runSceneActions, h1, h']⟩

/-- The selected type at the end of a session is a key of the catalog when it was one
at the start and every type selected in between is one. -/
theorem runSceneActions_type_in_catalog (actions : List SceneAction) (st st' : SceneState)
    (hkeys : ∀ key, SceneAction.selectType key ∈ actions → key ∈ evidenceTypeKeys)
    (hst : st.newEvidenceType ∈ evidenceTypeKeys)
    (hrun : runSceneActions actions st = .ok st') :
    st'.newEvidenceType ∈ evidenceTypeKeys := by
  induction actions generalizing st with
  | nil =>
    cases hrun
    exact hst
  | cons a rest ih =>
    obtain ⟨st1, h1⟩ := a.run_total st
    simp only [runSceneActions, h1] at hrun
    refine ih st1 (fun key hk => hkeys key (List.mem_cons_of_mem _ hk)) ?_ hrun
    rcases a.run_newEvidenceType st st1 h1 with h | ⟨key, rfl, h⟩
    · rw [h]
      exact hst
    · rw [h]
      exact hkeys key (List.mem_cons_self _ _)

/-- The selected type at the end of a session without a type selection is the one of
the start. -/
theorem runSceneActions_type_kept (actions : List SceneAction) (st st' : SceneState)
    (hno : ∀ a ∈ actions, a.selectsType = false)
    (hrun : runSceneActions actions st = .ok st') :
    st'.newEvidenceType = st.newEvidenceType := by
  induction actions generalizing st with
  | nil =>
    cases hrun
    rfl
  | cons a rest ih =>
    obtain ⟨st1, h1⟩ := a.run_total st
    simp only [runSceneActions, h1] at hrun
    rw [ih st1 (fun b hb => hno b (List.mem_cons_of_mem _ hb)) hrun]
    rcases a.run_newEvidenceType st st1 h1 with h | ⟨key, rfl, -⟩
    · exact h
    · have := hno _ (List.mem_cons_self _ _)
      simp [SceneAction.selectsType] at this

/-- C11, amended: a type is always selected. `newEvidenceType` starts as
`bloodstain_spatter`, a key of the catalog, and only a type button writes it, so at
the end of every session (any sequence of loads of the evidence list, mode toggles,
type selections from the catalog, marker selections, clicks on the render surface,
updates and removals) it is a key of the catalog. At the end of every session without
a type selection it is still `bloodstain_spatter`, and then a click in placing mode
returns normally and appends exactly one marker to the list: the marker built locally
(persistence failed) has type `bloodstain_spatter`, and a persisted one is the marker
the server returned. -/
theorem session_without_selection_uses_default (caseId : String)
    (actions : List SceneAction) (st : SceneState)
    (hkeys : ∀ key, SceneAction.selectType key ∈ actions → key ∈ evidenceTypeKeys)
    (hrun : runSceneActions actions (SceneState.init caseId) = .ok st) :
    st.newEvidenceType ∈ evidenceTypeKeys ∧
    ((∀ a ∈ actions, a.selectsType = false) →
      st.newEvidenceType = "bloodstain_spatter" ∧
      (st.isAddingMode = true →
        ∀ (point : Point) (resp : FetchOutcome EvidenceMarker) (now : Nat),
          ∃ m st', handleSceneClick point resp now st = .ok st' ∧
            st'.evidence = st.evidence ++ [m] ∧
            (resp.failed = true → m = newEvidence st.evidence "bloodstain_spatter" point now) ∧
            (resp.failed = true → m.type = "bloodstain_spatter") ∧
            (∀ data, resp = .ok data → m = data))) := by
  have hinit : (SceneState.init caseId).newEvidenceType ∈ evidenceTypeKeys := by
    show "bloodstain_spatter" ∈ evidenceTypeKeys
    decide
  refine ⟨runSceneActions_type_in_catalog actions _ st hkeys hinit hrun, ?_⟩
  intro hno
  have htype : st.newEvidenceType = "bloodstain_spatter" :=
    runSceneActions_type_kept actions _ st hno hrun
  refine ⟨htype, ?_⟩
  intro hmode point resp now
  by_cases hf : resp.failed = true
  · refine ⟨newEvidence st.evidence st.newEvidenceType point now, _,
      handleSceneClick_failed point resp now st hmode hf, rfl, ?_, ?_, ?_⟩
    · intro _
      rw [htype]
    · intro _
      exact htype
    · intro data hd
      subst hd
      simp [FetchOutcome.failed] at hf
  · cases resp with
    | ok data =>
      exact ⟨data, _, handleSceneClick_ok point data now st hmode, rfl,
        fun h => absurd h hf, fun h => absurd h hf, fun d hd => by cases hd; rfl⟩
    | rejected => exact absurd rfl hf
    | notOk => exact absurd rfl hf
    | badJson => exact absurd rfl hf

/-- Witness of C11 (amended): the evidence list is loaded (the request fails and the
demo list is installed), a marker is selected, and the user enters placing mode; no
type is selected. A click then appends a marker of type `bloodstain_spatter` to the
three demo markers. -/
theorem session_without_selection_uses_default_witness :
    runSceneActions [.load .rejected, .selectMarker 2, .toggle] (SceneState.init "1") =
      .ok { SceneState.init "1" with
            evidence := demoEvidence, selectedEvidence := some 2, isAddingMode := true
            requests := [Request.mk "GET" "/api/cases/1/evidence" Body.none] } ∧
    ∃ m st', handleSceneClick ⟨1, 0, 1 / 2⟩ .rejected 100
        { SceneState.init "1" with
          evidence := demoEvidence, selectedEvidence := some 2, isAddingMode := true
          requests := [Request.mk "GET" "/api/cases/1/evidence" Body.none] } = .ok st' ∧
      st'.evidence = demoEvidence ++ [m] ∧ m.type = "bloodstain_spatter" := by
  refine ⟨rfl, ?_⟩
  obtain ⟨m, st', h1, h2, -, h4, -⟩ :=
    ((session_without_selection_uses_default "1" [.load .rejected, .selectMarker 2, .toggle]
      { SceneState.init "1" with
        evidence := demoEvidence, selectedEvidence := some 2, isAddingMode := true
        requests := [Request.mk "GET" "/api/cases/1/evidence" Body.none] }
      (fun key hk => by simp at hk) rfl).2
      (fun a ha => by
        simp only [List.mem_cons, List.mem_singleton, List.not_mem_nil, or_false] at ha
        rcases ha with rfl | rfl | rfl <;> rfl)).2 rfl ⟨1, 0, 1 / 2⟩ .rejected 100
  exact ⟨m, st', h1, h2, h4 rfl⟩

/-- C12, the code at the failing input: the demo list that the fallback branch of
`fetchEvidence` installs holds markers of type `bloodstain` and `weapon`, which are
not keys of `EVIDENCE_TYPES`, so not every marker of the list has a catalog type. -/
theorem demoEvidence_types_outside_catalog :
    ∃ st', fetchEvidence .rejected (SceneState.init "1") = .ok st' ∧
      st'.evidence.map (fun e => e.type) = ["bloodstain", "weapon", "footprint"] ∧
      "bloodstain" ∉ evidenceTypeKeys ∧ "weapon" ∉ evidenceTypeKeys ∧
      "footprint" ∈ evidenceTypeKeys ∧
      ¬ ∀ m ∈ st'.evidence, m.type ∈ evidenceTypeKeys := by
  refine ⟨_, rfl, rfl, by decide, by decide, by decide, ?_⟩
  intro h
  have hmem : (demoEvidence.get ⟨0, by decide⟩) ∈ demoEvidence := List.get_mem _ _ _
  exact absurd (h _ hmem) (by decide)

/-- Fallback placement, a notes update and a removal keep the types of the list
inside the catalog, as long as the selected type is a key of the catalog. -/
theorem catalog_types_preserved (st : SceneState)
    (hlist : ∀ m ∈ st.evidence, m.type ∈ evidenceTypeKeys)
    (hsel : st.newEvidenceType ∈ evidenceTypeKeys) :
    (∀ point resp now st', resp.failed = true →
      handleSceneClick point resp now st = .ok st' →
        ∀ m ∈ st'.evidence, m.type ∈ evidenceTypeKeys) ∧
    (∀ id s resp st', handleUpdateEvidence id (notesPatch s) resp st = .ok st' →
      ∀ m ∈ st'.evidence, m.type ∈ evidenceTypeKeys) ∧
    (∀ id resp st', handleDeleteEvidence id resp st = .ok st' →
      ∀ m ∈ st'.evidence, m.type ∈ evidenceTypeKeys) := by
  refine ⟨?_, ?_, ?_⟩
  · intro point resp now st' hf hst'
    cases hmode : st.isAddingMode
    · rw [handleSceneClick_idle point resp now st hmode] at hst'
      cases hst'
      exact hlist
    · rw [handleSceneClick_failed point resp now st hmode hf] at hst'
      cases hst'
      intro m hm
      rcases List.mem_append.mp hm with hm | hm
      · exact hlist m hm
      · rw [List.mem_singleton] at hm
        subst hm
        exact hsel
  · intro id s resp st' hst'
    have : st'.evidence =
        st.evidence.map (fun e => if e.id = id then applyPatch e (notesPatch s) else e) := by
      cases resp <;> (cases hst'; rfl)
    rw [this]
    intro m hm
    obtain ⟨e, he, rfl⟩ := List.mem_map.mp hm
    by_cases hid : e.id = id
    · simpa [hid, applyPatch, notesPatch] using hlist e he
    · simpa [hid] using hlist e he
  · intro id resp st' hst'
    have : st'.evidence = st.evidence.filter (fun e => e.id != id) := by
      cases resp <;> (cases hst'; rfl)
    rw [this]
    intro m hm
    exact hlist m (List.mem_filter.mp hm).1

/-! ## Evidence collection: update and remove -/

/-- C13: for every evidence list, id and patch `{ notes: s }`, `handleUpdateEvidence`
returns normally whatever the PUT did, and the new list is the old one with, position
by position, every marker whose id is the given one carrying notes `s` (all its other
fields as before) and every other marker as it was; length and order are kept. -/
theorem handleUpdateEvidence_applies_notes (id : Nat) (s : String) (resp : FetchOutcome Unit)
    (st : SceneState) :
    ∃ st', handleUpdateEvidence id (notesPatch s) resp st = .ok st' ∧
      st'.evidence = st.evidence.map (fun e => if e.id = id then { e with notes := s } else e) ∧
      st'.evidence.length = st.evidence.length ∧
      (∀ (i : Nat) (e : EvidenceMarker), st.evidence[i]? = some e →
        (e.id = id → st'.evidence[i]? = some { e with notes := s }) ∧
        (e.id ≠ id → st'.evidence[i]? = some e)) := by
  have hev : ∀ st', handleUpdateEvidence id (notesPatch s) resp st = .ok st' →
      st'.evidence = st.evidence.map (fun e => if e.id = id then { e with notes := s } else e) := by
    intro st' hst'
    cases resp <;> (cases hst'; rfl)
  have hok : ∃ st', handleUpdateEvidence id (notesPatch s) resp st = .ok st' := ⟨_, rfl⟩
  obtain ⟨st', hst'⟩ := hok
  have h := hev st' hst'
  refine ⟨st', hst', h, ?_, ?_⟩
  · rw [h, List.length_map]
  · intro i e hi
    rw [h, List.getElem?_map, hi]
    constructor
    · intro hid
      simp [hid]
    · intro hid
      simp [hid]

/-- C14: for every evidence list and id, `handleDeleteEvidence` returns normally
whatever the DELETE did; afterwards the list is the old one without the markers of
that id: no marker with that id is left, every marker with another id is still
there, unchanged and in the original order, and the selection is cleared. -/
theorem handleDeleteEvidence_removes (id : Nat) (resp : FetchOutcome Unit) (st : SceneState) :
    ∃ st', handleDeleteEvidence id resp st = .ok st' ∧
      st'.evidence = st.evidence.filter (fun e => decide (e.id ≠ id)) ∧
      (∀ e ∈ st'.evidence, e.id ≠ id) ∧
      (∀ e ∈ st.evidence, e.id ≠ id → e ∈ st'.evidence) ∧
      List.Sublist st'.evidence st.evidence ∧
      st'.selectedEvidence = none := by
  have hev : ∀ st', handleDeleteEvidence id resp st = .ok st' →
      st'.evidence = st.evidence.filter (fun e => decide (e.id ≠ id)) ∧
        st'.selectedEvidence = none := by
    intro st' hst'
    have hfun : (fun e : EvidenceMarker => e.id != id) = (fun e => decide (e.id ≠ id)) := by
      funext e
      by_cases hid : e.id = id <;> simp [hid]
    rw [← hfun]
    cases resp <;> (cases hst'; exact ⟨rfl, rfl⟩)
  have hok : ∃ st', handleDeleteEvidence id resp st = .ok st' := ⟨_, rfl⟩
  obtain ⟨st', hst'⟩ := hok
  obtain ⟨h, hsel⟩ := hev st' hst'
  refine ⟨st', hst', h, ?_, ?_, ?_, hsel⟩
  · intro e he
    rw [h] at he
    simpa using (List.mem_filter.mp he).2
  · intro e he hid
    rw [h]
    exact List.mem_filter.mpr ⟨he, by simpa using hid⟩
  · rw [h]
    exact List.filter_sublist _

/-! ## Lemmas on object maps -/

theorem lookup_eq_none_of_any_false {α : Type} (l : List (String × α)) (k : String)
    (h : l.any (fun kv => kv.1 == k) = false) : l.lookup k = none := by
  induction l with
  | nil => rfl
  | cons kv l ih =>
    obtain ⟨k0, v0⟩ := kv
    rw [List.any_cons, Bool.or_eq_false_iff] at h
    have hne : (k == k0) = false := by
      have h1 : ¬ k0 = k := by simpa using h.1
      simpa using fun e : k = k0 => h1 e.symm
    rw [List.lookup_cons, hne]
    exact ih h.2

theorem lookup_map_replace {α : Type} (l : List (String × α)) (k k' : String) (v : α) :
    (l.map (fun kv => if kv.1 = k then (k, v) else kv)).lookup k' =
      if k' = k then (if l.any (fun kv => kv.1 == k) then some v else none)
      else l.lookup k' := by
  induction l with
  | nil => by_cases h : k' = k <;> simp [h]
  | cons kv l ih =>
    obtain ⟨k0, v0⟩ := kv
    rw [List.map_cons, List.any_cons]
    by_cases h0 : k0 = k
    · have hb0 : (k0 == k) = true := by simpa using h0
      rw [if_pos h0, List.lookup_cons, hb0, Bool.true_or, if_pos rfl]
      by_cases h : k' = k
      · have hb : (k' == k) = true := by simpa using h
        rw [hb, if_pos h]
      · have hb : (k' == k) = false := by simpa using h
        have hb' : (k' == k0) = false := by rw [h0]; exact hb
        rw [hb, if_neg h, List.lookup_cons, hb']
        simpa [h] using ih
    · have hb0 : (k0 == k) = false := by simpa using h0
      rw [if_neg h0, List.lookup_cons, hb0, Bool.false_or, List.lookup_cons]
      cases hb : (k' == k0)
      · exact ih
      · have hk : k' = k0 := by simpa using hb
        have hne : ¬ k' = k := by rw [hk]; exact h0
        rw [if_neg hne]

theorem lookup_append_singleton {α : Type} (l : List (String × α)) (k k' : String) (v : α) :
    (l ++ [(k, v)]).lookup k' =
      match l.lookup k' with
      | some x => some x
      | none => if k' = k then some v else none := by
  induction l with
  | nil =>
    rw [List.nil_append, List.lookup_cons]
    by_cases h : k' = k
    · have hb : (k' == k) = true := by simpa using h
      simp [hb, h]
    · have hb : (k' == k) = false := by simpa using h
      simp [hb, h]
  | cons kv l ih =>
    obtain ⟨k0, v0⟩ := kv
    rw [List.cons_append, List.lookup_cons, List.lookup_cons]
    cases hb : (k' == k0)
    · exact ih
    · rfl

theorem JsObject.get?_set {α : Type} (o : JsObject α) (k k' : String) (v : α) :
    (o.set k v).get? k' = if k' = k then some v else o.get? k' := by
  unfold JsObject.set JsObject.get?
  cases hany : o.entries.any (fun kv => kv.1 == k)
  · simp only [Bool.false_eq_true, if_false, lookup_append_singleton]
    by_cases h : k' = k
    · subst h
      rw [lookup_eq_none_of_any_false _ _ hany]
    · simp only [if_neg h]
      cases o.entries.lookup k' <;> rfl
  · simp only [if_true, lookup_map_replace, hany]

theorem JsObject.set_set {α : Type} (o : JsObject α) (k : String) (v w : α) :
    (o.set k v).set k w = o.set k w := by
  unfold JsObject.set
  cases hany : o.entries.any (fun kv => kv.1 == k)
  · have hmap : ∀ l : List (String × α), l.any (fun kv => kv.1 == k) = false →
        l.map (fun kv => if kv.1 = k then (k, w) else kv) = l := by
      intro l hl
      induction l with
      | nil => rfl
      | cons kv l ih =>
        simp only [List.any_cons, Bool.or_eq_false_iff, beq_eq_false_iff_ne, ne_eq] at hl
        simp only [List.map_cons, if_neg hl.1, ih hl.2]
    simp [hmap _ hany]
  · have hany2 : (o.entries.map (fun kv => if kv.1 = k then (k, v) else kv)).any
        (fun kv => kv.1 == k) = true := by
      rw [List.any_eq_true] at hany ⊢
      obtain ⟨kv, hkv, hk⟩ := hany
      refine ⟨(k, v), ?_, by simp⟩
      rw [List.mem_map]
      exact ⟨kv, hkv, by simp at hk; simp [hk]⟩
    simp only [if_true, hany2, List.map_map]
    congr 1
    apply List.map_congr_left
    intro kv _
    by_cases h : kv.1 = k <;> simp [h]

theorem JsObject.keys_set {α : Type} (o : JsObject α) (k : String) (v : α) :
    (o.set k v).keys = if k ∈ o.keys then o.keys else o.keys ++ [k] := by
  unfold JsObject.set JsObject.keys
  have hiff : o.entries.any (fun kv => kv.1 == k) = true ↔ k ∈ o.entries.map Prod.fst := by
    rw [List.any_eq_true, List.mem_map]
    constructor
    · rintro ⟨kv, hkv, hk⟩
      exact ⟨kv, hkv, by simpa using hk⟩
    · rintro ⟨kv, hkv, hk⟩
      exact ⟨kv, hkv, by simpa using hk⟩
  by_cases hany : o.entries.any (fun kv => kv.1 == k) = true
  · rw [if_pos hany, if_pos (hiff.mp hany)]
    simp only [List.map_map]
    apply List.map_congr_left
    intro kv _
    by_cases h : kv.1 = k <;> simp [h]
  · rw [if_neg hany, if_neg (fun h => hany (hiff.mpr h))]
    simp

/-! ## Agent workflow: the paths of runAgent -/

theorem runAgent_failed (a : String) (resp : FetchOutcome JsValue) (rnd : Rat) (st : WorkflowState)
    (h : resp.failed = true) :
    runAgent a resp rnd st =
      .ok ((runAgentCatch a rnd (runAgentStart a st)).logEvent (Event.resolved a)) := by
  cases resp <;> simp_all [FetchOutcome.failed, runAgent, runAgentTry]

theorem runAgent_ok_other (a : String) (r : JsValue) (rnd : Rat) (st : WorkflowState)
    (h : a ≠ "timeline_builder") :
    runAgent a (.ok r) rnd st =
      .ok ((((runAgentStart a st).setAgentResult a r).setAgentStatus a "completed").logEvent
        (Event.resolved a)) := by
  simp [runAgent, runAgentTry, h]

theorem runAgent_ok_null (rnd : Rat) (st : WorkflowState) :
    runAgent "timeline_builder" (.ok .null) rnd st =
      .ok ((runAgentCatch "timeline_builder" rnd
        (((runAgentStart "timeline_builder" st).setAgentResult "timeline_builder" .null).setAgentStatus
          "timeline_builder" "completed")).logEvent (Event.resolved "timeline_builder")) := by
  simp [runAgent, runAgentTry]

theorem runAgent_ok_timeline (r : JsValue) (rnd : Rat) (st : WorkflowState) (h : r ≠ .null) :
    runAgent "timeline_builder" (.ok r) rnd st =
      .ok (({ (((runAgentStart "timeline_builder" st).setAgentResult "timeline_builder" r).setAgentStatus
            "timeline_builder" "completed") with
          hypotheses :=
            match scenariosOf r with
            | some scenarios => if scenarios.truthy then scenarios else st.hypotheses
            | none => st.hypotheses } : WorkflowState).logEvent (Event.resolved "timeline_builder")) := by
  cases r with
  | null => exact absurd rfl h
  | _ =>
    simp only [runAgent, runAgentTry, if_true]
    split <;> rename_i heq
    · split at heq
      · split at heq <;> simp_all [WorkflowState.logEvent, WorkflowState.setAgentStatus, WorkflowState.setAgentResult, runAgentStart]
      · simp_all [WorkflowState.logEvent, WorkflowState.setAgentStatus, WorkflowState.setAgentResult, runAgentStart]
    · split at heq
      · split at heq <;> simp_all
      · simp_all

/-! ## Agent workflow: fields of the intermediate states -/

@[simp] theorem logEvent_caseId (st : WorkflowState) (e : Event) :
    (st.logEvent e).caseId = st.caseId :=
  rfl

@[simp] theorem logEvent_agentStatuses (st : WorkflowState) (e : Event) :
    (st.logEvent e).agentStatuses = st.agentStatuses :=
  rfl

@[simp] theorem logEvent_agentResults (st : WorkflowState) (e : Event) :
    (st.logEvent e).agentResults = st.agentResults :=
  rfl

@[simp] theorem logEvent_hypotheses (st : WorkflowState) (e : Event) :
    (st.logEvent e).hypotheses = st.hypotheses :=
  rfl

@[simp] theorem logEvent_isRunningAll (st : WorkflowState) (e : Event) :
    (st.logEvent e).isRunningAll = st.isRunningAll :=
  rfl

@[simp] theorem logEvent_log (st : WorkflowState) (e : Event) :
    (st.logEvent e).log = st.log ++ [e] :=
  rfl

@[simp] theorem setAgentStatus_caseId (st : WorkflowState) (a v : String) :
    (st.setAgentStatus a v).caseId = st.caseId :=
  rfl

@[simp] theorem setAgentStatus_agentStatuses (st : WorkflowState) (a v : String) :
    (st.setAgentStatus a v).agentStatuses = st.agentStatuses.set a v :=
  rfl

@[simp] theorem setAgentStatus_agentResults (st : WorkflowState) (a v : String) :
    (st.setAgentStatus a v).agentResults = st.agentResults :=
  rfl

@[simp] theorem setAgentStatus_hypotheses (st : WorkflowState) (a v : String) :
    (st.setAgentStatus a v).hypotheses = st.hypotheses :=
  rfl

@[simp] theorem setAgentStatus_isRunningAll (st : WorkflowState) (a v : String) :
    (st.setAgentStatus a v).isRunningAll = st.isRunningAll :=
  rfl

@[simp] theorem setAgentStatus_log (st : WorkflowState) (a v : String) :
    (st.setAgentStatus a v).log = st.log ++ [Event.status a v (st.agentStatuses.set a v)] :=
  rfl

@[simp] theorem setAgentResult_caseId (st : WorkflowState) (a : String) (r : JsValue) :
    (st.setAgentResult a r).caseId = st.caseId :=
  rfl

@[simp] theorem setAgentResult_agentStatuses (st : WorkflowState) (a : String) (r : JsValue) :
    (st.setAgentResult a r).agentStatuses = st.agentStatuses :=
  rfl

@[simp] theorem setAgentResult_agentResults (st : WorkflowState) (a : String) (r : JsValue) :
    (st.setAgentResult a r).agentResults = st.agentResults.set a r :=
  rfl

@[simp] theorem setAgentResult_hypotheses (st : WorkflowState) (a : String) (r : JsValue) :
    (st.setAgentResult a r).hypotheses = st.hypotheses :=
  rfl

@[simp] theorem setAgentResult_isRunningAll (st : WorkflowState) (a : String) (r : JsValue) :
    (st.setAgentResult a r).isRunningAll = st.isRunningAll :=
  rfl

@[simp] theorem setAgentResult_log (st : WorkflowState) (a : String) (r : JsValue) :
    (st.setAgentResult a r).log = st.log :=
  rfl

@[simp] theorem runAgentStart_caseId (a : String) (st : WorkflowState) :
    (runAgentStart a st).caseId = st.caseId :=
  rfl

@[simp] theorem runAgentStart_agentStatuses (a : String) (st : WorkflowState) :
    (runAgentStart a st).agentStatuses = st.agentStatuses.set a "running" :=
  rfl

@[simp] theorem runAgentStart_agentResults (a : String) (st : WorkflowState) :
    (runAgentStart a st).agentResults = st.agentResults :=
  rfl

@[simp] theorem runAgentStart_hypotheses (a : String) (st : WorkflowState) :
    (runAgentStart a st).hypotheses = st.hypotheses :=
  rfl

@[simp] theorem runAgentStart_isRunningAll (a : String) (st : WorkflowState) :
    (runAgentStart a st).isRunningAll = st.isRunningAll :=
  rfl

@[simp] theorem runAgentStart_log (a : String) (st : WorkflowState) :
    (runAgentStart a st).log = st.log ++
      [Event.status a "running" (st.agentStatuses.set a "running"),
       Event.request (Request.mk "POST" (agentRunUrl st.caseId a) Body.none)] :=
  by
  simp [runAgentStart]

@[simp] theorem runAgentCatch_caseId (a : String) (rnd : Rat) (st : WorkflowState) :
    (runAgentCatch a rnd st).caseId = st.caseId := by
  unfold runAgentCatch
  split <;> simp

@[simp] theorem runAgentCatch_agentStatuses (a : String) (rnd : Rat) (st : WorkflowState) :
    (runAgentCatch a rnd st).agentStatuses = st.agentStatuses.set a "completed" := by
  unfold runAgentCatch
  split <;> simp

@[simp] theorem runAgentCatch_agentResults (a : String) (rnd : Rat) (st : WorkflowState) :
    (runAgentCatch a rnd st).agentResults = st.agentResults.set a (demoResult a rnd) := by
  unfold runAgentCatch
  split <;> simp

@[simp] theorem runAgentCatch_isRunningAll (a : String) (rnd : Rat) (st : WorkflowState) :
    (runAgentCatch a rnd st).isRunningAll = st.isRunningAll := by
  unfold runAgentCatch
  split <;> simp

@[simp] theorem runAgentCatch_log (a : String) (rnd : Rat) (st : WorkflowState) :
    (runAgentCatch a rnd st).log = st.log ++
      [Event.delay 2000, Event.status a "completed" (st.agentStatuses.set a "completed")] := by
  unfold runAgentCatch
  split <;> simp

theorem runAgentCatch_hypotheses_other (a : String) (rnd : Rat) (st : WorkflowState)
    (h : a ≠ "timeline_builder") : (runAgentCatch a rnd st).hypotheses = st.hypotheses := by
  unfold runAgentCatch
  rw [if_neg h]
  rfl

/-- The scenario list of the demo output of the timeline builder: two scenarios. -/
theorem getDemoOutput_scenarios :
    ∃ a b, (getDemoOutput "timeline_builder").get? "scenarios" = some (.arr [a, b]) :=
  ⟨_, _, rfl⟩

theorem runAgentCatch_hypotheses_timeline (rnd : Rat) (st : WorkflowState) :
    some (runAgentCatch "timeline_builder" rnd st).hypotheses =
      (getDemoOutput "timeline_builder").get? "scenarios" := by
  rfl

/-- The four ways in which a call of `runAgent` can go. -/
theorem runAgent_cases (a : String) (resp : FetchOutcome JsValue) :
    resp.failed = true ∨ (∃ r, resp = .ok r ∧ a ≠ "timeline_builder") ∨
      (resp = .ok .null ∧ a = "timeline_builder") ∨
      (∃ r, resp = .ok r ∧ r ≠ .null ∧ a = "timeline_builder") := by
  cases resp with
  | ok r =>
    by_cases ha : a = "timeline_builder"
    · by_cases hr : r = .null
      · subst hr
        exact Or.inr (Or.inr (Or.inl ⟨rfl, ha⟩))
      · exact Or.inr (Or.inr (Or.inr ⟨r, rfl, hr, ha⟩))
    · exact Or.inr (Or.inl ⟨r, rfl, ha⟩)
  | rejected => exact Or.inl rfl
  | notOk => exact Or.inl rfl
  | badJson => exact Or.inl rfl

/-- Summary of a call of `runAgent`: it returns normally; it sets the status of the
stage to `running`, issues the request, then only pauses or sets the status of the
stage to `completed`, and resolves; it stores one result for the stage. -/
theorem runAgent_spec (a : String) (resp : FetchOutcome JsValue) (rnd : Rat)
    (st : WorkflowState) :
    ∃ st' mid result, runAgent a resp rnd st = .ok st' ∧
      st'.caseId = st.caseId ∧ st'.isRunningAll = st.isRunningAll ∧
      st'.agentStatuses = (st.agentStatuses.set a "running").set a "completed" ∧
      st'.agentResults = st.agentResults.set a result ∧
      st'.log = st.log ++
        Event.status a "running" (st.agentStatuses.set a "running") ::
        Event.request (Request.mk "POST" (agentRunUrl st.caseId a) Body.none) ::
        (mid ++ [Event.resolved a]) ∧
      (∀ e ∈ mid, e = Event.delay 2000 ∨
        e = Event.status a "completed" ((st.agentStatuses.set a "running").set a "completed")) ∧
      Event.status a "completed" ((st.agentStatuses.set a "running").set a "completed") ∈ mid ∧
      (a ≠ "timeline_builder" → st'.hypotheses = st.hypotheses) := by
  rcases runAgent_cases a resp with hf | ⟨r, rfl, ha⟩ | ⟨rfl, rfl⟩ | ⟨r, rfl, hr, rfl⟩
  · refine ⟨(runAgentCatch a rnd (runAgentStart a st)).logEvent (Event.resolved a),
      [Event.delay 2000,
        Event.status a "completed" ((st.agentStatuses.set a "running").set a "completed")],
      demoResult a rnd, runAgent_failed a resp rnd st hf, ?_, ?_, ?_, ?_, ?_, ?_, ?_, ?_⟩
    · simp
    · simp
    · simp
    · simp
    · simp
    · intro e he
      simpa using he
    · simp
    · intro ha
      simp [runAgentCatch_hypotheses_other a rnd _ ha]
  · refine ⟨(((runAgentStart a st).setAgentResult a r).setAgentStatus a "completed").logEvent
        (Event.resolved a),
      [Event.status a "completed" ((st.agentStatuses.set a "running").set a "completed")],
      r, runAgent_ok_other a r rnd st ha, ?_, ?_, ?_, ?_, ?_, ?_, ?_, ?_⟩
    · simp
    · simp
    · simp
    · simp
    · simp
    · intro e he
      exact Or.inr (by simpa using he)
    · simp
    · intro _
      simp
  · refine ⟨_,
      [Event.status "timeline_builder" "completed"
          ((st.agentStatuses.set "timeline_builder" "running").set "timeline_builder" "completed"),
        Event.delay 2000,
        Event.status "timeline_builder" "completed"
          ((st.agentStatuses.set "timeline_builder" "running").set "timeline_builder" "completed")],
      demoResult "timeline_builder" rnd, runAgent_ok_null rnd st, ?_, ?_, ?_, ?_, ?_, ?_, ?_, ?_⟩
    · simp
    · simp
    · simp [JsObject.set_set]
    · simp [JsObject.set_set]
    · simp [JsObject.set_set]
    · intro e he
      simp only [List.mem_cons, List.mem_singleton, List.not_mem_nil, or_false] at he
      rcases he with h | h | h
      · exact Or.inr h
      · exact Or.inl h
      · exact Or.inr h
    · simp
    · intro h
      exact absurd rfl h
  · refine ⟨_,
      [Event.status "timeline_builder" "completed"
          ((st.agentStatuses.set "timeline_builder" "running").set "timeline_builder" "completed")],
      r, runAgent_ok_timeline r rnd st hr, ?_, ?_, ?_, ?_, ?_, ?_, ?_, ?_⟩
    · simp
    · simp
    · simp
    · simp
    · simp
    · intro e he
      exact Or.inr (by simpa using he)
    · simp
    · intro h
      exact absurd rfl h

/-! ## Agent workflow: the stage state machine -/

/-- C15: the stage state machine. All four stages start idle. A call `runAgent(a)`
returns normally; its first step sets stage `a` to running, whatever its status was;
every later status change of the call sets stage `a` to completed; when the call has
resolved, stage `a` is completed (so completed or error, and neither running nor
idle); and the status of every other stage is what it was before the call, so a
stage leaves completed or error only through a call of `runAgent` on it. -/
theorem runAgent_state_machine (caseId a : String) (resp : FetchOutcome JsValue) (rnd : Rat)
    (st : WorkflowState) :
    (∀ s ∈ agentOrder, (WorkflowState.init caseId).agentStatuses.get? s = some "idle") ∧
    ∃ st' rest, runAgent a resp rnd st = .ok st' ∧
      st'.log = st.log ++ Event.status a "running" (st.agentStatuses.set a "running") :: rest ∧
      (st.agentStatuses.set a "running").get? a = some "running" ∧
      (∀ e ∈ rest, ∀ b v m, e = Event.status b v m → b = a ∧ v = "completed") ∧
      (st'.agentStatuses.get? a = some "completed" ∨ st'.agentStatuses.get? a = some "error") ∧
      st'.agentStatuses.get? a ≠ some "running" ∧ st'.agentStatuses.get? a ≠ some "idle" ∧
      (∀ b, b ≠ a → st'.agentStatuses.get? b = st.agentStatuses.get? b) := by
  refine ⟨?_, ?_⟩
  · intro s hs
    simp only [agentOrder, List.mem_cons, List.mem_singleton, List.not_mem_nil, or_false] at hs
    rcases hs with rfl | rfl | rfl | rfl <;> rfl
  obtain ⟨st', mid, result, hrun, -, -, hst, -, hlog, hmid, -, -⟩ := runAgent_spec a resp rnd st
  have hdone : st'.agentStatuses.get? a = some "completed" := by
    rw [hst, JsObject.get?_set, if_pos rfl]
  refine ⟨st', _, hrun, hlog, ?_, ?_, Or.inl hdone, ?_, ?_, ?_⟩
  · rw [JsObject.get?_set, if_pos rfl]
  · intro e he b v m hb
    subst hb
    simp only [List.mem_cons, List.mem_append, List.mem_singleton, List.not_mem_nil, or_false] at he
    rcases he with h | h | h
    · cases h
    · rcases hmid _ h with h' | h'
      · cases h'
      · cases h'
        exact ⟨rfl, rfl⟩
    · cases h
  · rw [hdone]
    decide
  · rw [hdone]
    decide
  · intro b hb
    rw [hst, JsObject.get?_set, if_neg hb, JsObject.get?_set, if_neg hb]

/-- C16, counterexample: the backend answers the request of `scene_interpreter` with
a non-success response; the stage ends completed, not in the error state, and the
synthesized demo result is stored for it. -/
theorem runAgent_notOk_ends_completed :
    ∃ st', runAgent "scene_interpreter" .notOk 0 (WorkflowState.init "1") = .ok st' ∧
      st'.agentStatuses.get? "scene_interpreter" = some "completed" ∧
      st'.agentStatuses.get? "scene_interpreter" ≠ some "error" ∧
      st'.agentResults.get? "scene_interpreter" = some (demoResult "scene_interpreter" 0) := by
  refine ⟨_, rfl, rfl, ?_, rfl⟩
  intro h
  have h' : (some "completed" : Option String) = some "error" := h
  exact absurd h' (by decide)

/-- C16, amended: for every agent id, a non-success response is masked by the
synthesized fallback exactly like a transport failure: `runAgent` ends in the same
state for both, with the stage completed (not in the error state) and the demo
result stored for it; no step of the call sets a status to `error`. -/
theorem runAgent_notOk_masked (a : String) (rnd : Rat) (st : WorkflowState) :
    ∃ st', runAgent a .notOk rnd st = .ok st' ∧ runAgent a .rejected rnd st = .ok st' ∧
      st'.agentStatuses.get? a = some "completed" ∧
      st'.agentStatuses.get? a ≠ some "error" ∧
      st'.agentResults.get? a = some (demoResult a rnd) ∧
      ∃ evs, st'.log = st.log ++ evs ∧ ∀ e ∈ evs, ∀ b m, e ≠ Event.status b "error" m := by
  have hdone : ((runAgentCatch a rnd (runAgentStart a st)).logEvent
      (Event.resolved a)).agentStatuses.get? a = some "completed" := by
    simp [JsObject.get?_set]
  refine ⟨_, runAgent_failed a .notOk rnd st rfl, runAgent_failed a .rejected rnd st rfl,
    hdone, ?_, ?_, ?_⟩
  · rw [hdone]
    decide
  · simp [JsObject.get?_set]
  · refine ⟨[Event.status a "running" (st.agentStatuses.set a "running"),
      Event.request (Request.mk "POST" (agentRunUrl st.caseId a) Body.none), Event.delay 2000,
      Event.status a "completed" ((st.agentStatuses.set a "running").set a "completed"),
      Event.resolved a], by simp, ?_⟩
    intro e he b m hb
    subst hb
    simp at he

/-! ## Agent workflow: the synthesized results -/

theorem demoOutputs_lookup_other (a : String) (h : a ∉ agentOrder) :
    demoOutputs.lookup a = none := by
  simp only [agentOrder, List.mem_cons, List.mem_singleton, List.not_mem_nil, or_false,
    not_or] at h
  obtain ⟨h1, h2, h3, h4⟩ := h
  have b1 : (a == "scene_interpreter") = false := by simpa using h1
  have b2 : (a == "evidence_reasoner") = false := by simpa using h2
  have b3 : (a == "timeline_builder") = false := by simpa using h3
  have b4 : (a == "hypothesis_challenger") = false := by simpa using h4
  simp only [demoOutputs, List.lookup_cons, b1, b2, b3, b4, List.lookup_nil]

theorem getDemoOutput_ne (a b k : String)
    (ha : ((getDemoOutput a).get? k).isSome = true)
    (hb : ((getDemoOutput b).get? k).isSome = false) : getDemoOutput a ≠ getDemoOutput b := by
  intro h
  rw [h, hb] at ha
  cases ha

/-- C17, counterexample: `toString` is not one of the four agent ids, yet
`getDemoOutput` does not return the empty record for it: `outputs[agentId]` finds the
function inherited from `Object.prototype`, which is truthy. -/
theorem getDemoOutput_inherited_name :
    "toString" ∉ agentOrder ∧ getDemoOutput "toString" = .native "toString" ∧
      getDemoOutput "toString" ≠ .obj [] := by
  refine ⟨by decide, rfl, ?_⟩
  intro h
  have h' : JsValue.native "toString" = JsValue.obj [] := h
  cases h'

/-- C17, amended: for each of the four agent ids, when the request of `runAgent`
fails (at transport level, or otherwise), the call returns normally, the stage ends
completed, and the stored result has status `completed` and as output the record
that `getDemoOutput` defines for the id, which is the entry of the `outputs` literal;
the four records are pairwise different. For an id outside the four that is not the
name of a property inherited from `Object.prototype`, `getDemoOutput` returns the
empty record. -/
theorem runAgent_failure_stores_demo (rnd : Rat) (st : WorkflowState) :
    (∀ a ∈ agentOrder, ∀ resp : FetchOutcome JsValue, resp.failed = true →
      ∃ st' out, runAgent a resp rnd st = .ok st' ∧
        st'.agentStatuses.get? a = some "completed" ∧
        st'.agentResults.get? a = some (.obj [("status", .str "completed"),
          ("execution_time", .num (5 / 2 + rnd * 2)), ("output", out)]) ∧
        out = getDemoOutput a ∧ demoOutputs.lookup a = some out) ∧
    (∀ a ∈ agentOrder, ∀ b ∈ agentOrder, a ≠ b → getDemoOutput a ≠ getDemoOutput b) ∧
    (∀ a, a ∉ agentOrder → a ∉ objectPrototypeKeys → getDemoOutput a = .obj []) := by
  refine ⟨?_, ?_, ?_⟩
  · intro a ha resp hf
    refine ⟨_, getDemoOutput a, runAgent_failed a resp rnd st hf, ?_, ?_, rfl, ?_⟩
    · simp [JsObject.get?_set]
    · simp [JsObject.get?_set, demoResult]
    · simp only [agentOrder, List.mem_cons, List.mem_singleton, List.not_mem_nil, or_false] at ha
      rcases ha with rfl | rfl | rfl | rfl <;> rfl
  · intro a ha b hb hne
    simp only [agentOrder, List.mem_cons, List.mem_singleton, List.not_mem_nil, or_false] at ha hb
    rcases ha with rfl | rfl | rfl | rfl
    · rcases hb with rfl | rfl | rfl | rfl <;>
        first
        | exact absurd rfl hne
        | exact getDemoOutput_ne _ _ "entry_exit_points" rfl rfl
    · rcases hb with rfl | rfl | rfl | rfl <;>
        first
        | exact absurd rfl hne
        | exact getDemoOutput_ne _ _ "evidence_analysis" rfl rfl
    · rcases hb with rfl | rfl | rfl | rfl <;>
        first
        | exact absurd rfl hne
        | exact getDemoOutput_ne _ _ "scenarios" rfl rfl
    · rcases hb with rfl | rfl | rfl | rfl <;>
        first
        | exact absurd rfl hne
        | exact getDemoOutput_ne _ _ "challenges" rfl rfl
  · intro a ha hp
    unfold getDemoOutput
    rw [demoOutputs_lookup_other a ha]
    simp only [hp, if_false]

/-! ## Agent workflow: one stage of the pipeline -/

theorem noneRunning_set_running (m : JsObject String) (a : String) (h : NoneRunning m) :
    AtMostOneRunning (m.set a "running") := by
  intro x y hx hy
  rw [JsObject.get?_set] at hx hy
  by_cases hxa : x = a
  · by_cases hya : y = a
    · rw [hxa, hya]
    · rw [if_neg hya] at hy
      exact absurd hy (h y)
  · rw [if_neg hxa] at hx
    exact absurd hx (h x)

theorem noneRunning_set_completed (m : JsObject String) (a : String) (h : NoneRunning m) :
    NoneRunning ((m.set a "running").set a "completed") := by
  intro x hx
  rw [JsObject.get?_set] at hx
  by_cases hxa : x = a
  · rw [if_pos hxa] at hx
    exact absurd hx (by decide)
  · rw [if_neg hxa, JsObject.get?_set, if_neg hxa] at hx
    exact h x hx

theorem noneRunning_atMostOne (m : JsObject String) (h : NoneRunning m) : AtMostOneRunning m :=
  fun x _ hx _ => absurd hx (h x)

theorem noneRunning_init (caseId : String) : NoneRunning (WorkflowState.init caseId).agentStatuses := by
  intro x hx
  have hx' : List.lookup x [("scene_interpreter", "idle"), ("evidence_reasoner", "idle"),
      ("timeline_builder", "idle"), ("hypothesis_challenger", "idle")] = some "running" := hx
  simp only [List.lookup_cons, List.lookup_nil] at hx'
  repeat' split at hx'
  all_goals first | cases hx' | (exact absurd hx' (by decide))

/-- One turn of the loop of `runFullAnalysis`: the call of `runAgent` followed by
the pause. -/
theorem runStage_spec (resps : String → FetchOutcome JsValue) (rnds : String → Rat)
    (st : WorkflowState) (a : String) :
    ∃ st1 st' evs result, runAgent a (resps a) (rnds a) st = .ok st1 ∧
      runStage resps rnds st a = .ok st' ∧
      st'.hypotheses = st1.hypotheses ∧ st'.agentResults = st1.agentResults ∧
      StageRan st a st' evs result := by
  obtain ⟨st1, mid, result, hrun, h1, h2, h3, h4, h5, h6, h7, h8⟩ :=
    runAgent_spec a (resps a) (rnds a) st
  have hnone : ∀ e ∈ mid, Event.mark? e = none ∧ Event.request? e = none := by
    intro e he
    rcases h6 e he with rfl | rfl
    · exact ⟨rfl, rfl⟩
    · exact ⟨by simp [Event.mark?], rfl⟩
  have hm : mid.filterMap Event.mark? = [] :=
    List.filterMap_eq_nil_iff.mpr (fun e he => (hnone e he).1)
  have hr : mid.filterMap Event.request? = [] :=
    List.filterMap_eq_nil_iff.mpr (fun e he => (hnone e he).2)
  refine ⟨st1, st1.logEvent (Event.delay 500),
    Event.status a "running" (st.agentStatuses.set a "running") ::
      Event.request (Request.mk "POST" (agentRunUrl st.caseId a) Body.none) ::
      (mid ++ [Event.resolved a, Event.delay 500]), result, hrun, ?_, rfl, rfl, ?_⟩
  · simp [runStage, hrun]
  · refine ⟨by simp [h1], by simp [h2], by simp [h3], by simp [h4], by simp [h5], ?_, ?_, ?_,
      fun ha => by simp [h8 ha]⟩
    · simp [List.filterMap_cons, List.filterMap_append, hm, Event.mark?]
    · simp [List.filterMap_cons, List.filterMap_append, hr, Event.request?, Event.mark?]
    · intro e he b v m hb
      subst hb
      simp only [List.mem_cons, List.mem_append, List.mem_singleton, List.not_mem_nil,
        or_false] at he
      rcases he with h | h | h | h | h
      · cases h
        exact Or.inl rfl
      · cases h
      · rcases h6 _ h with h' | h'
        · cases h'
        · cases h'
          exact Or.inr rfl
      · cases h
      · cases h

/-! ## Agent workflow: the pipeline -/

/-- What a call of `runAgent` on the timeline builder leaves as hypotheses and as
stored result. -/
theorem runAgent_timeline_outcome (resp : FetchOutcome JsValue) (rnd : Rat)
    (st st' : WorkflowState) (h : runAgent "timeline_builder" resp rnd st = .ok st') :
    ((resp.failed = true ∨ resp = .ok .null) →
      (getDemoOutput "timeline_builder").get? "scenarios" = some st'.hypotheses ∧
      st'.agentResults.get? "timeline_builder" = some (demoResult "timeline_builder" rnd)) ∧
    (∀ r, resp = .ok r → r ≠ .null →
      st'.agentResults.get? "timeline_builder" = some r ∧
      (∀ sc, scenariosOf r = some sc → sc.truthy = true → st'.hypotheses = sc) ∧
      (scenariosOf r = none → st'.hypotheses = st.hypotheses) ∧
      (∀ sc, scenariosOf r = some sc → sc.truthy = false → st'.hypotheses = st.hypotheses)) := by
  constructor
  · intro hcase
    have hst' : ∃ s, st' = (runAgentCatch "timeline_builder" rnd s).logEvent
        (Event.resolved "timeline_builder") := by
      rcases hcase with hf | rfl
      · rw [runAgent_failed _ _ _ _ hf] at h
        cases h
        exact ⟨_, rfl⟩
      · rw [runAgent_ok_null] at h
        cases h
        exact ⟨_, rfl⟩
    obtain ⟨s, rfl⟩ := hst'
    refine ⟨?_, ?_⟩
    · simp only [logEvent_hypotheses]
      exact (runAgentCatch_hypotheses_timeline rnd s).symm
    · simp [JsObject.get?_set]
  · intro r hr hnull
    subst hr
    rw [runAgent_ok_timeline r rnd st hnull] at h
    cases h
    refine ⟨by simp [JsObject.get?_set], ?_, ?_, ?_⟩
    · intro sc hsc htr
      simp [hsc, htr]
    · intro hsc
      simp [hsc]
    · intro sc hsc htr
      simp [hsc, htr]

/-- The four turns of the loop of `runFullAnalysis`, one after the other. -/
theorem runFullAnalysis_stages (resps : String → FetchOutcome JsValue) (rnds : String → Rat)
    (st : WorkflowState) :
    ∃ s1 s2 s3 s4 t3 e1 e2 e3 e4 r1 r2 r3 r4,
      StageRan { st with isRunningAll := true } "scene_interpreter" s1 e1 r1 ∧
      StageRan s1 "evidence_reasoner" s2 e2 r2 ∧
      StageRan s2 "timeline_builder" s3 e3 r3 ∧
      StageRan s3 "hypothesis_challenger" s4 e4 r4 ∧
      runAgent "timeline_builder" (resps "timeline_builder") (rnds "timeline_builder") s2
        = .ok t3 ∧
      s3.hypotheses = t3.hypotheses ∧ s3.agentResults = t3.agentResults ∧
      runFullAnalysis resps rnds st = .ok { s4 with isRunningAll := false } := by
  obtain ⟨-, s1, e1, r1, -, h1, -, -, hs1⟩ :=
    runStage_spec resps rnds { st with isRunningAll := true } "scene_interpreter"
  obtain ⟨-, s2, e2, r2, -, h2, -, -, hs2⟩ := runStage_spec resps rnds s1 "evidence_reasoner"
  obtain ⟨t3, s3, e3, r3, ht3, h3, hh3, hr3, hs3⟩ :=
    runStage_spec resps rnds s2 "timeline_builder"
  obtain ⟨-, s4, e4, r4, -, h4, -, -, hs4⟩ :=
    runStage_spec resps rnds s3 "hypothesis_challenger"
  refine ⟨s1, s2, s3, s4, t3, e1, e2, e3, e4, r1, r2, r3, r4, hs1, hs2, hs3, hs4, ht3, hh3, hr3,
    ?_⟩
  simp only [runFullAnalysis, agentOrder, List.foldlM_cons, List.foldlM_nil, h1, h2, h3, h4,
    bind, Except.bind, pure, Except.pure]

theorem stageRan_noneRunning {st st' : WorkflowState} {a : String} {evs : List Event}
    {r : JsValue} (h : StageRan st a st' evs r) (hn : NoneRunning st.agentStatuses) :
    NoneRunning st'.agentStatuses ∧
      ∀ e ∈ evs, ∀ b v m, e = Event.status b v m → AtMostOneRunning m := by
  refine ⟨?_, ?_⟩
  · rw [h.statuses_eq]
    exact noneRunning_set_completed _ _ hn
  · intro e he b v m hb
    rcases h.status_events e he b v m hb with rfl | rfl
    · exact noneRunning_set_running _ _ hn
    · exact noneRunning_atMostOne _ (noneRunning_set_completed _ _ hn)

/-- The stages that a stage of the pipeline shows as running, beside itself, are
stages that were running before it: `R` holds of every stage that runs at the start
of the stage, hence of every stage that runs at its end, and in every status map in
between two different running stages include one of which `R` holds. -/
theorem stageRan_running_from {st st' : WorkflowState} {a : String} {evs : List Event}
    {r : JsValue} (h : StageRan st a st' evs r) (R : String → Prop)
    (hR : ∀ x, st.agentStatuses.get? x = some "running" → R x) :
    (∀ x, st'.agentStatuses.get? x = some "running" → R x) ∧
      ∀ e ∈ evs, ∀ b v m, e = Event.status b v m →
        ∀ x y, m.get? x = some "running" → m.get? y = some "running" → x = y ∨ R x ∨ R y := by
  have hdone : ∀ x, ((st.agentStatuses.set a "running").set a "completed").get? x
      = some "running" → R x := by
    intro x hx
    rw [JsObject.get?_set] at hx
    by_cases hxa : x = a
    · rw [if_pos hxa] at hx
      exact absurd hx (by decide)
    · rw [if_neg hxa, JsObject.get?_set, if_neg hxa] at hx
      exact hR x hx
  refine ⟨?_, ?_⟩
  · rw [h.statuses_eq]
    exact hdone
  · intro e he b v m hb x y hx hy
    rcases h.status_events e he b v m hb with rfl | rfl
    · rw [JsObject.get?_set] at hx hy
      by_cases hxa : x = a
      · by_cases hya : y = a
        · left
          rw [hxa, hya]
        · rw [if_neg hya] at hy
          exact Or.inr (Or.inr (hR y hy))
      · rw [if_neg hxa] at hx
        exact Or.inr (Or.inl (hR x hx))
    · exact Or.inr (Or.inl (hdone x hx))

/-- Between two handler calls no stage is running. -/
theorem reachable_noneRunning (caseId : String) (st : WorkflowState)
    (h : WorkflowReachable caseId st) : NoneRunning st.agentStatuses := by
  induction h with
  | init => exact noneRunning_init caseId
  | runAgent a resp rnd _ hrun ih =>
    obtain ⟨st2, -, -, hrun2, -, -, hst, -⟩ := runAgent_spec a resp rnd _
    rw [hrun] at hrun2
    cases hrun2
    rw [hst]
    exact noneRunning_set_completed _ _ ih
  | runFullAnalysis resps rnds _ hrun ih =>
    obtain ⟨s1, s2, s3, s4, t3, e1, e2, e3, e4, r1, r2, r3, r4, h1, h2, h3, h4, -, -, -, hfull⟩ :=
      runFullAnalysis_stages resps rnds _
    rw [hrun] at hfull
    cases hfull
    have n1 := (stageRan_noneRunning h1 ih).1
    have n2 := (stageRan_noneRunning h2 n1).1
    have n3 := (stageRan_noneRunning h3 n2).1
    exact (stageRan_noneRunning h4 n3).1

/-- C18, counterexample: the user starts the evidence reasoner from its own button
and, while its request is still awaited, starts the pipeline (its button is disabled
only while the pipeline itself runs). The first thing the pipeline does is set the
scene interpreter to running: the status map then shows two stages running at once. -/
theorem runFullAnalysis_beside_running_stage :
    ∃ st' m rest,
      runFullAnalysis (fun _ => .rejected) (fun _ => 0)
        (runAgentStart "evidence_reasoner" (WorkflowState.init "1")) = .ok st' ∧
      st'.log = (runAgentStart "evidence_reasoner" (WorkflowState.init "1")).log ++
        Event.status "scene_interpreter" "running" m :: rest ∧
      m.get? "scene_interpreter" = some "running" ∧
      m.get? "evidence_reasoner" = some "running" ∧
      ¬ AtMostOneRunning m := by
  refine ⟨_, _, _, rfl, rfl, rfl, rfl, ?_⟩
  intro h
  exact absurd (h "scene_interpreter" "evidence_reasoner" rfl rfl) (by decide)

/-- C18, amended: `runFullAnalysis` returns normally and runs the four stages once
each, in the order scene_interpreter, evidence_reasoner, timeline_builder,
hypothesis_challenger, one after the other: in the events it appends to the log, the
marks "set to running" and "run resolved" alternate stage by stage in that order, and
exactly one request per stage is issued, in that order. In every status map that the
pipeline produces, two different stages are running only if one of them was already
running when the pipeline started. So when no stage is running at the start, which
is so in every state between two handler calls, every status map that the pipeline
produces has at most one running stage. (The pipeline is followed from its start to
its end with no other handler running in between.) -/
theorem runFullAnalysis_sequential (resps : String → FetchOutcome JsValue)
    (rnds : String → Rat) (st : WorkflowState) :
    ∃ st' evs, runFullAnalysis resps rnds st = .ok st' ∧ st'.log = st.log ++ evs ∧
      evs.filterMap Event.mark? =
        [StageMark.started "scene_interpreter", StageMark.resolved "scene_interpreter",
         StageMark.started "evidence_reasoner", StageMark.resolved "evidence_reasoner",
         StageMark.started "timeline_builder", StageMark.resolved "timeline_builder",
         StageMark.started "hypothesis_challenger", StageMark.resolved "hypothesis_challenger"] ∧
      evs.filterMap Event.request? =
        agentOrder.map (fun a => Request.mk "POST" (agentRunUrl st.caseId a) Body.none) ∧
      (∀ e ∈ evs, ∀ b v m, e = Event.status b v m →
        ∀ x y, m.get? x = some "running" → m.get? y = some "running" →
          x = y ∨ st.agentStatuses.get? x = some "running" ∨
            st.agentStatuses.get? y = some "running") ∧
      (NoneRunning st.agentStatuses →
        ∀ e ∈ evs, ∀ b v m, e = Event.status b v m → AtMostOneRunning m) ∧
      (∀ caseId, WorkflowReachable caseId st →
        ∀ e ∈ evs, ∀ b v m, e = Event.status b v m → AtMostOneRunning m) := by
  obtain ⟨s1, s2, s3, s4, t3, e1, e2, e3, e4, r1, r2, r3, r4, h1, h2, h3, h4, -, -, -, hfull⟩ :=
    runFullAnalysis_stages resps rnds st
  have hfrom : ∀ e ∈ e1 ++ (e2 ++ (e3 ++ e4)), ∀ b v m, e = Event.status b v m →
      ∀ x y, m.get? x = some "running" → m.get? y = some "running" →
        x = y ∨ st.agentStatuses.get? x = some "running" ∨
          st.agentStatuses.get? y = some "running" := by
    intro e he b v m hb
    have n1 := stageRan_running_from h1 (fun x => st.agentStatuses.get? x = some "running")
      (fun x hx => hx)
    have n2 := stageRan_running_from h2 _ n1.1
    have n3 := stageRan_running_from h3 _ n2.1
    have n4 := stageRan_running_from h4 _ n3.1
    simp only [List.mem_append] at he
    rcases he with he | he | he | he
    · exact n1.2 e he b v m hb
    · exact n2.2 e he b v m hb
    · exact n3.2 e he b v m hb
    · exact n4.2 e he b v m hb
  have hone : NoneRunning st.agentStatuses →
      ∀ e ∈ e1 ++ (e2 ++ (e3 ++ e4)), ∀ b v m, e = Event.status b v m → AtMostOneRunning m := by
    intro hn e he b v m hb x y hx hy
    rcases hfrom e he b v m hb x y hx hy with h | h | h
    · exact h
    · exact absurd h (hn x)
    · exact absurd h (hn y)
  refine ⟨_, e1 ++ (e2 ++ (e3 ++ e4)), hfull, ?_, ?_, ?_, hfrom, hone, ?_⟩
  · show s4.log = _
    rw [h4.log_eq, h3.log_eq, h2.log_eq, h1.log_eq]
    simp
  · simp only [List.filterMap_append, h1.marks_eq, h2.marks_eq, h3.marks_eq, h4.marks_eq]
    rfl
  · simp only [List.filterMap_append, h1.requests_eq, h2.requests_eq, h3.requests_eq,
      h4.requests_eq, h1.caseId_eq, h2.caseId_eq, h3.caseId_eq]
    rfl
  · intro caseId hreach
    exact hone (reachable_noneRunning caseId st hreach)

/-- C19, counterexample: every request succeeds and the backend returns for each
stage a completed result whose output has an empty scenario list; the pipeline ends
with four results, but the Hypothesis set is empty. -/
theorem runFullAnalysis_empty_hypotheses :
    ∃ st', runFullAnalysis
        (fun _ => .ok (.obj [("status", .str "completed"),
          ("output", .obj [("scenarios", .arr [])])]))
        (fun _ => 0) (WorkflowState.init "1") = .ok st' ∧
      st'.agentResults.keys = agentOrder ∧ st'.hypotheses = .arr [] := by
  exact ⟨_, rfl, rfl, rfl⟩

/-! ## Agent workflow: results and hypotheses -/

/-- C19, amended: for every behaviour of the collaborator, `runFullAnalysis` from the
initial state returns normally; the results map then holds exactly four results, one
per stage, and all four stages are completed. When the request of the timeline
builder fails (or its result is `null`), the Hypothesis set is the two-scenario list
of the synthesized result stored for that stage. When that request succeeds, the
Hypothesis set is the scenario list of the stored result if that list is present
(and truthy), empty or not, and it is still the initial empty list otherwise. -/
theorem runFullAnalysis_from_init (resps : String → FetchOutcome JsValue)
    (rnds : String → Rat) (caseId : String) :
    ∃ st', runFullAnalysis resps rnds (WorkflowState.init caseId) = .ok st' ∧
      st'.agentResults.keys = agentOrder ∧
      (∀ a ∈ agentOrder, st'.agentStatuses.get? a = some "completed") ∧
      (((resps "timeline_builder").failed = true ∨ resps "timeline_builder" = .ok .null) →
        (∃ x y, st'.hypotheses = .arr [x, y]) ∧
        ∃ res, st'.agentResults.get? "timeline_builder" = some res ∧
          res = demoResult "timeline_builder" (rnds "timeline_builder") ∧
          scenariosOf res = some st'.hypotheses) ∧
      (∀ r, resps "timeline_builder" = .ok r → r ≠ .null →
        st'.agentResults.get? "timeline_builder" = some r ∧
        (∀ sc, scenariosOf r = some sc → sc.truthy = true → st'.hypotheses = sc) ∧
        (scenariosOf r = none → st'.hypotheses = .arr []) ∧
        (∀ sc, scenariosOf r = some sc → sc.truthy = false → st'.hypotheses = .arr [])) := by
  obtain ⟨s1, s2, s3, s4, t3, e1, e2, e3, e4, r1, r2, r3, r4, h1, h2, h3, h4, ht3, hh3, hr3,
    hfull⟩ := runFullAnalysis_stages resps rnds (WorkflowState.init caseId)
  obtain ⟨hfb, hok⟩ := runAgent_timeline_outcome _ _ _ _ ht3
  have hhyp4 : s4.hypotheses = t3.hypotheses := by
    rw [h4.hypotheses_eq (by decide), hh3]
  have hhyp2 : s2.hypotheses = .arr [] := by
    rw [h2.hypotheses_eq (by decide), h1.hypotheses_eq (by decide)]
    rfl
  have hres4 : s4.agentResults.get? "timeline_builder" = t3.agentResults.get? "timeline_builder" := by
    rw [h4.results_eq, JsObject.get?_set, if_neg (by decide), hr3]
  refine ⟨_, hfull, ?_, ?_, ?_, ?_⟩
  · show s4.agentResults.keys = agentOrder
    rw [h4.results_eq, h3.results_eq, h2.results_eq, h1.results_eq]
    have h0 : (WorkflowState.init caseId).agentResults.keys = [] := rfl
    simp only [JsObject.keys_set, h0]
    simp [agentOrder]
  · intro a ha
    show s4.agentStatuses.get? a = some "completed"
    rw [h4.statuses_eq, h3.statuses_eq, h2.statuses_eq, h1.statuses_eq]
    simp only [agentOrder, List.mem_cons, List.mem_singleton, List.not_mem_nil, or_false] at ha
    rcases ha with rfl | rfl | rfl | rfl <;> simp [JsObject.get?_set]
  · intro hcase
    obtain ⟨hsc, hres⟩ := hfb hcase
    show (∃ x y, s4.hypotheses = .arr [x, y]) ∧
      ∃ res, s4.agentResults.get? "timeline_builder" = some res ∧ _
    rw [hhyp4, hres4]
    refine ⟨?_, _, hres, rfl, ?_⟩
    · obtain ⟨x, y, hxy⟩ := getDemoOutput_scenarios
      rw [hxy] at hsc
      exact ⟨x, y, (Option.some.inj hsc).symm⟩
    · rw [← hsc]
      rfl
  · intro r hr hnull
    obtain ⟨hres, htrue, hnone, hfalse⟩ := hok r hr hnull
    show s4.agentResults.get? "timeline_builder" = some r ∧
      (∀ sc, scenariosOf r = some sc → sc.truthy = true → s4.hypotheses = sc) ∧
      (scenariosOf r = none → s4.hypotheses = .arr []) ∧
      (∀ sc, scenariosOf r = some sc → sc.truthy = false → s4.hypotheses = .arr [])
    rw [hhyp4, hres4]
    refine ⟨hres, htrue, ?_, ?_⟩
    · intro h
      rw [hnone h, hhyp2]
    · intro sc h ht
      rw [hfalse sc h ht, hhyp2]

/-- C20, counterexample: the Hypothesis set holds the two demo scenarios; the
timeline builder is run again and completes with a backend result whose output
carries no scenarios. The Hypothesis set is not replaced: it still holds the two
scenarios. -/
theorem timeline_without_scenarios_keeps_prior :
    ∃ st1 st2 x y,
      runAgent "timeline_builder" .rejected 0 (WorkflowState.init "1") = .ok st1 ∧
      st1.hypotheses = .arr [x, y] ∧
      runAgent "timeline_builder"
        (.ok (.obj [("status", .str "completed"), ("output", .obj [])])) 0 st1 = .ok st2 ∧
      st2.agentStatuses.get? "timeline_builder" = some "completed" ∧
      scenariosOf (.obj [("status", .str "completed"), ("output", .obj [])]) = none ∧
      st2.hypotheses = .arr [x, y] := by
  exact ⟨_, _, _, _, rfl, rfl, rfl, rfl, rfl, rfl⟩

/-- C20, amended: a call of `runAgent` on the timeline builder returns normally with
the stage completed. When it completes with the synthesized result (the request
failed, or the result was `null`), the Hypothesis set becomes the scenario list of
the demo output, whatever it was before. When it completes with a backend result
whose output has a scenario list (a truthy `scenarios` value, the empty list
included), the Hypothesis set becomes exactly that list, whatever it was before.
When the backend result has no scenario list, the Hypothesis set is left as it was. -/
theorem runAgent_timeline_hypotheses (resp : FetchOutcome JsValue) (rnd : Rat)
    (st : WorkflowState) :
    ∃ st', runAgent "timeline_builder" resp rnd st = .ok st' ∧
      st'.agentStatuses.get? "timeline_builder" = some "completed" ∧
      (((resp.failed = true ∨ resp = .ok .null) →
        (getDemoOutput "timeline_builder").get? "scenarios" = some st'.hypotheses)) ∧
      (∀ r, resp = .ok r → r ≠ .null →
        (∀ sc, scenariosOf r = some sc → sc.truthy = true → st'.hypotheses = sc) ∧
        (scenariosOf r = some (.arr []) → st'.hypotheses = .arr []) ∧
        (scenariosOf r = none → st'.hypotheses = st.hypotheses) ∧
        (∀ sc, scenariosOf r = some sc → sc.truthy = false → st'.hypotheses = st.hypotheses)) := by
  obtain ⟨st', -, -, hrun, -, -, hst, -⟩ := runAgent_spec "timeline_builder" resp rnd st
  obtain ⟨hfb, hok⟩ := runAgent_timeline_outcome resp rnd st st' hrun
  refine ⟨st', hrun, ?_, fun h => (hfb h).1, ?_⟩
  · rw [hst, JsObject.get?_set, if_pos rfl]
  · intro r hr hnull
    obtain ⟨-, htrue, hnone, hfalse⟩ := hok r hr hnull
    exact ⟨htrue, fun h => htrue _ h rfl, hnone, hfalse⟩

/-! ## Agent workflow: what runAgent leaves alone -/

/-- The result that a call of `runAgent` stores for its stage. -/
theorem runAgent_stored (a : String) (resp : FetchOutcome JsValue) (rnd : Rat)
    (st st' : WorkflowState) (h : runAgent a resp rnd st = .ok st') :
    ((resp.failed = true ∨ (resp = .ok .null ∧ a = "timeline_builder")) →
      st'.agentResults = st.agentResults.set a (demoResult a rnd)) ∧
    (∀ r, resp = .ok r → (a ≠ "timeline_builder" ∨ r ≠ .null) →
      st'.agentResults = st.agentResults.set a r) := by
  constructor
  · rintro (hf | ⟨rfl, rfl⟩)
    · rw [runAgent_failed a resp rnd st hf] at h
      cases h
      simp
    · rw [runAgent_ok_null] at h
      cases h
      simp [JsObject.set_set]
  · rintro r rfl hcase
    by_cases ha : a = "timeline_builder"
    · subst ha
      have hr : r ≠ .null := by
        rcases hcase with h1 | h1
        · exact absurd rfl h1
        · exact h1
      rw [runAgent_ok_timeline r rnd st hr] at h
      cases h
      simp
    · rw [runAgent_ok_other a r rnd st ha] at h
      cases h
      simp

/-- C21: `runAgent(a)` touches only stage `a`. For every state and agent id, the
call returns normally; the status and the stored result of every other stage are
what they were; the results map is the old one with the entry for `a` set to the
new result (the synthesized one when the request failed, the backend's otherwise),
so that a map with one entry per stage keeps one entry per stage and an existing
entry for `a` is overwritten in place; and the Hypothesis set is unchanged unless
`a` is `timeline_builder`. -/
theorem runAgent_touches_only_its_stage (a : String) (resp : FetchOutcome JsValue) (rnd : Rat)
    (st : WorkflowState) :
    ∃ st' result, runAgent a resp rnd st = .ok st' ∧
      (∀ b, b ≠ a →
        st'.agentStatuses.get? b = st.agentStatuses.get? b ∧
        st'.agentResults.get? b = st.agentResults.get? b) ∧
      st'.agentResults = st.agentResults.set a result ∧
      st'.agentResults.get? a = some result ∧
      (resp.failed = true → result = demoResult a rnd) ∧
      (∀ r, resp = .ok r → (a ≠ "timeline_builder" ∨ r ≠ .null) → result = r) ∧
      (st.agentResults.keys.Nodup → st'.agentResults.keys.Nodup) ∧
      (a ∈ st.agentResults.keys → st'.agentResults.keys = st.agentResults.keys) ∧
      (a ≠ "timeline_builder" → st'.hypotheses = st.hypotheses) := by
  obtain ⟨st', -, result, hrun, -, -, hst, hres, -, -, -, hhyp⟩ := runAgent_spec a resp rnd st
  obtain ⟨hdemo, hback⟩ := runAgent_stored a resp rnd st st' hrun
  have hget : st'.agentResults.get? a = some result := by
    rw [hres, JsObject.get?_set, if_pos rfl]
  refine ⟨st', result, hrun, ?_, hres, hget, ?_, ?_, ?_, ?_, hhyp⟩
  · intro b hb
    constructor
    · rw [hst, JsObject.get?_set, if_neg hb, JsObject.get?_set, if_neg hb]
    · rw [hres, JsObject.get?_set, if_neg hb]
  · intro hf
    have h2 := hget
    rw [hdemo (Or.inl hf), JsObject.get?_set, if_pos rfl] at h2
    exact (Option.some.inj h2).symm
  · intro r hr hcase
    have h2 := hget
    rw [hback r hr hcase, JsObject.get?_set, if_pos rfl] at h2
    exact (Option.some.inj h2).symm
  · intro hnd
    rw [hres, JsObject.keys_set]
    split
    · exact hnd
    · next hmem =>
      exact List.nodup_append.mpr ⟨hnd, List.nodup_singleton a, by
        intro x hx hx'
        rw [List.mem_singleton] at hx'
        subst hx'
        exact hmem hx⟩
  · intro hmem
    rw [hres, JsObject.keys_set, if_pos hmem]

/-! ## Agent workflow: the error state is never reached -/

theorem statusesValid_set (m : JsObject String) (a v : String) (h : StatusesValid m)
    (hv : v = "running" ∨ v = "completed") : StatusesValid (m.set a v) := by
  intro b hb
  rw [JsObject.get?_set]
  by_cases hba : b = a
  · rw [if_pos hba]
    rcases hv with rfl | rfl
    · exact Or.inr (Or.inl rfl)
    · exact Or.inr (Or.inr rfl)
  · rw [if_neg hba]
    exact h b hb

theorem noErrorStatus_set (m : JsObject String) (a v : String) (h : NoErrorStatus m)
    (hv : v = "running" ∨ v = "completed") : NoErrorStatus (m.set a v) := by
  intro x hx
  rw [JsObject.get?_set] at hx
  by_cases hxa : x = a
  · rw [if_pos hxa] at hx
    rcases hv with rfl | rfl
    · exact absurd hx (by decide)
    · exact absurd hx (by decide)
  · rw [if_neg hxa] at hx
    exact h x hx

theorem statuses_init (caseId : String) :
    StatusesValid (WorkflowState.init caseId).agentStatuses ∧
      NoErrorStatus (WorkflowState.init caseId).agentStatuses := by
  constructor
  · intro a ha
    simp only [agentOrder, List.mem_cons, List.mem_singleton, List.not_mem_nil, or_false] at ha
    rcases ha with rfl | rfl | rfl | rfl <;> exact Or.inl rfl
  · intro x hx
    have hx' : List.lookup x [("scene_interpreter", "idle"), ("evidence_reasoner", "idle"),
        ("timeline_builder", "idle"), ("hypothesis_challenger", "idle")] = some "error" := hx
    simp only [List.lookup_cons, List.lookup_nil] at hx'
    repeat' split at hx'
    all_goals first | cases hx' | (exact absurd hx' (by decide))

theorem stageRan_statuses {st st' : WorkflowState} {a : String} {evs : List Event}
    {r : JsValue} (h : StageRan st a st' evs r)
    (hv : StatusesValid st.agentStatuses ∧ NoErrorStatus st.agentStatuses) :
    (StatusesValid st'.agentStatuses ∧ NoErrorStatus st'.agentStatuses) ∧
      ∀ e ∈ evs, ∀ b v m, e = Event.status b v m → StatusesValid m ∧ NoErrorStatus m := by
  have h1 : StatusesValid (st.agentStatuses.set a "running") ∧
      NoErrorStatus (st.agentStatuses.set a "running") :=
    ⟨statusesValid_set _ _ _ hv.1 (Or.inl rfl), noErrorStatus_set _ _ _ hv.2 (Or.inl rfl)⟩
  have h2 : StatusesValid ((st.agentStatuses.set a "running").set a "completed") ∧
      NoErrorStatus ((st.agentStatuses.set a "running").set a "completed") :=
    ⟨statusesValid_set _ _ _ h1.1 (Or.inr rfl), noErrorStatus_set _ _ _ h1.2 (Or.inr rfl)⟩
  refine ⟨?_, ?_⟩
  · rw [h.statuses_eq]
    exact h2
  · intro e he b v m hb
    rcases h.status_events e he b v m hb with rfl | rfl
    · exact h1
    · exact h2

/-- C29: for every sequence of `runAgent` and `runFullAnalysis` calls and every
behaviour of the collaborator, no status is ever `error`: in every state reached,
and in every status map that a `setAgentStatuses` call has produced on the way
(they are all in the log), each of the four stages is idle, running or completed and
no entry of the map is `error`. -/
theorem reachable_never_error (caseId : String) (st : WorkflowState)
    (h : WorkflowReachable caseId st) :
    (StatusesValid st.agentStatuses ∧ NoErrorStatus st.agentStatuses) ∧
      ∀ e ∈ st.log, ∀ b v m, e = Event.status b v m → StatusesValid m ∧ NoErrorStatus m := by
  induction h with
  | init =>
    refine ⟨statuses_init caseId, ?_⟩
    intro e he
    cases he
  | @runAgent st0 st1 a resp rnd _ hrun ih =>
    obtain ⟨st2, mid, -, hrun2, -, -, hst, -, hlog, hmid, -, -⟩ := runAgent_spec a resp rnd st0
    rw [hrun] at hrun2
    cases hrun2
    have h1 : StatusesValid (st0.agentStatuses.set a "running") ∧
        NoErrorStatus (st0.agentStatuses.set a "running") :=
      ⟨statusesValid_set _ _ _ ih.1.1 (Or.inl rfl), noErrorStatus_set _ _ _ ih.1.2 (Or.inl rfl)⟩
    have h2 : StatusesValid ((st0.agentStatuses.set a "running").set a "completed") ∧
        NoErrorStatus ((st0.agentStatuses.set a "running").set a "completed") :=
      ⟨statusesValid_set _ _ _ h1.1 (Or.inr rfl), noErrorStatus_set _ _ _ h1.2 (Or.inr rfl)⟩
    refine ⟨by rw [hst]; exact h2, ?_⟩
    intro e he b v m hb
    subst hb
    rw [hlog] at he
    simp only [List.mem_append, List.mem_cons, List.mem_singleton, List.not_mem_nil,
      or_false] at he
    rcases he with he | he | he | he | he
    · exact ih.2 _ he b v m rfl
    · cases he
      exact h1
    · cases he
    · rcases hmid _ he with h' | h'
      · cases h'
      · cases h'
        exact h2
    · cases he
  | @runFullAnalysis st0 st1 resps rnds _ hrun ih =>
    obtain ⟨s1, s2, s3, s4, t3, e1, e2, e3, e4, r1, r2, r3, r4, g1, g2, g3, g4, -, -, -, hfull⟩ :=
      runFullAnalysis_stages resps rnds st0
    rw [hrun] at hfull
    cases hfull
    have n1 := stageRan_statuses g1 ih.1
    have n2 := stageRan_statuses g2 n1.1
    have n3 := stageRan_statuses g3 n2.1
    have n4 := stageRan_statuses g4 n3.1
    refine ⟨n4.1, ?_⟩
    intro e he b v m hb
    have hlog : s4.log = st0.log ++ (e1 ++ (e2 ++ (e3 ++ e4))) := by
      rw [g4.log_eq, g3.log_eq, g2.log_eq, g1.log_eq]
      simp
    have he' : e ∈ st0.log ++ (e1 ++ (e2 ++ (e3 ++ e4))) := hlog ▸ he
    simp only [List.mem_append] at he'
    rcases he' with he' | he' | he' | he' | he'
    · exact ih.2 e he' b v m hb
    · exact n1.2 e he' b v m hb
    · exact n2.2 e he' b v m hb
    · exact n3.2 e he' b v m hb
    · exact n4.2 e he' b v m hb

/-- Witness of C29: the state after `runAgent` on the scene interpreter, the backend
having answered with a non-success response. -/
theorem reachable_never_error_witness :
    WorkflowReachable "1"
        ((runAgentCatch "scene_interpreter" 0
          (runAgentStart "scene_interpreter" (WorkflowState.init "1"))).logEvent
            (Event.resolved "scene_interpreter")) ∧
      (StatusesValid ((runAgentCatch "scene_interpreter" 0
          (runAgentStart "scene_interpreter" (WorkflowState.init "1"))).logEvent
            (Event.resolved "scene_interpreter")).agentStatuses ∧
        NoErrorStatus ((runAgentCatch "scene_interpreter" 0
          (runAgentStart "scene_interpreter" (WorkflowState.init "1"))).logEvent
            (Event.resolved "scene_interpreter")).agentStatuses) ∧
      ∀ e ∈ ((runAgentCatch "scene_interpreter" 0
          (runAgentStart "scene_interpreter" (WorkflowState.init "1"))).logEvent
            (Event.resolved "scene_interpreter")).log,
        ∀ b v m, e = Event.status b v m → StatusesValid m ∧ NoErrorStatus m :=
  ⟨WorkflowReachable.runAgent "scene_interpreter" .notOk 0 .init
      (runAgent_failed "scene_interpreter" .notOk 0 _ rfl),
    reachable_never_error "1" _
      (WorkflowReachable.runAgent "scene_interpreter" .notOk 0 .init
        (runAgent_failed "scene_interpreter" .notOk 0 _ rfl))⟩

/-! ## Evidence collection: ids under placements only -/

theorem digitChar_value : ∀ k, k < 10 → (Nat.digitChar k).toNat - 48 = k := by
  decide

theorem digitsValue_cons (acc : Nat) (c : Char) (ds : List Char) :
    digitsValue acc (c :: ds) = digitsValue (acc * 10 + (c.toNat - 48)) ds :=
  rfl

theorem toDigitsCore_value (fuel : Nat) :
    ∀ (n : Nat) (ds : List Char), n < fuel →
      digitsValue 0 (Nat.toDigitsCore 10 fuel n ds) = digitsValue n ds := by
  induction fuel with
  | zero => intro n ds h; omega
  | succ fuel ih =>
    intro n ds h
    have hd : (Nat.digitChar (n % 10)).toNat - 48 = n % 10 :=
      digitChar_value _ (Nat.mod_lt _ (by decide))
    simp only [Nat.toDigitsCore]
    split
    · next h0 =>
      rw [digitsValue_cons, hd]
      have : n % 10 = n := by omega
      rw [Nat.zero_mul, Nat.zero_add, this]
    · next h0 =>
      rw [ih (n / 10) _ (by omega), digitsValue_cons, hd]
      have : n / 10 * 10 + n % 10 = n := by omega
      rw [this]

theorem digitsValue_zeros (k : Nat) (l : List Char) :
    digitsValue 0 (List.replicate k '0' ++ l) = digitsValue 0 l := by
  induction k with
  | zero => rfl
  | succ k ih =>
    rw [List.replicate_succ, List.cons_append, digitsValue_cons]
    exact ih

theorem zeroPadded_value (width n : Nat) : digitsValue 0 (zeroPadded width n).data = n := by
  unfold zeroPadded
  rw [digitsValue_zeros]
  exact toDigitsCore_value (n + 1) n [] (Nat.lt_succ_self n)

theorem zeroPadded_injective (width : Nat) : Function.Injective (zeroPadded width) := by
  intro a b h
  have := congrArg (fun s => digitsValue 0 s.data) h
  simpa [zeroPadded_value] using this

theorem evidenceId_injective :
    Function.Injective (fun i : Nat => "E-" ++ zeroPadded 3 (0 + i + 1)) := by
  intro a b h
  have h1 : ("E-" ++ zeroPadded 3 (0 + a + 1)).data = ("E-" ++ zeroPadded 3 (0 + b + 1)).data :=
    congrArg String.data h
  rw [String.data_append, String.data_append] at h1
  have h2 := zeroPadded_injective 3 (String.ext (List.append_cancel_left h1))
  omega

theorem sequentialIds_nodup (n : Nat) : (sequentialIds 0 n).Nodup :=
  (List.nodup_range n).map evidenceId_injective

theorem sequentialIds_succ (n : Nat) :
    sequentialIds 0 (n + 1) = sequentialIds 0 n ++ ["E-" ++ zeroPadded 3 (n + 1)] := by
  simp [sequentialIds, List.range_succ]

/-- Fallback placements keep the evidence ids of the list equal to `E-001`, `E-002`,
and so on, up to the length of the list, when the starting list is of that form. -/
theorem fallbackPlaced_ids (start : List EvidenceMarker) (st : SceneState)
    (h : FallbackPlaced start st)
    (hstart : start.map (fun e => e.evidence_id) = sequentialIds 0 start.length) :
    st.evidence.map (fun e => e.evidence_id) = sequentialIds 0 st.evidence.length := by
  induction h with
  | start st0 h0 => rw [h0]; exact hstart
  | toggle _ ih => exact ih
  | selectType key _ ih => exact ih
  | @place st0 st1 point resp now _ hf hrun ih =>
    cases hmode : st0.isAddingMode
    · rw [handleSceneClick_idle point resp now st0 hmode] at hrun
      cases hrun
      exact ih
    · rw [handleSceneClick_failed point resp now st0 hmode hf] at hrun
      cases hrun
      simp only [List.map_append, List.map_cons, List.map_nil, List.length_append,
        List.length_singleton, sequentialIds_succ, ih]
      simp only [newEvidence, padStart_zero]

/-- Lists of every length are reached by fallback placements from the empty list. -/
theorem fallbackPlaced_any_length (caseId : String) (n : Nat) :
    ∃ st, FallbackPlaced [] st ∧ st.evidence.length = n ∧ st.isAddingMode = false := by
  induction n with
  | zero => exact ⟨SceneState.init caseId, FallbackPlaced.start _ rfl, rfl, rfl⟩
  | succ n ih =>
    obtain ⟨st, hst, hlen, hmode⟩ := ih
    have hm : (toggleAddingMode st).isAddingMode = true := by
      simp [toggleAddingMode, hmode]
    refine ⟨_, FallbackPlaced.place ⟨0, 0, 0⟩ .rejected 0 (FallbackPlaced.toggle hst) rfl
      (handleSceneClick_failed ⟨0, 0, 0⟩ .rejected 0 _ hm rfl), ?_, rfl⟩
    simp [toggleAddingMode, hlen]

/-- C30: starting from the empty evidence list or from the three-marker demo list,
every sequence of fallback placements (with any use of the Add / Cancel and type
buttons in between, and no removal) keeps the evidence ids of the list pairwise
distinct, whatever the length of the list: the ids are `E-001`, `E-002`, and so on
in order, the numeral growing beyond three digits after 999 markers. -/
theorem fallback_placements_distinct_ids (start : List EvidenceMarker) (st : SceneState)
    (hstart : start = [] ∨ start = demoEvidence) (h : FallbackPlaced start st) :
    (st.evidence.map (fun e => e.evidence_id)).Nodup ∧
      st.evidence.map (fun e => e.evidence_id) = sequentialIds 0 st.evidence.length := by
  have hs : start.map (fun e => e.evidence_id) = sequentialIds 0 start.length := by
    rcases hstart with rfl | rfl
    · rfl
    · decide
  have hids := fallbackPlaced_ids start st h hs
  exact ⟨hids ▸ sequentialIds_nodup _, hids⟩

/-- Witness of C30: one fallback placement on the demo list. -/
theorem fallback_placements_distinct_ids_witness :
    (demoEvidence = [] ∨ demoEvidence = demoEvidence) ∧
    ∃ st, handleSceneClick ⟨1, 0, 2⟩ .rejected 100
        (toggleAddingMode { SceneState.init "1" with evidence := demoEvidence }) = .ok st ∧
      (st.evidence.map (fun e => e.evidence_id)).Nodup ∧
      st.evidence.map (fun e => e.evidence_id) = sequentialIds 0 st.evidence.length :=
  ⟨Or.inr rfl, _, rfl,
    fallback_placements_distinct_ids demoEvidence _ (Or.inr rfl)
      (FallbackPlaced.place ⟨1, 0, 2⟩ .rejected 100
        (FallbackPlaced.toggle
          (FallbackPlaced.start { SceneState.init "1" with evidence := demoEvidence } rfl))
        rfl rfl)⟩

/-! ## Session store -/

theorem JsObject.get?_remove_self {α : Type} (o : JsObject α) (k : String) :
    (o.remove k).get? k = none := by
  unfold JsObject.remove JsObject.get?
  apply lookup_eq_none_of_any_false
  rw [List.any_eq_false]
  intro kv hkv
  have := (List.mem_filter.mp hkv).2
  simpa using this

/-- C22: the session round trip. For every user identity `u` that the JSON codec
round-trips, after `login(u)` the current user is `u` and the value stored under
`crimetryx_user` is the JSON text of `u`; mounting the application again over that
storage succeeds and yields the same session, with `u` as the current user. -/
theorem login_round_trip (json : JsonApi) (u : JsValue) (s : Session)
    (h : json.RoundTrips u) :
    (login json (some u) s).user = some u ∧
    (∃ text, json.stringify u = some text ∧
      (login json (some u) s).localStorage.get? userKey = some text) ∧
    initUser json (login json (some u) s).localStorage = .ok (some u) ∧
    initSession json (login json (some u) s).localStorage = .ok (login json (some u) s) := by
  obtain ⟨text, hs, hne, hp⟩ := h
  have hget : (login json (some u) s).localStorage.get? userKey = some text := by
    simp [login, JsObject.get?_set, hs]
  have hinit : initUser json (login json (some u) s).localStorage = .ok (some u) := by
    simp [initUser, hget, hne, hp]
  refine ⟨rfl, ⟨text, hs, hget⟩, hinit, ?_⟩
  simp only [initSession, hinit]
  rfl

/-- Witness of C22: the demo identity, with the flat fragment of JSON. -/
theorem login_round_trip_witness :
    flatJson.RoundTrips demoIdentity ∧
    (login flatJson (some demoIdentity) ⟨some .null, ⟨[]⟩⟩).user = some demoIdentity ∧
    (∃ text, flatJson.stringify demoIdentity = some text ∧
      (login flatJson (some demoIdentity) ⟨some .null, ⟨[]⟩⟩).localStorage.get? userKey
        = some text) ∧
    initUser flatJson (login flatJson (some demoIdentity) ⟨some .null, ⟨[]⟩⟩).localStorage
      = .ok (some demoIdentity) ∧
    initSession flatJson (login flatJson (some demoIdentity) ⟨some .null, ⟨[]⟩⟩).localStorage
      = .ok (login flatJson (some demoIdentity) ⟨some .null, ⟨[]⟩⟩) :=
  ⟨⟨_, rfl, by decide, rfl⟩,
    login_round_trip flatJson demoIdentity ⟨some .null, ⟨[]⟩⟩ ⟨_, rfl, by decide, rfl⟩⟩

/-- C23: for every session state, `logout` leaves no current user (the `user` cell
is `null`) and no value under `crimetryx_user`; mounting the application again over
the storage it leaves succeeds and reports no current user. -/
theorem logout_clears (json : JsonApi) (s : Session) :
    (logout s).user = some .null ∧ truthy? (logout s).user = false ∧
    (logout s).localStorage.get? userKey = none ∧
    initUser json (logout s).localStorage = .ok (some .null) ∧
    initSession json (logout s).localStorage = .ok (logout s) := by
  have hget : (logout s).localStorage.get? userKey = none :=
    JsObject.get?_remove_self _ _
  have hinit : initUser json (logout s).localStorage = .ok (some .null) := by
    simp [initUser, hget]
  refine ⟨rfl, rfl, hget, hinit, ?_⟩
  simp only [initSession, hinit]
  rfl

/-- What `handleSubmit` does when its `try` block throws. -/
theorem LoginPage.handleSubmit_throws (json : JsonApi) (resp : JsonResponse) (v : LoginView)
    (h : resp.throws = true) :
    LoginPage.handleSubmit json resp v =
      .ok { LoginPage.handleSubmitCatch json
              { v with
                error := .str ""
                loading := true
                requests := v.requests ++
                  [Request.mk "POST" "/api/auth/login"
                    (Body.credentials v.investigatorId v.password)] } with
            loading := false } := by
  cases resp with
  | rejected => rfl
  | unreadable ok => rfl
  | body ok data =>
    cases data <;> first | rfl | simp [JsonResponse.throws] at h

/-- C24: on a transport failure of the auth request, `handleSubmit` returns normally
with loading off. It logs in (and navigates to `/`) if and only if the submitted pair
is exactly `demo` / `demo123`; then the session is the one `login` makes of the
default identity, investigator id `demo`, name `Demo Investigator`, role
`investigator`. For every other pair the session is unchanged, nothing is navigated
to, and the error is `Connection error. Try demo/demo123`. -/
theorem LoginPage.handleSubmit_transport_failure (json : JsonApi) (v : LoginView) :
    demoIdentity = .obj [("investigator_id", .str "demo"), ("name", .str "Demo Investigator"),
      ("role", .str "investigator")] ∧
    ∃ v', LoginPage.handleSubmit json .rejected v = .ok v' ∧ v'.loading = false ∧
      ((v.investigatorId = "demo" ∧ v.password = "demo123") →
        v'.session = login json (some demoIdentity) v.session ∧
        v'.session.user = some demoIdentity ∧
        v'.navigations = v.navigations ++ ["/"] ∧ v'.error = .str "") ∧
      (¬ (v.investigatorId = "demo" ∧ v.password = "demo123") →
        v'.session = v.session ∧ v'.navigations = v.navigations ∧
        v'.error = .str "Connection error. Try demo/demo123") ∧
      (v'.navigations = v.navigations ++ ["/"] ↔
        (v.investigatorId = "demo" ∧ v.password = "demo123")) := by
  refine ⟨rfl, _, LoginPage.handleSubmit_throws json .rejected v rfl, rfl, ?_, ?_, ?_⟩
  · intro h
    simp [LoginPage.handleSubmitCatch, h, login]
  · intro h
    simp [LoginPage.handleSubmitCatch, h]
  · by_cases h : v.investigatorId = "demo" ∧ v.password = "demo123"
    · simp [LoginPage.handleSubmitCatch, h]
    · simp [LoginPage.handleSubmitCatch, h]

/-! ## Login and routes -/

theorem LoginPage.handleSubmitTry_body (json : JsonApi) (ok : Bool) (data : JsValue)
    (v : LoginView) (h : data ≠ .null) :
    LoginPage.handleSubmitTry json (.body ok data) v =
      if (ok && truthy? (data.get? "success")) = true then
        .ok { v with
              session := login json (data.get? "user") v.session
              navigations := v.navigations ++ ["/"] }
      else
        .ok { v with
              error :=
                if truthy? (data.get? "error") then (data.get? "error").getD .null
                else .str "Invalid credentials" } := by
  cases data <;> first | exact absurd rfl h | rfl

/-- What `handleSubmit` does when the backend answers with a body other than `null`. -/
theorem LoginPage.handleSubmit_body (json : JsonApi) (ok : Bool) (data : JsValue)
    (v : LoginView) (h : data ≠ .null) :
    LoginPage.handleSubmit json (.body ok data) v =
      .ok (if ok = true ∧ truthy? (data.get? "success") = true then
          { v with
            error := .str ""
            loading := false
            requests := v.requests ++
              [Request.mk "POST" "/api/auth/login"
                (Body.credentials v.investigatorId v.password)]
            session := login json (data.get? "user") v.session
            navigations := v.navigations ++ ["/"] }
        else
          { v with
            error :=
              if truthy? (data.get? "error") then (data.get? "error").getD .null
              else .str "Invalid credentials"
            loading := false
            requests := v.requests ++
              [Request.mk "POST" "/api/auth/login"
                (Body.credentials v.investigatorId v.password)] }) := by
  unfold LoginPage.handleSubmit
  simp only [LoginPage.handleSubmitTry_body json ok data _ h]
  by_cases hc : ok = true ∧ truthy? (data.get? "success") = true
  · have hb : (ok && truthy? (data.get? "success")) = true := by
      rw [Bool.and_eq_true]
      exact hc
    rw [if_pos hc, if_pos hb]
  · have hb : ¬ (ok && truthy? (data.get? "success")) = true := by
      rw [Bool.and_eq_true]
      exact hc
    rw [if_neg hc, if_neg hb]

/-- C25, counterexample: the auth backend responds with a non-success status and a
body that is not JSON. With the pair `demo` / `demo123` submitted, `handleSubmit`
logs in, although the response is not ok; with another pair the error shown is the
connection error, not the backend's text nor `Invalid credentials`. -/
theorem LoginPage.handleSubmit_unreadable_answer :
    (∃ v', LoginPage.handleSubmit flatJson (.unreadable false)
        { investigatorId := "demo", password := "demo123", showPassword := false,
          error := .str "", loading := false, session := ⟨some .null, ⟨[]⟩⟩,
          requests := [], navigations := [] } = .ok v' ∧
      v'.session.user = some demoIdentity ∧ v'.navigations = ["/"]) ∧
    (∃ v', LoginPage.handleSubmit flatJson (.unreadable false)
        { investigatorId := "watson", password := "221b", showPassword := false,
          error := .str "", loading := false, session := ⟨some .null, ⟨[]⟩⟩,
          requests := [], navigations := [] } = .ok v' ∧
      v'.error = .str "Connection error. Try demo/demo123" ∧
      v'.error ≠ .str "Invalid credentials") := by
  refine ⟨⟨_, rfl, rfl, rfl⟩, ⟨_, rfl, rfl, ?_⟩⟩
  intro h
  have h' : JsValue.str "Connection error. Try demo/demo123" = .str "Invalid credentials" := h
  injection h' with h''
  exact absurd h'' (by decide)

/-- C25, amended: `handleSubmit` returns normally with loading off for every input.
When the auth backend responds with a JSON body other than `null`, it logs in (and
navigates to `/`) if and only if the response is ok and the `success` flag of the
body is truthy, and then the session is the one `login` makes of the returned user;
otherwise the session is unchanged, nothing is navigated to, and the error is the
`error` value of the body when that is truthy and `Invalid credentials` when it is
not. A response whose body cannot be read, or is `null`, is handled like a transport
failure. -/
theorem LoginPage.handleSubmit_backend_answer (json : JsonApi) (resp : JsonResponse)
    (v : LoginView) :
    ∃ v', LoginPage.handleSubmit json resp v = .ok v' ∧ v'.loading = false ∧
      (∀ ok data, resp = .body ok data → data ≠ .null →
        ((ok = true ∧ truthy? (data.get? "success") = true) →
          v'.session = login json (data.get? "user") v.session ∧
          v'.session.user = data.get? "user" ∧
          v'.navigations = v.navigations ++ ["/"]) ∧
        (¬ (ok = true ∧ truthy? (data.get? "success") = true) →
          v'.session = v.session ∧ v'.navigations = v.navigations ∧
          (truthy? (data.get? "error") = true → some v'.error = data.get? "error") ∧
          (truthy? (data.get? "error") = false → v'.error = .str "Invalid credentials")) ∧
        (v'.navigations = v.navigations ++ ["/"] ↔
          (ok = true ∧ truthy? (data.get? "success") = true))) ∧
      (resp.throws = true →
        LoginPage.handleSubmit json resp v = LoginPage.handleSubmit json .rejected v) := by
  have hok : ∃ v', LoginPage.handleSubmit json resp v = .ok v' := ⟨_, rfl⟩
  obtain ⟨v', hv'⟩ := hok
  have hload : v'.loading = false := by
    unfold LoginPage.handleSubmit at hv'
    cases hv'
    rfl
  refine ⟨v', hv', hload, ?_, ?_⟩
  · intro ok data hresp hnull
    subst hresp
    rw [LoginPage.handleSubmit_body json ok data v hnull] at hv'
    by_cases hc : ok = true ∧ truthy? (data.get? "success") = true
    · rw [if_pos hc] at hv'
      cases hv'
      refine ⟨fun _ => ⟨rfl, rfl, rfl⟩, fun h => absurd hc h, ?_⟩
      simp [hc]
    · rw [if_neg hc] at hv'
      cases hv'
      refine ⟨fun h => absurd h hc, fun _ => ⟨rfl, rfl, ?_, ?_⟩, ?_⟩
      · intro he
        cases hd : data.get? "error" with
        | none => simp [hd, truthy?] at he
        | some x => simp [hd, truthy?] at he ⊢; simp [he]
      · intro he
        simp [he]
      · simp [hc]
  · intro hthrows
    rw [LoginPage.handleSubmit_throws json resp v hthrows,
      LoginPage.handleSubmit_throws json .rejected v rfl]

/-- C26: the session gates the case and dashboard routes. The route table consists
of `/login`, the eight routes wrapped in `ProtectedRoute`, and the catch-all. For
each of the eight, when there is no current user the element renders a redirect to
`/login`, and when there is a current user it renders the page of the route. -/
theorem protected_routes_gate (user : Option JsValue) :
    (truthy? user = false →
      routes.map (fun r => (r.path, r.element user)) =
        [ ("/login", Rendered.page "LoginPage"),
          ("/", Rendered.navigate "/login"),
          ("/dashboard", Rendered.navigate "/login"),
          ("/predictions", Rendered.navigate "/login"),
          ("/network", Rendered.navigate "/login"),
          ("/case/:caseId/setup", Rendered.navigate "/login"),
          ("/case/:caseId/scene", Rendered.navigate "/login"),
          ("/case/:caseId/workflow", Rendered.navigate "/login"),
          ("/case/:caseId/report", Rendered.navigate "/login"),
          ("*", Rendered.navigate "/") ]) ∧
    (truthy? user = true →
      routes.map (fun r => (r.path, r.element user)) =
        [ ("/login", Rendered.page "LoginPage"),
          ("/", Rendered.page "DashboardPage"),
          ("/dashboard", Rendered.page "DashboardPage"),
          ("/predictions", Rendered.page "PredictionsPage"),
          ("/network", Rendered.page "NetworkPage"),
          ("/case/:caseId/setup", Rendered.page "CaseSetupPage"),
          ("/case/:caseId/scene", Rendered.page "SceneViewerPage"),
          ("/case/:caseId/workflow", Rendered.page "WorkflowCanvasPage"),
          ("/case/:caseId/report", Rendered.page "ReportPage"),
          ("*", Rendered.navigate "/") ]) ∧
    (∀ children, truthy? user = false → ProtectedRoute user children = .navigate "/login") ∧
    (∀ children, truthy? user = true → ProtectedRoute user children = children) := by
  refine ⟨?_, ?_, ?_, ?_⟩
  · intro h
    simp [routes, ProtectedRoute, h]
  · intro h
    simp [routes, ProtectedRoute, h]
  · intro children h
    simp [ProtectedRoute, h]
  · intro children h
    simp [ProtectedRoute, h]

/-! ## Scene upload: one poll -/

/-- The four kinds of answer of a poll, on a body other than `null`. -/
theorem checkStatusTry_body (ok : Bool) (data : JsValue) (st : SetupState) (h : data ≠ .null) :
    (data.get? "status" = some (.str "completed") →
      checkStatusTry (.body ok data) st = .ok { st with status := "ready" }) ∧
    (data.get? "status" = some (.str "failed") →
      checkStatusTry (.body ok data) st =
        .ok { st with status := "error", error := "Processing failed. Please try again." }) ∧
    ((JsonResponse.body ok data).reschedules = true →
      checkStatusTry (.body ok data) st = .ok { st with pendingPolls := st.pendingPolls + 1 }) ∧
    ((JsonResponse.body ok data).reschedules = false →
      data.get? "status" = some (.str "completed") ∨ data.get? "status" = some (.str "failed")) := by
  have htry : checkStatusTry (.body ok data) st =
      match data.get? "status" with
      | some (.str "completed") => .ok { st with status := "ready" }
      | some (.str "failed") =>
        .ok { st with status := "error", error := "Processing failed. Please try again." }
      | _ => .ok { st with pendingPolls := st.pendingPolls + 1 } := by
    cases data <;> first | exact absurd rfl h | rfl
  have hres : (JsonResponse.body ok data).reschedules =
      match data.get? "status" with
      | some (.str status) => status != "completed" && status != "failed"
      | _ => true := by
    cases data <;> first | exact absurd rfl h | rfl
  rw [htry, hres]
  cases hs : data.get? "status" with
  | none => simp
  | some x =>
    cases x with
    | str s =>
      by_cases h1 : s = "completed"
      · subst h1
        simp
      · by_cases h2 : s = "failed"
        · subst h2
          simp
        · simp [h1, h2]
    | _ => simp

theorem throws_not_reschedules (resp : JsonResponse) (h : resp.throws = true) :
    resp.reschedules = false := by
  cases resp with
  | rejected => rfl
  | unreadable ok => rfl
  | body ok data => cases data <;> first | rfl | (simp [JsonResponse.throws] at h)

/-- What one run of `checkStatus` does, by the kind of answer. -/
theorem checkStatus_spec (resp : JsonResponse) (st : SetupState) :
    ∃ st', checkStatus resp st = .ok st' ∧ st'.caseId = st.caseId ∧
      st'.requests = st.requests ++ [Request.mk "GET" (sceneStatusUrl st.caseId) Body.none] ∧
      (resp.reschedules = true →
        st'.status = st.status ∧ st'.error = st.error ∧
        st'.pendingPolls = st.pendingPolls + 1) ∧
      (resp.reschedules = false → st'.pendingPolls = st.pendingPolls) ∧
      (resp.throws = true →
        st'.status = "ready" ∧ st'.error = st.error ∧ st'.pendingPolls = st.pendingPolls) ∧
      (∀ ok data, resp = .body ok data → data ≠ .null →
        (data.get? "status" = some (.str "completed") →
          st'.status = "ready" ∧ st'.error = st.error ∧ st'.pendingPolls = st.pendingPolls) ∧
        (data.get? "status" = some (.str "failed") →
          st'.status = "error" ∧ st'.error = "Processing failed. Please try again." ∧
          st'.pendingPolls = st.pendingPolls)) := by
  have hthrow : resp.throws = true →
      checkStatus resp st = .ok { st with
        requests := st.requests ++ [Request.mk "GET" (sceneStatusUrl st.caseId) Body.none]
        status := "ready" } := by
    intro h
    cases resp with
    | rejected => rfl
    | unreadable ok => rfl
    | body ok data => cases data <;> first | rfl | simp [JsonResponse.throws] at h
  by_cases ht : resp.throws = true
  · refine ⟨_, hthrow ht, rfl, rfl, ?_, fun _ => rfl, fun _ => ⟨rfl, rfl, rfl⟩, ?_⟩
    · intro hr
      rw [throws_not_reschedules resp ht] at hr
      cases hr
    · intro ok data hresp hnull
      subst hresp
      cases data <;> first | exact absurd rfl hnull | simp [JsonResponse.throws] at ht
  · cases resp with
    | rejected => exact absurd rfl ht
    | unreadable ok => exact absurd rfl ht
    | body ok data =>
      have hnull : data ≠ .null := by
        intro h
        subst h
        exact ht rfl
      obtain ⟨hc, hf, hr, hcl⟩ := checkStatusTry_body ok data
        { st with
          requests := st.requests ++ [Request.mk "GET" (sceneStatusUrl st.caseId) Body.none] }
        hnull
      have hcompleted : data.get? "status" = some (.str "completed") →
          checkStatus (.body ok data) st = .ok { st with
            requests := st.requests ++ [Request.mk "GET" (sceneStatusUrl st.caseId) Body.none]
            status := "ready" } := by
        intro h
        simp only [checkStatus, hc h]
      have hfailed : data.get? "status" = some (.str "failed") →
          checkStatus (.body ok data) st = .ok { st with
            requests := st.requests ++ [Request.mk "GET" (sceneStatusUrl st.caseId) Body.none]
            status := "error", error := "Processing failed. Please try again." } := by
        intro h
        simp only [checkStatus, hf h]
      have hother : (JsonResponse.body ok data).reschedules = true →
          checkStatus (.body ok data) st = .ok { st with
            requests := st.requests ++ [Request.mk "GET" (sceneStatusUrl st.caseId) Body.none]
            pendingPolls := st.pendingPolls + 1 } := by
        intro h
        simp only [checkStatus, hr h]
      cases hres : (JsonResponse.body ok data).reschedules
      · rcases hcl hres with h | h
        · refine ⟨_, hcompleted h, rfl, rfl, (fun h' => by cases h'), fun _ => rfl,
            fun h' => absurd h' ht, ?_⟩
          intro ok' data' heq _
          cases heq
          refine ⟨fun _ => ⟨rfl, rfl, rfl⟩, fun h' => ?_⟩
          rw [h] at h'
          exact absurd h' (by simp)
        · refine ⟨_, hfailed h, rfl, rfl, (fun h' => by cases h'), fun _ => rfl,
            fun h' => absurd h' ht, ?_⟩
          intro ok' data' heq _
          cases heq
          refine ⟨fun h' => ?_, fun _ => ⟨rfl, rfl, rfl⟩⟩
          rw [h] at h'
          exact absurd h' (by simp)
      · refine ⟨_, hother hres, rfl, rfl, fun _ => ⟨rfl, rfl, rfl⟩, (fun h' => by cases h'),
          fun h' => absurd h' ht, ?_⟩
        intro ok' data' heq hn
        cases heq
        refine ⟨fun h' => ?_, fun h' => ?_⟩
        · have := hc h'
          rw [hr hres] at this
          simp at this
        · have := hf h'
          rw [hr hres] at this
          simp at this

/-! ## Scene upload: the polling -/

theorem runPendingPolls_idle (resps : List JsonResponse) (st : SetupState)
    (h : st.pendingPolls = 0) : runPendingPolls resps st = .ok st := by
  cases resps with
  | nil => rfl
  | cons r rest => simp [runPendingPolls, h]

theorem runPendingPolls_rescheduling (pre : List JsonResponse) :
    ∀ st : SetupState, st.pendingPolls = 1 → (∀ r ∈ pre, r.reschedules = true) →
      ∃ st', runPendingPolls pre st = .ok st' ∧ st'.status = st.status ∧
        st'.error = st.error ∧ st'.pendingPolls = 1 ∧ st'.caseId = st.caseId ∧
        st'.requests.length = st.requests.length + pre.length := by
  induction pre with
  | nil => intro st h _; exact ⟨st, rfl, rfl, rfl, h, rfl, rfl⟩
  | cons r rest ih =>
    intro st h hall
    obtain ⟨s1, hs1, hcase, hreq, hres, -, -, -⟩ :=
      checkStatus_spec r { st with pendingPolls := st.pendingPolls - 1 }
    obtain ⟨h1, h2, h3⟩ := hres (hall r (List.mem_cons_self _ _))
    have hp : s1.pendingPolls = 1 := by
      rw [h3]
      show st.pendingPolls - 1 + 1 = 1
      omega
    obtain ⟨st', hst', g1, g2, g3, g4, g5⟩ :=
      ih s1 hp (fun x hx => hall x (List.mem_cons_of_mem _ hx))
    refine ⟨st', ?_, g1.trans h1, g2.trans h2, g3, g4.trans hcase, ?_⟩
    · have hne : ¬ st.pendingPolls = 0 := by omega
      simp only [runPendingPolls, hne, if_false, hs1]
      exact hst'
    · rw [g5, hreq]
      simp
      omega

theorem pollProcessingStatus_eq (resps : List JsonResponse) (st : SetupState)
    (h : st.pendingPolls = 0) (hne : resps ≠ []) :
    pollProcessingStatus resps st = runPendingPolls resps { st with pendingPolls := 1 } := by
  cases resps with
  | nil => exact absurd rfl hne
  | cons r rest =>
    have hst : ({ st with pendingPolls := 0 } : SetupState) = st := by
      cases st
      simp only at h
      subst h
      rfl
    simp only [pollProcessingStatus, runPendingPolls]
    rw [if_neg (by decide)]
    show _ = match checkStatus r { st with pendingPolls := 0 } with
      | .error err => .error err
      | .ok st1 => runPendingPolls rest st1
    rw [hst]

/-- C27: the scene-status polling. Each poll issues one request and maps its answer
as follows: `completed` sets the status to `ready`, `failed` sets it to `error` with
the message `Processing failed. Please try again.`, a poll that throws (the fetch
rejects, or the body is unreadable or `null`) sets it to `ready`, and in these three
cases no further poll is scheduled; any other answer leaves status and message
unchanged and schedules exactly one further poll. For every sequence of answers: as
long as the answers are of the last kind the polling goes on, one request per answer,
with one poll pending; the first answer of another kind decides the status as above
and ends the polling, whatever answers would follow. -/
theorem pollProcessingStatus_maps_polls :
    (∀ (resp : JsonResponse) (st : SetupState),
      ∃ st', checkStatus resp st = .ok st' ∧
        st'.requests = st.requests ++ [Request.mk "GET" (sceneStatusUrl st.caseId) Body.none] ∧
        (∀ ok data, resp = .body ok data → data ≠ .null →
          (data.get? "status" = some (.str "completed") →
            st'.status = "ready" ∧ st'.error = st.error ∧
            st'.pendingPolls = st.pendingPolls) ∧
          (data.get? "status" = some (.str "failed") →
            st'.status = "error" ∧ st'.error = "Processing failed. Please try again." ∧
            st'.pendingPolls = st.pendingPolls)) ∧
        (resp.reschedules = true →
          st'.status = st.status ∧ st'.error = st.error ∧
          st'.pendingPolls = st.pendingPolls + 1) ∧
        (resp.throws = true →
          st'.status = "ready" ∧ st'.error = st.error ∧
          st'.pendingPolls = st.pendingPolls)) ∧
    (∀ (pre : List JsonResponse) (resp : JsonResponse) (post : List JsonResponse)
        (st : SetupState),
      st.pendingPolls = 0 → (∀ r ∈ pre, r.reschedules = true) → resp.reschedules = false →
      ∃ st', pollProcessingStatus (pre ++ resp :: post) st = .ok st' ∧
        st'.pendingPolls = 0 ∧ st'.requests.length = st.requests.length + pre.length + 1 ∧
        (resp.throws = true → st'.status = "ready" ∧ st'.error = st.error) ∧
        (∀ ok data, resp = .body ok data → data ≠ .null →
          (data.get? "status" = some (.str "completed") →
            st'.status = "ready" ∧ st'.error = st.error) ∧
          (data.get? "status" = some (.str "failed") →
            st'.status = "error" ∧ st'.error = "Processing failed. Please try again."))) ∧
    (∀ (resps : List JsonResponse) (st : SetupState),
      st.pendingPolls = 0 → resps ≠ [] → (∀ r ∈ resps, r.reschedules = true) →
      ∃ st', pollProcessingStatus resps st = .ok st' ∧
        st'.status = st.status ∧ st'.error = st.error ∧ st'.pendingPolls = 1 ∧
        st'.requests.length = st.requests.length + resps.length) := by
  refine ⟨?_, ?_, ?_⟩
  · intro resp st
    obtain ⟨st', h, -, hreq, hres, -, hthrow, hbody⟩ := checkStatus_spec resp st
    exact ⟨st', h, hreq, hbody, hres, hthrow⟩
  · intro pre resp post st h0 hall hterm
    rw [pollProcessingStatus_eq _ st h0 (by simp)]
    have key : ∀ (pre : List JsonResponse) (s : SetupState), s.pendingPolls = 1 →
        (∀ r ∈ pre, r.reschedules = true) →
        ∃ s0 st', runPendingPolls pre s = .ok s0 ∧
          checkStatus resp { s0 with pendingPolls := 0 } = .ok st' ∧
          runPendingPolls (pre ++ resp :: post) s = .ok st' := by
      intro pre
      induction pre with
      | nil =>
        intro s hs _
        obtain ⟨st', hst', -, -, -, hpend, -, -⟩ :=
          checkStatus_spec resp { s with pendingPolls := 0 }
        refine ⟨s, st', rfl, hst', ?_⟩
        have hne : ¬ s.pendingPolls = 0 := by omega
        have hs1 : s.pendingPolls - 1 = 0 := by omega
        simp only [List.nil_append, runPendingPolls, hne, if_false, hs1, hst']
        exact runPendingPolls_idle post st' (hpend hterm)
      | cons r rest ih =>
        intro s hs hall'
        obtain ⟨s1, hs1, -, -, hres, -, -, -⟩ :=
          checkStatus_spec r { s with pendingPolls := s.pendingPolls - 1 }
        obtain ⟨-, -, h3⟩ := hres (hall' r (List.mem_cons_self _ _))
        have hp : s1.pendingPolls = 1 := by
          rw [h3]
          show s.pendingPolls - 1 + 1 = 1
          omega
        obtain ⟨s0, st', g1, g2, g3⟩ :=
          ih s1 hp (fun x hx => hall' x (List.mem_cons_of_mem _ hx))
        have hne : ¬ s.pendingPolls = 0 := by omega
        refine ⟨s0, st', ?_, g2, ?_⟩
        · simp only [runPendingPolls, hne, if_false, hs1]
          exact g1
        · simp only [List.cons_append, runPendingPolls, hne, if_false, hs1]
          exact g3
    obtain ⟨s0, st', g1, g2, g3⟩ := key pre { st with pendingPolls := 1 } rfl hall
    obtain ⟨s0', hs0', a1, a2, a3, a4, a5⟩ :=
      runPendingPolls_rescheduling pre { st with pendingPolls := 1 } rfl hall
    rw [g1] at hs0'
    cases hs0'
    obtain ⟨st2, hst2, -, hreq, -, hpend, hthrow, hbody⟩ :=
      checkStatus_spec resp { s0 with pendingPolls := 0 }
    rw [g2] at hst2
    cases hst2
    refine ⟨st', g3, hpend hterm, ?_, ?_, ?_⟩
    · rw [hreq]
      simp only [List.length_append, List.length_singleton]
      rw [a5]
    · intro ht
      obtain ⟨b1, b2, -⟩ := hthrow ht
      exact ⟨b1, b2.trans a2⟩
    · intro ok data hresp hnull
      obtain ⟨c1, c2⟩ := hbody ok data hresp hnull
      refine ⟨fun h => ?_, fun h => ?_⟩
      · obtain ⟨b1, b2, -⟩ := c1 h
        exact ⟨b1, b2.trans a2⟩
      · obtain ⟨b1, b2, -⟩ := c2 h
        exact ⟨b1, b2⟩
  · intro resps st h0 hne hall
    rw [pollProcessingStatus_eq _ st h0 hne]
    obtain ⟨st', hst', a1, a2, a3, -, a5⟩ :=
      runPendingPolls_rescheduling resps { st with pendingPolls := 1 } rfl hall
    exact ⟨st', hst', a1, a2, a3, a5⟩

/-! ## Agent detail modal -/

/-- C28, counterexample: an output whose `reasoning` is the empty string is returned
unchanged, with its other field, although `reasoning` is a string and is not valid
JSON; and the output `false`, which has no `reasoning` field, is turned into `null`
instead of being returned unchanged. -/
theorem parseOutput_empty_reasoning :
    parseOutput flatJson (some (.obj [("reasoning", .str ""), ("scenarios", .arr [])]))
        = .obj [("reasoning", .str ""), ("scenarios", .arr [])] ∧
      flatJson.parse (stripCodeFences "") = none ∧
      parseOutput flatJson (some (.obj [("reasoning", .str ""), ("scenarios", .arr [])]))
        ≠ .obj [("text", .str (stripCodeFences ""))] ∧
      parseOutput flatJson (some (.bool false)) = .null ∧
      parseOutput flatJson (some (.bool false)) ≠ .bool false := by
  refine ⟨rfl, rfl, ?_, rfl, ?_⟩
  · intro h
    have h' : JsValue.obj [("reasoning", .str ""), ("scenarios", .arr [])]
        = .obj [("text", .str (stripCodeFences ""))] := h
    injection h' with h1
    injection h1 with h2 h3
    cases h3
  · intro h
    have h' : JsValue.null = .bool false := h
    cases h'

/-- C28, amended: `parseOutput` returns `null` for a missing, `null` or otherwise
falsy output; it returns the output unchanged for every truthy output that has no
`reasoning` field holding a non-empty string; and for every truthy output whose
`reasoning` is a non-empty string it returns the JSON value parsed from that string
with the code-fence markers removed, or, when that text is not valid JSON, the
single-field record with `text` the stripped reasoning. In these two cases the value
returned is determined by the reasoning string alone: no other field of the output
is carried over. -/
theorem parseOutput_spec (json : JsonApi) :
    parseOutput json none = .null ∧ parseOutput json (some .null) = .null ∧
    (∀ out, out.truthy = false → parseOutput json (some out) = .null) ∧
    (∀ out, out.truthy = true →
      (∀ r, out.get? "reasoning" = some (.str r) → r = "") →
      parseOutput json (some out) = out) ∧
    (∀ out r, out.truthy = true → out.get? "reasoning" = some (.str r) → r ≠ "" →
      (∀ parsed, json.parse (stripCodeFences r) = some parsed →
        parseOutput json (some out) = parsed) ∧
      (json.parse (stripCodeFences r) = none →
        parseOutput json (some out) = .obj [("text", .str (stripCodeFences r))])) ∧
    (∀ out out' r, out.truthy = true → out'.truthy = true → r ≠ "" →
      out.get? "reasoning" = some (.str r) → out'.get? "reasoning" = some (.str r) →
      parseOutput json (some out) = parseOutput json (some out')) := by
  have hstr : ∀ out r, out.truthy = true → out.get? "reasoning" = some (.str r) → r ≠ "" →
      parseOutput json (some out) =
        match json.parse (stripCodeFences r) with
        | some parsed => parsed
        | none => .obj [("text", .str (stripCodeFences r))] := by
    intro out r ht hr hne
    simp [parseOutput, ht, hr, hne]
  refine ⟨rfl, rfl, ?_, ?_, ?_, ?_⟩
  · intro out ht
    simp [parseOutput, ht]
  · intro out ht hno
    cases hr : out.get? "reasoning" with
    | none => simp [parseOutput, ht, hr]
    | some x =>
      cases x with
      | str r =>
        have := hno r hr
        subst this
        simp [parseOutput, ht, hr]
      | _ => simp [parseOutput, ht, hr]
  · intro out r ht hr hne
    rw [hstr out r ht hr hne]
    refine ⟨fun parsed hp => by rw [hp], fun hp => by rw [hp]⟩
  · intro out out' r ht ht' hne hr hr'
    rw [hstr out r ht hr hne, hstr out' r ht' hr' hne]

set_option maxRecDepth 100000 in
/-- The demo outputs in the modal, with the flat fragment of JSON: the prose
`reasoning` of the scene interpreter is not JSON, so only it is shown, as `text`;
the output of the hypothesis challenger has no `reasoning` and is shown as it is. -/
theorem parseOutput_demo :
    parseOutput flatJson (some (getDemoOutput "scene_interpreter")) =
      .obj [("text", .str "The scene shows a single-story residence with limited entry points. The main entrance shows signs of forced entry, while the back window was found unlocked.")] ∧
    parseOutput flatJson (some (getDemoOutput "hypothesis_challenger")) =
      getDemoOutput "hypothesis_challenger" :=
  ⟨rfl, rfl⟩

end Crimetryx
